import Mathlib

/-!
# A verification model of the kilocup match-simulation core

This file is a shallow embedding, in Lean 4, of the real-time match
simulation of the kilocup repository:

* `src/lib/game/math/vec2.ts`      — 2D vector algebra,
* the physics module (`physics.ts`) — player/ball integration, goal
  detection, claim/steal/kick primitives,
* `src/lib/game/sim/ai.ts`         — the CPU opponent controller,
* `src/lib/game/engine/reset.ts`   — kickoff reset,
* `src/lib/game/sim/step.ts`       — the per-tick orchestrator `stepSim`.

Modelling conventions:

* JavaScript `number` is modelled as `ℝ` (exact real arithmetic; the
  claims under study do not hinge on IEEE-754 rounding).
* Mutable aliased objects (`match.playersById` and `team.players` hold the
  same `Player` objects) are modelled by a single player store
  `MatchState.playersById : List Player`; teams carry rosters of player
  ids and team-indexed views are derived by lookup, so an update through
  either view is an update of the one store, exactly as mutation of the
  shared objects behaves in the source.
* `Infinity`-seeded "best candidate" loops are modelled with an `Option`
  accumulator: `none` is the initial `Infinity` state.
* The goal-celebration VFX subsystem only reads the config and writes the
  isolated `engine.vfx` field; it is abstracted as a type parameter `Vfx`
  together with its two entry points (`stepVfx`, `triggerGoalVfx`), over
  which every theorem quantifies.
* `Math.random()` is an oracle `rand : ℕ → ℝ` passed to the step; each
  syntactic call site draws at a distinct index.
* `Math.atan2`, `Math.sin`, `Math.cos`, `Math.sqrt` and `Math.pow` are
  the corresponding exact real functions.
-/

namespace Kilocup

noncomputable section

/-! ## vec2.ts — vector algebra -/

structure Vec2 where
  x : ℝ
  y : ℝ

namespace V

def v (x y : ℝ) : Vec2 := ⟨x, y⟩

def add (a b : Vec2) : Vec2 := ⟨a.x + b.x, a.y + b.y⟩

def sub (a b : Vec2) : Vec2 := ⟨a.x - b.x, a.y - b.y⟩

def mul (a : Vec2) (s : ℝ) : Vec2 := ⟨a.x * s, a.y * s⟩

def dot (a b : Vec2) : ℝ := a.x * b.x + a.y * b.y

def lenSq (a : Vec2) : ℝ := a.x * a.x + a.y * a.y

def len (a : Vec2) : ℝ := Real.sqrt (lenSq a)

/-- `V.norm`: normalize with the source's epsilon guard
(`if (l <= 1e-9) return {x:0,y:0}`). -/
def norm (a : Vec2) : Vec2 :=
  if len a ≤ 1 / 1000000000 then ⟨0, 0⟩ else ⟨a.x / len a, a.y / len a⟩

def distSq (a b : Vec2) : ℝ := lenSq (sub a b)

def dist (a b : Vec2) : ℝ := Real.sqrt (distSq a b)

def clampLen (a : Vec2) (maxLen : ℝ) : Vec2 :=
  if len a ≤ maxLen then a
  else if len a ≤ 1 / 1000000000 then ⟨0, 0⟩
  else ⟨a.x * (maxLen / len a), a.y * (maxLen / len a)⟩

end V

/-- `clamp(x, lo, hi) = Math.max(lo, Math.min(hi, x))`. -/
def clamp (x lo hi : ℝ) : ℝ := max lo (min hi x)

/-- `Math.atan2` as a real function (the signed-zero corner cases of
IEEE-754, which only matter at exactly (0,0) edges, collapse; JS returns 0
at (0,0) which this definition matches). -/
def atan2 (y x : ℝ) : ℝ :=
  if 0 < x then Real.arctan (y / x)
  else if x < 0 then
    (if 0 ≤ y then Real.arctan (y / x) + Real.pi else Real.arctan (y / x) - Real.pi)
  else
    (if 0 < y then Real.pi / 2 else if y < 0 then -(Real.pi / 2) else 0)

/-! ## engineTypes.ts — data model -/

inductive Role where
  | GK | DF | MF | FW
deriving DecidableEq, Repr

structure Player where
  id : String
  name : String
  role : Role
  teamId : String
  pos : Vec2
  vel : Vec2
  facingRad : ℝ
  stamina : ℝ
  hasBall : Bool
  maxSpeed : ℝ
  accel : ℝ
  kickPower : ℝ

/-- A team, restricted to the fields the simulation core reads.  In the
source `Team.players` is an array of the same `Player` objects the global
`playersById` map holds; here the roster is a list of ids into the one
player store (see the header note on aliasing).  Presentation-only fields
(`code3`, `name`, `flag`, `kit`, `controlledBy`) are never read by the
simulation and are omitted. -/
structure Team where
  id : String
  playerIds : List String

structure Ball where
  pos : Vec2
  vel : Vec2
  radius : ℝ
  ownerPlayerId : Option String
  lastTouchTeamId : Option String
  lastKickPlayerId : Option String
  kickNoPickupMs : ℝ

inductive Phase where
  | PRE_KICKOFF | FIRST_HALF | HALF_TIME | SECOND_HALF | FULL_TIME
deriving DecidableEq, Repr

structure MatchClock where
  msElapsed : ℝ
  msTotal : ℝ
  phase : Phase

structure Score where
  home : ℕ
  away : ℕ

structure Possession where
  teamId : Option String
  playerId : Option String

structure MatchState where
  id : String
  homeTeamId : String
  awayTeamId : String
  score : Score
  clock : MatchClock
  ball : Ball
  playersById : List Player
  teamsById : List Team
  humanTeamId : String
  controlledPlayerId : String
  possession : Possession
  lastEventText : Option String

structure InputSnapshot where
  moveVec : Vec2
  sprint : Bool
  actionDown : Bool
  actionPressed : Bool
  actionReleased : Bool
  shootDown : Bool
  shootReleased : Bool
  pausePressed : Bool

structure EngineConfig where
  pitchW : ℝ
  pitchH : ℝ
  goalHalfW : ℝ
  goalDepth : ℝ
  simDtMs : ℝ
  maxFrameDtMs : ℝ
  uiHz : ℝ
  matchMsTotal : ℝ

inductive EngineEvent where
  | goal (scoringTeamId : String) (score : Score) (text : String)
  | fullTime (score : Score) (text : String)

structure CpuAiState where
  shootCooldownMs : ℝ
  dribbleJitterPhase : ℝ
  chaserPlayerId : Option String

/-- Engine state.  `Vfx` abstracts the goal-celebration particle state
(`goalVfx.ts`), which the simulation only ever passes to its two entry
points and never reads. -/
structure EngineState (Vfx : Type) where
  config : EngineConfig
  matchState : MatchState
  vfx : Vfx
  paused : Bool
  kickoffHoldMs : ℝ
  kickoffAwaitInput : Bool
  uiMsAcc : ℝ
  celebrationMs : ℝ
  switchCooldownMs : ℝ
  stealCooldownMs : ℝ
  shootChargeMs : ℝ
  actionChargeMs : ℝ
  cpuAi : CpuAiState

/-! ## The player store: lookups and updates

`match.playersById[id]` is a JS object-key lookup; `match.teamsById[id]`
likewise.  `updatePlayer` models in-place mutation of the shared `Player`
object with a given id. -/

def lookupPlayer (m : MatchState) (pid : String) : Option Player :=
  m.playersById.find? (fun p => p.id = pid)

def lookupTeam (m : MatchState) (tid : String) : Option Team :=
  m.teamsById.find? (fun t => t.id = tid)

def updatePlayer (m : MatchState) (pid : String) (f : Player → Player) : MatchState :=
  { m with playersById := m.playersById.map (fun p => if p.id = pid then f p else p) }

def mapAllPlayers (m : MatchState) (f : Player → Player) : MatchState :=
  { m with playersById := m.playersById.map f }

/-- `getTeamPlayers` (step.ts): `match.teamsById[teamId]?.players ?? []`,
through the roster-of-ids view of the shared store. -/
def getTeamPlayers (m : MatchState) (teamId : String) : List Player :=
  match lookupTeam m teamId with
  | none => []
  | some t => t.playerIds.filterMap (lookupPlayer m)

/-- `getOppPlayers` (step.ts / ai.ts). -/
def getOppPlayers (m : MatchState) (teamId : String) : List Player :=
  getTeamPlayers m (if teamId = m.homeTeamId then m.awayTeamId else m.homeTeamId)

/-! ## physics.ts — primitives -/

def PLAYER_RADIUS : ℝ := 2.0

def BALL_FRICTION_PER_SEC : ℝ := 0.82

def BALL_RESTITUTION : ℝ := 0.55

def BALL_CLAIM_SPEED_MAX : ℝ := 7.5

def BALL_CLAIM_DIST : ℝ := PLAYER_RADIUS + 1.2 + 0.9

def BALL_RELEASE_KICK_SPEED_MIN : ℝ := 8

structure GoalResult where
  scored : Bool
  scoringTeamId : Option String

/-- `integratePlayer(p, desiredVel, dt)`: accelerate toward the desired
velocity by at most `accel*dt`, cap speed at
`max(p.maxSpeed, |desiredVel|)`, move, and update facing when the
(pre-cap) speed is above 0.2. -/
def integratePlayer (p : Player) (desiredVel : Vec2) (dt : ℝ) : Player :=
  let dv := V.sub desiredVel p.vel
  let maxDv := p.accel * dt
  let dvClamped := V.clampLen dv maxDv
  let vel1 : Vec2 := ⟨p.vel.x + dvClamped.x, p.vel.y + dvClamped.y⟩
  let vLen := V.len vel1
  let desiredSpeed := V.len desiredVel
  let speedCap := max p.maxSpeed desiredSpeed
  let vel2 : Vec2 :=
    if vLen > speedCap then ⟨vel1.x * (speedCap / vLen), vel1.y * (speedCap / vLen)⟩
    else vel1
  let pos1 : Vec2 := ⟨p.pos.x + vel2.x * dt, p.pos.y + vel2.y * dt⟩
  let facing1 := if vLen > 0.2 then atan2 vel2.y vel2.x else p.facingRad
  { p with vel := vel2, pos := pos1, facingRad := facing1 }

def containPlayerInPitch (config : EngineConfig) (p : Player) : Player :=
  let halfW := config.pitchW / 2
  let halfH := config.pitchH / 2
  { p with pos := ⟨clamp p.pos.x (-halfW + PLAYER_RADIUS) (halfW - PLAYER_RADIUS),
                   clamp p.pos.y (-halfH + PLAYER_RADIUS) (halfH - PLAYER_RADIUS)⟩ }

/-- `detectGoal`: in-mouth (`|y| <= goalHalfW`) and beyond either goal
line by the ball radius.  Left goal line => away scores; right => home. -/
def detectGoal (m : MatchState) (config : EngineConfig) (ball : Ball) : GoalResult :=
  let halfW := config.pitchW / 2
  if |ball.pos.y| ≤ config.goalHalfW then
    if ball.pos.x ≤ -halfW - ball.radius then ⟨true, some m.awayTeamId⟩
    else if ball.pos.x ≥ halfW + ball.radius then ⟨true, some m.homeTeamId⟩
    else ⟨false, none⟩
  else ⟨false, none⟩

def bounceBallOffPitch (config : EngineConfig) (ball : Ball) : Ball :=
  let halfW := config.pitchW / 2
  let halfH := config.pitchH / 2
  let inMouthBand := |ball.pos.y| ≤ config.goalHalfW
  let b1 :=
    if ¬inMouthBand then
      if ball.pos.x < -halfW + ball.radius then
        { ball with pos := ⟨-halfW + ball.radius, ball.pos.y⟩,
                    vel := ⟨|ball.vel.x| * BALL_RESTITUTION, ball.vel.y⟩ }
      else if ball.pos.x > halfW - ball.radius then
        { ball with pos := ⟨halfW - ball.radius, ball.pos.y⟩,
                    vel := ⟨-(|ball.vel.x| * BALL_RESTITUTION), ball.vel.y⟩ }
      else ball
    else ball
  if b1.pos.y < -halfH + b1.radius then
    { b1 with pos := ⟨b1.pos.x, -halfH + b1.radius⟩,
              vel := ⟨b1.vel.x, |b1.vel.y| * BALL_RESTITUTION⟩ }
  else if b1.pos.y > halfH - b1.radius then
    { b1 with pos := ⟨b1.pos.x, halfH - b1.radius⟩,
              vel := ⟨b1.vel.x, -(|b1.vel.y| * BALL_RESTITUTION)⟩ }
  else b1

/-- `integrateFreeBall(match, config, ball, dt)`: advance position, apply
per-second exponential friction, snap near-zero velocity to zero, detect
goals, else bounce off the non-mouth walls. -/
def integrateFreeBall (m : MatchState) (config : EngineConfig) (ball : Ball) (dt : ℝ) :
    Ball × GoalResult :=
  let b1 := { ball with pos := ⟨ball.pos.x + ball.vel.x * dt, ball.pos.y + ball.vel.y * dt⟩ }
  let f := Real.rpow BALL_FRICTION_PER_SEC dt
  let b2 := { b1 with vel := ⟨b1.vel.x * f, b1.vel.y * f⟩ }
  let b3 := { b2 with vel := ⟨if |b2.vel.x| < 0.05 then 0 else b2.vel.x,
                              if |b2.vel.y| < 0.05 then 0 else b2.vel.y⟩ }
  let goal := detectGoal m config b3
  if goal.scored then (b3, goal)
  else (bounceBallOffPitch config b3, ⟨false, none⟩)

/-- `attachBallToOwner`: ball sits in front of the owner's facing and
follows the owner's velocity. -/
def attachBallToOwner (ball : Ball) (owner : Player) : Ball :=
  let front : Vec2 := ⟨Real.cos owner.facingRad, Real.sin owner.facingRad⟩
  let offset := PLAYER_RADIUS + ball.radius * 0.85
  { ball with pos := ⟨owner.pos.x + front.x * offset, owner.pos.y + front.y * offset⟩,
              vel := owner.vel }

/-- The kick-immunity skip used by every pickup/claim/steal loop:
`ball.kickNoPickupMs > 0 && ball.lastKickPlayerId && p.id === ball.lastKickPlayerId`
(a player id is a non-empty string, hence truthy). -/
def kickImmune (ball : Ball) (p : Player) : Prop :=
  ball.kickNoPickupMs > 0 ∧ ball.lastKickPlayerId = some p.id

instance (ball : Ball) (p : Player) : Decidable (kickImmune ball p) := by
  unfold kickImmune; infer_instance

/-- The candidate-selection loop of `tryClaimBall`: nearest player to the
ball, excluding the kick-immune kicker (`Infinity` seed modelled by the
`none` accumulator). -/
def claimScan (ball : Ball) (players : List Player) : Option (Player × ℝ) :=
  players.foldl
    (fun best p =>
      if kickImmune ball p then best
      else
        match best with
        | none => some (p, V.distSq p.pos ball.pos)
        | some (b, bd) =>
            if V.distSq p.pos ball.pos < bd then some (p, V.distSq p.pos ball.pos)
            else some (b, bd))
    none

/-- `setBallOwner(match, p)` (step.ts): give the ball to `p`, clear every
other `hasBall` flag and update `match.possession`. -/
def setBallOwner (m : MatchState) (p : Player) : MatchState :=
  let m1 := { m with ball := { m.ball with ownerPlayerId := some p.id,
                                           lastTouchTeamId := some p.teamId } }
  let m2 := mapAllPlayers m1 (fun x => { x with hasBall := decide (x.id = p.id) })
  { m2 with possession := ⟨some p.teamId, some p.id⟩ }

/-- `tryClaimBall(match)` (physics.ts): a free, slow ball is claimed by the
nearest non-immune player within `BALL_CLAIM_DIST`.  Returns the updated
state and the possession result. -/
def tryClaimBall (m : MatchState) : MatchState × Possession :=
  let ball := m.ball
  if ball.ownerPlayerId.isSome then (m, m.possession)
  else
    let speed := V.len ball.vel
    if speed > BALL_CLAIM_SPEED_MAX then (m, ⟨none, none⟩)
    else
      match claimScan ball m.playersById with
      | none => (m, ⟨none, none⟩)
      | some (bestP, bestD2) =>
          if bestD2 ≤ BALL_CLAIM_DIST * BALL_CLAIM_DIST then
            let m1 := { m with ball := { ball with ownerPlayerId := some bestP.id,
                                                   lastTouchTeamId := some bestP.teamId,
                                                   lastKickPlayerId := none,
                                                   kickNoPickupMs := 0 } }
            let m2 := mapAllPlayers m1 (fun p => { p with hasBall := decide (p.id = bestP.id) })
            (m2, ⟨some bestP.teamId, some bestP.id⟩)
          else (m, ⟨none, none⟩)

/-- `releaseBallWithKick({match, kicker, dir, speed})`: detach the ball,
arm kick immunity, and set the ball velocity to
`norm(dir) * max(speed, BALL_RELEASE_KICK_SPEED_MIN) + 0.35 * kicker.vel`. -/
def releaseBallWithKick (m : MatchState) (kicker : Player) (dir : Vec2) (speed : ℝ) :
    MatchState :=
  let dirN := V.norm dir
  let kickSpeed := max speed BALL_RELEASE_KICK_SPEED_MIN
  let m1 := { m with ball := { m.ball with
                ownerPlayerId := none,
                lastTouchTeamId := some kicker.teamId,
                lastKickPlayerId := some kicker.id,
                kickNoPickupMs := 220,
                vel := ⟨dirN.x * kickSpeed + kicker.vel.x * 0.35,
                        dirN.y * kickSpeed + kicker.vel.y * 0.35⟩ } }
  updatePlayer m1 kicker.id (fun p => { p with hasBall := false })

def getGoalCenter (config : EngineConfig) (leftSide : Bool) : Vec2 :=
  ⟨if leftSide then -(config.pitchW / 2) else config.pitchW / 2, 0⟩

/-- Home attacks +x, away attacks −x. -/
def getAttackDirX (m : MatchState) (teamId : String) : ℝ :=
  if teamId = m.homeTeamId then 1 else -1

/-! ## step.ts — constants and helpers -/

def SPRINT_MULT : ℝ := 1.35

def SWITCH_COOLDOWN_MS : ℝ := 250

def AUTO_SWITCH_HYSTERESIS : ℝ := 2.25

def SHOOT_CHARGE_FULL_MS : ℝ := 650

def ACTION_CHARGE_FULL_MS : ℝ := 520

def ACTION_TAP_THRESHOLD_MS : ℝ := 160

def PASS_MIN_DIST : ℝ := 6

def PASS_LANE_BLOCK_DIST : ℝ := 6.5

def BALL_PICKUP_PAD : ℝ := 0.35

def BALL_STEAL_PAD : ℝ := -0.85

def STEAL_APPROACH_SPEED_MIN : ℝ := 5.5

def CPU_DEFENSE_SPEED_MULT : ℝ := 0.65

def facingVec (p : Player) : Vec2 := ⟨Real.cos p.facingRad, Real.sin p.facingRad⟩

/-- `pickKickDir`: the move vector when actively steering, else facing. -/
def pickKickDir (p : Player) (moveVec : Vec2) : Vec2 :=
  if V.lenSq moveVec > 0.04 then V.norm moveVec else V.norm (facingVec p)

def pointSegDistSq (p a b : Vec2) : ℝ :=
  let ab := V.sub b a
  let ap := V.sub p a
  let abLenSq := V.lenSq ab
  if abLenSq ≤ 1 / 1000000000 then V.lenSq ap
  else
    let t := clamp (V.dot ap ab / abLenSq) 0 1
    V.distSq p (V.add a (V.mul ab t))

/-- `pushFreeBallByPlayers`: players overlapping a free ball separate it
and impart velocity; then the ball is re-contained. -/
def pushFreeBallOne (dt : ℝ) (p : Player) (ball : Ball) : Ball :=
  let dx := ball.pos.x - p.pos.x
  let dy := ball.pos.y - p.pos.y
  let dist := Real.sqrt (dx * dx + dy * dy)
  let minDist := PLAYER_RADIUS + ball.radius
  let overlap := minDist - dist
  if overlap ≤ 0 then ball
  else
    let nx := if dist > 1 / 1000000 then dx / dist else 1
    let ny := if dist > 1 / 1000000 then dy / dist else 0
    let push := overlap / max (1 / 10000) dt * 0.08
    { ball with
        pos := ⟨ball.pos.x + nx * overlap, ball.pos.y + ny * overlap⟩,
        vel := ⟨ball.vel.x + nx * push + p.vel.x * 0.35,
                ball.vel.y + ny * push + p.vel.y * 0.35⟩,
        lastTouchTeamId := some p.teamId }

def pushFreeBallByPlayers (m : MatchState) (config : EngineConfig) (dt : ℝ) : MatchState :=
  if m.ball.ownerPlayerId.isSome then m
  else
    let b1 := m.playersById.foldl (fun b p => pushFreeBallOne dt p b) m.ball
    { m with ball := bounceBallOffPitch config b1 }

/-- The candidate loop of `tryImmediateBallPickup`: nearest non-immune
player whose contact radius (padded by `BALL_PICKUP_PAD`) overlaps the
ball. -/
def pickupScan (ball : Ball) (players : List Player) : Option (Player × ℝ) :=
  players.foldl
    (fun best p =>
      if kickImmune ball p then best
      else
        match best with
        | none =>
            if V.distSq p.pos ball.pos ≤
                (PLAYER_RADIUS + ball.radius + BALL_PICKUP_PAD) *
                  (PLAYER_RADIUS + ball.radius + BALL_PICKUP_PAD) then
              some (p, V.distSq p.pos ball.pos)
            else best
        | some (b, bd) =>
            if V.distSq p.pos ball.pos ≤
                  (PLAYER_RADIUS + ball.radius + BALL_PICKUP_PAD) *
                    (PLAYER_RADIUS + ball.radius + BALL_PICKUP_PAD) ∧
                V.distSq p.pos ball.pos < bd then
              some (p, V.distSq p.pos ball.pos)
            else some (b, bd))
    none

/-- `tryImmediateBallPickup(match)`: any physical touch claims a free ball
(no speed ceiling).  Returns the state and the picked player's id. -/
def tryImmediateBallPickup (m : MatchState) : MatchState × Option String :=
  if m.ball.ownerPlayerId.isSome then (m, none)
  else
    match pickupScan m.ball m.playersById with
    | none => (m, none)
    | some (best, _) => (setBallOwner m best, some best.id)

/-- The steal approach condition: the would-be stealer must be moving into
the ball at `STEAL_APPROACH_SPEED_MIN` or more. -/
def stealApproach (ball : Ball) (p : Player) : ℝ :=
  V.dot p.vel (V.norm (V.sub ball.pos p.pos))

/-- One iteration of the steal candidate loop of
`tryStealOwnedBallByBallContact`: skip the owner, the kick-immune kicker
and anyone not approaching fast enough; otherwise take the (tightly
padded) ball contact when it beats the best so far. -/
def stealStep (ball : Ball) (ownerId : String) (best : Option (Player × ℝ)) (p : Player) :
    Option (Player × ℝ) :=
  if p.id = ownerId then best
  else if kickImmune ball p then best
  else if stealApproach ball p < STEAL_APPROACH_SPEED_MIN then best
  else
    match best with
    | none =>
        if V.distSq p.pos ball.pos ≤
            (PLAYER_RADIUS + ball.radius + BALL_STEAL_PAD) *
              (PLAYER_RADIUS + ball.radius + BALL_STEAL_PAD) then
          some (p, V.distSq p.pos ball.pos)
        else best
    | some (b, bd) =>
        if V.distSq p.pos ball.pos ≤
              (PLAYER_RADIUS + ball.radius + BALL_STEAL_PAD) *
                (PLAYER_RADIUS + ball.radius + BALL_STEAL_PAD) ∧
            V.distSq p.pos ball.pos < bd then
          some (p, V.distSq p.pos ball.pos)
        else some (b, bd)

/-- The candidate loop of `tryStealOwnedBallByBallContact`. -/
def stealScan (ball : Ball) (ownerId : String) (players : List Player) :
    Option (Player × ℝ) :=
  players.foldl (stealStep ball ownerId) none

/-- `tryStealOwnedBallByBallContact(match)`: take an owned ball by
contacting the ball itself.  Returns the state and the stealer's id. -/
def tryStealOwnedBallByBallContact (m : MatchState) : MatchState × Option String :=
  match m.ball.ownerPlayerId with
  | none => (m, none)
  | some oid =>
      match lookupPlayer m oid with
      | none => (m, none)
      | some owner =>
          match stealScan m.ball owner.id m.playersById with
          | none => (m, none)
          | some (best, _) => (setBallOwner m best, some best.id)

/-! `pickBestPassTarget` and its candidate ranking.  The head of the JS
stable sort `laneBand.sort(cmp)[0]` is the first element of the band that
no later element strictly beats under the comparator; it is modelled by a
left fold keeping the earlier element on ties. -/

structure PassCand where
  p : Player
  dist : ℝ
  ahead : ℝ
  lateral : ℝ

/-- The tap comparator `(a.lateral - b.lateral) || (a.ahead - b.ahead) ||
(a.dist - b.dist)` as a strict order. -/
def passLtTap (a b : PassCand) : Prop :=
  a.lateral < b.lateral ∨
    (a.lateral = b.lateral ∧ (a.ahead < b.ahead ∨ (a.ahead = b.ahead ∧ a.dist < b.dist)))

/-- The hold comparator `(a.lateral - b.lateral) || (b.ahead - a.ahead) ||
(b.dist - a.dist)` as a strict order. -/
def passLtHold (a b : PassCand) : Prop :=
  a.lateral < b.lateral ∨
    (a.lateral = b.lateral ∧ (b.ahead < a.ahead ∨ (a.ahead = b.ahead ∧ b.dist < a.dist)))

instance (a b : PassCand) : Decidable (passLtTap a b) := by
  unfold passLtTap; infer_instance

instance (a b : PassCand) : Decidable (passLtHold a b) := by
  unfold passLtHold; infer_instance

/-- First minimal element under a strict order: the head of a stable sort
by the corresponding comparator. -/
def firstMinBy (lt : PassCand → PassCand → Prop) [DecidableRel lt]
    (l : List PassCand) : Option PassCand :=
  l.foldl
    (fun best c =>
      match best with
      | none => some c
      | some b => if lt c b then some c else some b)
    none

/-- The candidate list of `pickBestPassTarget`: teammates other than the
kicker at distance at least 3 (`minSelectableDist`), with distance,
projection on the aim ray (`ahead`) and lateral distance to the ray. -/
def passCands (teammates : List Player) (kicker : Player) (aim : Vec2) : List PassCand :=
  teammates.filterMap (fun t =>
    if t.id = kicker.id then none
    else
      let toT := V.sub t.pos kicker.pos
      let dist := V.len toT
      if dist < 3 then none
      else some ⟨t, dist, V.dot toT aim, |toT.x * aim.y - toT.y * aim.x|⟩)

/-- Nearest-teammate fallback used when there is no aim input. -/
def nearestTeammate (teammates : List Player) (kicker : Player) : Option Player :=
  (teammates.foldl
    (fun best t =>
      if t.id = kicker.id then best
      else
        match best with
        | none => some (t, V.distSq t.pos kicker.pos)
        | some (b, bd) =>
            if V.distSq t.pos kicker.pos < bd then some (t, V.distSq t.pos kicker.pos)
            else some (b, bd))
    none).map Prod.fst

/-- `pickBestPassTarget(match, teamId, kicker, aimDir, preferFar)`. -/
def pickBestPassTarget (m : MatchState) (teamId : String) (kicker : Player)
    (aimDir : Vec2) (preferFar : Bool) : Option Player :=
  let teammates := getTeamPlayers m teamId
  let aim := V.norm aimDir
  if V.lenSq aim < 1 / 1000000 then nearestTeammate teammates kicker
  else
    let cands := passCands teammates kicker aim
    if cands.isEmpty then none
    else
      let forward := cands.filter (fun c => c.ahead > 1)
      let pool := if ¬forward.isEmpty then forward else cands
      match pool with
      | [] => none
      | c0 :: rest =>
          let bestLat := rest.foldl (fun acc c => min acc c.lateral) c0.lateral
          let laneBand := pool.filter (fun c => c.lateral ≤ bestLat + 2.25)
          if preferFar then (firstMinBy passLtHold laneBand).map (·.p)
          else (firstMinBy passLtTap laneBand).map (·.p)

/-- `pickBestSwitchCandidate`: the non-GK teammate closest to the ball
(`Infinity` seed: the `none` distance accumulator keeps `currentId`). -/
def pickBestSwitchCandidate (m : MatchState) (teamId : String) (currentId : String) :
    String :=
  let ballPos := m.ball.pos
  ((getTeamPlayers m teamId).foldl
    (fun best p =>
      if p.role = Role.GK then best
      else
        match best with
        | (_, none) => (p.id, some (V.distSq p.pos ballPos))
        | (bid, some bd) =>
            if V.distSq p.pos ballPos < bd then (p.id, some (V.distSq p.pos ballPos))
            else (bid, some bd))
    (currentId, (none : Option ℝ))).1

/-- `pickDefensiveSwitchCandidate`: closest-to-ball teammate lying broadly
in the held direction from the ball, with closest-to-ball fallback. -/
def pickDefensiveSwitchCandidate (m : MatchState) (teamId : String) (currentId : String)
    (aimDir : Vec2) : String :=
  let aim := V.norm aimDir
  if V.lenSq aim < 1 / 1000000 then pickBestSwitchCandidate m teamId currentId
  else
    let ballPos := m.ball.pos
    let bestId :=
      ((getTeamPlayers m teamId).foldl
        (fun best p =>
          if p.role = Role.GK then best
          else
            let cos := V.dot (V.norm (V.sub p.pos ballPos)) aim
            if cos < 0.35 then best
            else
              match best with
              | (_, none) => (p.id, some (V.distSq p.pos ballPos))
              | (bid, some bd) =>
                  if V.distSq p.pos ballPos < bd then (p.id, some (V.distSq p.pos ballPos))
                  else (bid, some bd))
        (currentId, (none : Option ℝ))).1
    if bestId ≠ currentId then bestId else pickBestSwitchCandidate m teamId currentId

/-- `resolveScoreSide`. -/
def resolveScoreSide (m : MatchState) (scoringTeamId : String) : MatchState :=
  if scoringTeamId = m.homeTeamId then
    { m with score := { m.score with home := m.score.home + 1 } }
  else if scoringTeamId = m.awayTeamId then
    { m with score := { m.score with away := m.score.away + 1 } }
  else m

def getTeamGoalkeeper (m : MatchState) (teamId : String) : Option Player :=
  (getTeamPlayers m teamId).find? (fun p => p.role = Role.GK)

/-- `isDangerousShotTowardGoal`: a fast free ball heading goalward on the
team's own half, within the shooting channel. -/
def isDangerousShotTowardGoal (m : MatchState) (config : EngineConfig) (teamId : String) :
    Prop :=
  m.ball.ownerPlayerId = none ∧
    (let halfW := config.pitchW / 2
     let defendDirX := -(getAttackDirX m teamId)
     let toward := m.ball.vel.x * defendDirX
     toward ≥ 9.5 ∧ V.len m.ball.vel ≥ 10.5 ∧
       (if defendDirX = -1 then m.ball.pos.x < 0 else m.ball.pos.x > 0) ∧
       |m.ball.pos.x| > halfW * 0.18 ∧ |m.ball.pos.y| < config.goalHalfW * 1.75)

instance (m : MatchState) (config : EngineConfig) (teamId : String) :
    Decidable (isDangerousShotTowardGoal m config teamId) := by
  unfold isDangerousShotTowardGoal; infer_instance

def roleAnchorY (p : Player) : ℝ :=
  match p.role with
  | Role.GK => 0
  | Role.MF => 0
  | Role.DF => (if p.pos.y ≥ 0 then 1 else -1) * 12
  | Role.FW => (if p.pos.y ≥ 0 then 1 else -1) * 14

def roleBaseXFrac (role : Role) : ℝ :=
  match role with
  | Role.GK => 0.45
  | Role.DF => 0.25
  | Role.MF => 0.15
  | Role.FW => 0.05

/-- `pickTeamBallChaserId`: closest non-GK teammate to the ball. -/
def pickTeamBallChaserId (m : MatchState) (teamId : String) : Option String :=
  ((getTeamPlayers m teamId).foldl
    (fun best p =>
      if p.role = Role.GK then best
      else
        match best with
        | none => some (p.id, V.distSq p.pos m.ball.pos)
        | some (bid, bd) =>
            if V.distSq p.pos m.ball.pos < bd then some (p.id, V.distSq p.pos m.ball.pos)
            else some (bid, bd))
    none).map Prod.fst

/-- `computeNpcDesiredVel`: the shared NPC movement heuristic. -/
def computeNpcDesiredVel (m : MatchState) (config : EngineConfig) (p : Player)
    (teamId : String) (teamHasPossession : Bool) (isBallOwner : Bool) (isChaser : Bool) :
    Vec2 :=
  let halfW := config.pitchW / 2
  let halfH := config.pitchH / 2
  let attackDirX := getAttackDirX m teamId
  let ownGoalX := if attackDirX = 1 then -halfW else halfW
  let oppGoalX := -ownGoalX
  let anchorX := -attackDirX * config.pitchW * roleBaseXFrac p.role
  let anchorY := roleAnchorY p
  let ballPos := m.ball.pos
  let target : Vec2 :=
    if p.role = Role.GK then
      let x := ownGoalX + attackDirX * 4.0
      let farFromGoal := |ballPos.x - ownGoalX| > config.pitchW * 0.35
      let yTrack := clamp ballPos.y (-(config.goalHalfW * 0.9)) (config.goalHalfW * 0.9)
      ⟨x, if farFromGoal then yTrack * 0.25 else yTrack⟩
    else if isChaser ∧ ¬teamHasPossession then ⟨ballPos.x, ballPos.y⟩
    else if teamHasPossession then
      if isBallOwner then
        ⟨oppGoalX - attackDirX * 6,
         clamp (ballPos.y * 0.15) (-(config.goalHalfW * 1.1)) (config.goalHalfW * 1.1)⟩
      else
        let advance : ℝ := if p.role = Role.FW then 22 else if p.role = Role.MF then 14 else 7
        let x0 := ballPos.x + attackDirX * advance
        let x := if p.role = Role.DF then
            (if attackDirX = 1 then min x0 (ballPos.x - 4) else max x0 (ballPos.x + 4))
          else x0
        ⟨x, clamp (anchorY * 0.75 + ballPos.y * 0.25) (-halfH + 4) (halfH - 4)⟩
    else
      let back : ℝ := if p.role = Role.DF then 16 else if p.role = Role.MF then 12 else 8
      let x0 := ballPos.x - attackDirX * back
      let x1 := if attackDirX = 1 then min x0 (ballPos.x - 1) else max x0 (ballPos.x + 1)
      let x := if p.role = Role.DF then
          (if attackDirX = 1 then min x1 2 else max x1 (-2))
        else x1
      let ballFar := V.distSq p.pos ballPos > 28 * 28
      let yFollow := clamp ballPos.y (-halfH + 4) (halfH - 4)
      let y := if ballFar then clamp (anchorY * 0.9 + yFollow * 0.1) (-halfH + 4) (halfH - 4)
        else clamp (anchorY * 0.65 + yFollow * 0.35) (-halfH + 4) (halfH - 4)
      ⟨x, y⟩
  let leashX : ℝ := if p.role = Role.GK then 6 else if p.role = Role.DF then 18
    else if p.role = Role.MF then 28 else 36
  let leashY : ℝ := if p.role = Role.GK then 10 else if p.role = Role.DF then 16
    else if p.role = Role.MF then 22 else 26
  let tx := clamp (clamp target.x (anchorX - leashX) (anchorX + leashX)) (-halfW + 4) (halfW - 4)
  let ty := clamp (clamp target.y (anchorY - leashY) (anchorY + leashY)) (-halfH + 4) (halfH - 4)
  let toT := V.sub ⟨tx, ty⟩ p.pos
  let d := V.len toT
  if d < 0.75 then ⟨0, 0⟩
  else
    let baseSpeedMult : ℝ := if p.role = Role.GK then 0.62 else if p.role = Role.DF then 0.78
      else if p.role = Role.MF then 0.86 else 0.9
    V.mul (V.norm toT) (p.maxSpeed * baseSpeedMult)

/-! ## ai.ts — the CPU opponent controller

`Math.random()` draws are taken from the oracle `rand : ℕ → ℝ` at a
distinct index per syntactic call site (each JS call is an independent
fresh draw; every theorem quantifies over the oracle). -/

/-- `nearestOpponentDist`: `none` models the `Infinity` result when the
opposing roster is empty. -/
def nearestOpponentDist (m : MatchState) (teamId : String) (pos : Vec2) : Option ℝ :=
  (getTeamPlayers m (if teamId = m.homeTeamId then m.awayTeamId else m.homeTeamId)).foldl
    (fun best o =>
      match best with
      | none => some (V.dist o.pos pos)
      | some b => if V.dist o.pos pos < b then some (V.dist o.pos pos) else some b)
    none

/-- `d < c` for the `Infinity`-able distance. -/
def optDistLt (d : Option ℝ) (c : ℝ) : Prop :=
  match d with
  | none => False
  | some x => x < c

instance (d : Option ℝ) (c : ℝ) : Decidable (optDistLt d c) := by
  unfold optDistLt; cases d <;> infer_instance

def clamp01 (x : ℝ) : ℝ := max 0 (min 1 x)

/-- The minimal lateral distance of any opponent to the pass lane
(`Infinity` when there is none). -/
def laneMinDist (opp : List Player) (a b : Vec2) : Option ℝ :=
  opp.foldl
    (fun best o =>
      let d := Real.sqrt (pointSegDistSq o.pos a b)
      match best with
      | none => some d
      | some x => if d < x then some d else some x)
    none

/-- `pickCpuPassTarget`: best-scoring forward pass option, rejecting short,
backward, covered or blocked candidates; `none` when the best score is
under 0.35. -/
def pickCpuPassTarget (config : EngineConfig) (m : MatchState) (cpuTeam : Team)
    (owner : Player) (towardGoalDir : Vec2) : Option Player :=
  let opp := getTeamPlayers m
    (if cpuTeam.id = m.homeTeamId then m.awayTeamId else m.homeTeamId)
  let best := (cpuTeam.playerIds.filterMap (lookupPlayer m)).foldl
    (fun best t =>
      if t.role = Role.GK then best
      else if t.id = owner.id then best
      else
        let toT := V.sub t.pos owner.pos
        let dist := V.len toT
        if dist < 8 then best
        else
          let ahead := V.dot (V.norm toT) towardGoalDir
          if ahead < 0.2 then best
          else if optDistLt (nearestOpponentDist m cpuTeam.id t.pos) 5.2 then best
          else
            let laneMin := laneMinDist opp owner.pos t.pos
            let lanePenalty := match laneMin with
              | none => 0
              | some lm => if lm < 6.5 then (6.5 - lm) * 1.1 else 0
            let centerBonus := clamp01 (1 - |t.pos.y| / (config.goalHalfW * 1.35)) * 0.9
            let score := ahead * 2.2 + centerBonus - dist * 0.04 - lanePenalty
            match best with
            | none => some (t, score)
            | some (b, bs) => if score > bs then some (t, score) else some (b, bs))
    none
  match best with
  | none => none
  | some (t, s) => if s < 0.35 then none else some t

/-- `pickCpuChaser`: the CPU's closest non-GK player to the ball. -/
def pickCpuChaser (m : MatchState) (cpuTeam : Team) : Option Player :=
  ((cpuTeam.playerIds.filterMap (lookupPlayer m)).foldl
    (fun best p =>
      if p.role = Role.GK then best
      else
        match best with
        | none => some (p, V.distSq p.pos m.ball.pos)
        | some (b, bd) =>
            if V.distSq p.pos m.ball.pos < bd then some (p, V.distSq p.pos m.ball.pos)
            else some (b, bd))
    none).map Prod.fst

/-- `cpuChaseBall`: nudge the chaser's velocity toward the ball and face
it. -/
def cpuChaseBall (m : MatchState) (p : Player) : MatchState :=
  let dir := V.norm (V.sub m.ball.pos p.pos)
  updatePlayer m p.id (fun q =>
    { q with vel := ⟨q.vel.x + dir.x * 0.0001, q.vel.y + dir.y * 0.0001⟩,
             facingRad := atan2 dir.y dir.x })

/-- `cpuDribbleAndShoot`: dribble toward the left goal with sinusoidal
jitter; shoot when close, aligned and off cooldown; else occasionally pass
to the best-scoring teammate.  Random draws: index 0 = shot cooldown,
1 and 2 = the two short-circuit pass dice, 3 = pass cooldown. -/
def cpuDribbleAndShoot (config : EngineConfig) (m : MatchState) (cpuTeam : Team)
    (owner : Player) (cpuAi : CpuAiState) (rand : ℕ → ℝ) : MatchState × CpuAiState :=
  let targetGoal := getGoalCenter config true
  let toGoal := V.sub targetGoal owner.pos
  let baseDir := V.norm toGoal
  let jitter := Real.sin cpuAi.dribbleJitterPhase * 0.22
  let dribbleDir := V.norm ⟨baseDir.x, baseDir.y + jitter⟩
  let m1 := updatePlayer m owner.id (fun q =>
    { q with facingRad := atan2 dribbleDir.y dribbleDir.x })
  let distToGoal := V.len toGoal
  let alignedForShot := |owner.pos.y| < config.goalHalfW * 1.15
  if distToGoal < config.pitchW * 0.32 ∧ alignedForShot ∧ cpuAi.shootCooldownMs ≤ 0 then
    (releaseBallWithKick m1 owner dribbleDir (owner.kickPower * 1.18),
     { cpuAi with shootCooldownMs := 900 + rand 0 * 700 })
  else
    let underPressure := optDistLt (nearestOpponentDist m1 owner.teamId owner.pos) 7.0
    let wantsPass := cpuAi.shootCooldownMs ≤ 0 ∧
      (underPressure ∨ ((¬alignedForShot) ∧ rand 1 < 0.22) ∨ rand 2 < 0.025)
    if wantsPass then
      match pickCpuPassTarget config m1 cpuTeam owner baseDir with
      | some passTarget =>
          let toT := V.sub passTarget.pos owner.pos
          let dist := V.len toT
          let dir := V.norm toT
          let distFactor := clamp01 (dist / 46)
          (releaseBallWithKick m1 owner dir (owner.kickPower * (0.78 + 0.42 * distFactor)),
           { cpuAi with shootCooldownMs := 650 + rand 3 * 550 })
      | none => (m1, cpuAi)
    else (m1, cpuAi)

/-- The chase half of `stepCpuAi`. -/
def cpuChasePhase (m : MatchState) (cpuTeam : Team) (ai1 : CpuAiState) :
    MatchState × CpuAiState :=
  match pickCpuChaser m cpuTeam with
  | none => (m, ai1)
  | some chaser => (cpuChaseBall m chaser, { ai1 with chaserPlayerId := some chaser.id })

/-- `stepCpuAi`: tick cooldown/jitter, then dribble-and-decide when the
CPU owns the ball, else chase with the closest non-GK. -/
def stepCpuAi (config : EngineConfig) (m : MatchState) (dtMs : ℝ) (cpuAi : CpuAiState)
    (rand : ℕ → ℝ) : MatchState × CpuAiState :=
  match lookupTeam m m.awayTeamId with
  | none => (m, cpuAi)
  | some cpuTeam =>
      let ai1 := { cpuAi with shootCooldownMs := max 0 (cpuAi.shootCooldownMs - dtMs),
                              dribbleJitterPhase := cpuAi.dribbleJitterPhase + dtMs / 1000 * 1.4,
                              chaserPlayerId := none }
      match m.ball.ownerPlayerId.bind (lookupPlayer m) with
      | some o =>
          if o.teamId = cpuTeam.id then cpuDribbleAndShoot config m cpuTeam o ai1 rand
          else cpuChasePhase m cpuTeam ai1
      | none => cpuChasePhase m cpuTeam ai1

/-! ## reset.ts — kickoff reset -/

/-- `setPos(p, x, y)` applied through an optional find result (the
`if (gk) setPos(gk, ...)` pattern of `placeTeamKickoff`). -/
def setPosOpt (mm : MatchState) (po : Option Player) (x y : ℝ) : MatchState :=
  match po with
  | none => mm
  | some p => updatePlayer mm p.id (fun q => { q with pos := ⟨x, y⟩ })

/-- `placeTeamKickoff(config, players, side)`: place GK/DF/MF/FW1/FW2 at
the kickoff anchors of the given side and set the whole team's facing. -/
def placeTeamKickoff (config : EngineConfig) (m : MatchState) (tid : String)
    (leftSide : Bool) : MatchState :=
  let players := getTeamPlayers m tid
  let xSign : ℝ := if leftSide then -1 else 1
  let x0 := xSign * config.pitchW * 0.42
  let x1 := xSign * config.pitchW * 0.22
  let x2 := xSign * config.pitchW * 0.08
  let m1 := setPosOpt m (players.find? (fun p => p.role = Role.GK)) x0 0
  let m2 := setPosOpt m1 (players.find? (fun p => p.role = Role.DF)) x1
    (if leftSide then -12 else 12)
  let m3 := setPosOpt m2 (players.find? (fun p => p.role = Role.MF)) x2 0
  let fws := players.filter (fun p => p.role = Role.FW)
  let m4 := setPosOpt m3 (fws.get? 0) (xSign * config.pitchW * 0.02) (-10)
  let m5 := setPosOpt m4 (fws.get? 1) (xSign * config.pitchW * 0.02) 10
  players.foldl
    (fun mm p => updatePlayer mm p.id
      (fun q => { q with facingRad := if leftSide then 0 else Real.pi }))
    m5

/-- The controlled-player fallback of `resetToKickoff`:
`mf?.id ?? (first non-GK)?.id ?? players[0].id` on the human roster.  On
an empty human roster (or a missing human team) the source would throw;
modelled as the identity, unreachable under well-formedness. -/
def resetControlledFallback (m4 : MatchState) : MatchState :=
  match lookupTeam m4 m4.humanTeamId with
  | none => m4
  | some humanTeam =>
      let hps := humanTeam.playerIds.filterMap (lookupPlayer m4)
      match ((hps.find? (fun p => p.role = Role.MF)).orElse
              (fun _ => hps.find? (fun p => p.role ≠ Role.GK))).orElse
              (fun _ => hps.head?) with
      | some p => { m4 with controlledPlayerId := p.id }
      | none => m4

/-- `resetToKickoff(config, match)`: clear ball/possession, zero player
velocities and flags, place both teams, and make sure the controlled
player is a non-GK human (MF preferred).  The source dereferences
`teamsById[homeTeamId].players` unconditionally, so a missing team (or an
empty human roster at the fallback) would throw in JS; those unreachable
branches are modelled as the identity. -/
def resetToKickoff (config : EngineConfig) (m : MatchState) : MatchState :=
  match lookupTeam m m.homeTeamId, lookupTeam m m.awayTeamId with
  | some home, some away =>
      let m1 := { m with
        ball := { m.ball with ownerPlayerId := none, lastTouchTeamId := none,
                              lastKickPlayerId := none, kickNoPickupMs := 0,
                              pos := ⟨0, 0⟩, vel := ⟨0, 0⟩ },
        possession := ⟨none, none⟩ }
      let m2 := (home.playerIds ++ away.playerIds).foldl
        (fun mm pid => updatePlayer mm pid (fun q => { q with vel := ⟨0, 0⟩, hasBall := false }))
        m1
      let m3 := placeTeamKickoff config m2 m.homeTeamId true
      let m4 := placeTeamKickoff config m3 m.awayTeamId false
      match lookupPlayer m4 m4.controlledPlayerId with
      | none => resetControlledFallback m4
      | some c =>
          if c.teamId ≠ m4.humanTeamId ∨ c.role = Role.GK then resetControlledFallback m4
          else m4
  | _, _ => m

/-! ## step.ts — the per-tick orchestrator, split at its section comments

Each fragment mirrors one labelled section of `stepSim`; `stepSim` itself
is their sequential composition with the source's early returns. -/

/-- Lines 569–575: "only ever control the player who has the ball"
(auto-switch to a human ball carrier). -/
def possessionFollowPhase {Vfx : Type} (e : EngineState Vfx) : EngineState Vfx :=
  let m := e.matchState
  match m.ball.ownerPlayerId.bind (lookupPlayer m) with
  | some ownerPre =>
      if ownerPre.teamId = m.humanTeamId ∧ m.controlledPlayerId ≠ ownerPre.id then
        { e with matchState := { m with controlledPlayerId := ownerPre.id },
                 actionChargeMs := 0, switchCooldownMs := 120 }
      else e
  | none => e

/-- The `Infinity`-seeded "meaningfully closer" hysteresis test of the
loose-ball auto-switch (`nxtD2 + h² < curD2`; a missing player's distance
is `Infinity`). -/
def hystCloser (nxtD2 curD2 : Option ℝ) : Prop :=
  match nxtD2, curD2 with
  | some nd, some cd => nd + AUTO_SWITCH_HYSTERESIS * AUTO_SWITCH_HYSTERESIS < cd
  | some _, none => True
  | none, _ => False

instance (a b : Option ℝ) : Decidable (hystCloser a b) := by
  unfold hystCloser; cases a <;> cases b <;> infer_instance

/-- The non-GK closest-to-ball branch (lines 591–606) of the loose-ball
auto-switch. -/
def autoSwitchNearest {Vfx : Type} (e : EngineState Vfx) : EngineState Vfx :=
  let m := e.matchState
  let nextId := pickBestSwitchCandidate m m.humanTeamId m.controlledPlayerId
  let curD2 : Option ℝ := (lookupPlayer m m.controlledPlayerId).map
    (fun c => V.distSq c.pos m.ball.pos)
  let nxtD2 : Option ℝ := (lookupPlayer m nextId).map
    (fun n => V.distSq n.pos m.ball.pos)
  if nextId ≠ m.controlledPlayerId ∧ hystCloser nxtD2 curD2 then
    { e with matchState := { m with controlledPlayerId := nextId },
             switchCooldownMs := 180, actionChargeMs := 0 }
  else e

/-- Lines 581–607: loose-ball auto-switch with hysteresis, with the
goalkeeper override on a dangerous incoming shot. -/
def autoSwitchPhase {Vfx : Type} (e : EngineState Vfx) : EngineState Vfx :=
  let m := e.matchState
  if m.ball.ownerPlayerId = none ∧ e.switchCooldownMs ≤ 0 then
    let gk := getTeamGoalkeeper m m.humanTeamId
    let shotIncoming := isDangerousShotTowardGoal m e.config m.humanTeamId
    match gk with
    | some g =>
        if shotIncoming then
          if m.controlledPlayerId ≠ g.id then
            { e with matchState := { m with controlledPlayerId := g.id },
                     switchCooldownMs := 180, actionChargeMs := 0 }
          else e
        else autoSwitchNearest e
    | none => autoSwitchNearest e
  else e

/-- Lines 610–617: manual defensive switch on the action press edge. -/
def manualSwitchPhase {Vfx : Type} (input : InputSnapshot) (controlledHasBall : Prop)
    [Decidable controlledHasBall] (e : EngineState Vfx) : EngineState Vfx :=
  let m := e.matchState
  let nid := pickDefensiveSwitchCandidate m m.humanTeamId m.controlledPlayerId input.moveVec
  if input.actionPressed = true ∧ ¬controlledHasBall ∧ e.switchCooldownMs ≤ 0 then
    { e with matchState := { m with controlledPlayerId := nid },
             switchCooldownMs := SWITCH_COOLDOWN_MS, actionChargeMs := 0 }
  else e

/-- Lines 629–636: the controlled player moves by merged input (with the
sprint multiplier); `c577` is the controlled id snapshotted at line 577,
before the switch phases run. -/
def integrateControlledPhase {Vfx : Type} (input : InputSnapshot) (dt : ℝ) (c577 : String)
    (e : EngineState Vfx) : EngineState Vfx :=
  let m := e.matchState
  let humanDir := V.norm input.moveVec
  match lookupPlayer m c577 with
  | some c =>
      if c.teamId = m.humanTeamId then
        let speed := c.maxSpeed * (if input.sprint = true then SPRINT_MULT else 1)
        let desired := V.mul humanDir speed
        let m' := updatePlayer m c577
          (fun q => containPlayerInPitch e.config (integratePlayer q desired dt))
        { e with matchState := m' }
      else e
  | none => e

/-- Lines 644–681: one team's NPC movement loop.  `skipControlled` is set
for the human team (the currently controlled id sits out), `defenseMult`
for the CPU team (the defense speed nerf). -/
def npcIntegrateTeam {Vfx : Type} (dt : ℝ) (tid : String) (skipControlled : Bool)
    (teamHasPossession : Bool) (ownerSnapId : Option String) (chaserId : Option String)
    (defenseMult : Bool) (e : EngineState Vfx) : EngineState Vfx :=
  let roster := match lookupTeam e.matchState tid with
    | none => []
    | some t => t.playerIds
  let m' := roster.foldl
    (fun mm pid =>
      if skipControlled = true ∧ mm.controlledPlayerId = pid then mm
      else
        match lookupPlayer mm pid with
        | none => mm
        | some p =>
            let desired0 := computeNpcDesiredVel mm e.config p tid teamHasPossession
              (decide (ownerSnapId = some p.id))
              (decide (teamHasPossession = false ∧ chaserId = some p.id))
            let desired := if defenseMult = true ∧ teamHasPossession = false then
                V.mul desired0 CPU_DEFENSE_SPEED_MULT
              else desired0
            updatePlayer mm pid
              (fun q => containPlayerInPitch e.config (integratePlayer q desired dt)))
    e.matchState
  { e with matchState := m' }

/-- Lines 714–768: the human shoot/pass charge-and-release section, run
when the ball owner is the controlled human player (`co`). -/
def humanKickSection {Vfx : Type} (input : InputSnapshot) (dtMs : ℝ) (co : Player)
    (e : EngineState Vfx) : EngineState Vfx :=
  let aimDir := pickKickDir co input.moveVec
  let e1 := if input.shootDown = true then
      { e with shootChargeMs := min SHOOT_CHARGE_FULL_MS (e.shootChargeMs + dtMs) }
    else if input.shootReleased = false then { e with shootChargeMs := 0 }
    else e
  let e2 := if input.actionDown = true then
      { e1 with actionChargeMs := min ACTION_CHARGE_FULL_MS (e1.actionChargeMs + dtMs) }
    else if input.actionReleased = false then { e1 with actionChargeMs := 0 }
    else e1
  if input.actionReleased = true then
    let preferFar := decide (e2.actionChargeMs > ACTION_TAP_THRESHOLD_MS)
    let target := pickBestPassTarget e2.matchState e2.matchState.humanTeamId co aimDir preferFar
    let dir := match target with
      | some t => V.norm (V.sub t.pos co.pos)
      | none => V.norm aimDir
    let dist : ℝ := match target with
      | some t => V.len (V.sub t.pos co.pos)
      | none => 18
    let distFactor := clamp (dist / 46) 0 1
    let t := clamp (e2.actionChargeMs / ACTION_CHARGE_FULL_MS) 0 1
    let chargeFactor := if preferFar = true then t else 0.25
    let m' := releaseBallWithKick e2.matchState co dir
      (co.kickPower * (0.78 + 0.62 * chargeFactor) * (0.86 + 0.22 * distFactor))
    { e2 with matchState := m', actionChargeMs := 0, shootChargeMs := 0 }
  else if input.shootReleased = true then
    let t := clamp (e2.shootChargeMs / SHOOT_CHARGE_FULL_MS) 0 1
    let m' := releaseBallWithKick e2.matchState co aimDir (co.kickPower * (1.05 + 0.75 * t))
    { e2 with matchState := m', shootChargeMs := 0, actionChargeMs := 0 }
  else e2

/-- Lines 705–710 of the owned-ball branch: auto-switch to a human
goalkeeper who holds the ball.  `currentOwner` is the owner snapshot taken
at lines 702–703. -/
def gkFollowPhase {Vfx : Type} (currentOwner : Option Player) (e : EngineState Vfx) :
    EngineState Vfx :=
  match currentOwner with
  | some co =>
      if co.teamId = e.matchState.humanTeamId ∧ co.role = Role.GK ∧
          e.matchState.controlledPlayerId ≠ co.id then
        { e with matchState := { e.matchState with controlledPlayerId := co.id },
                 switchCooldownMs := 180, actionChargeMs := 0 }
      else e
  | none => e

/-- Lines 712–772: run the human kick section when the snapshot owner is
the controlled human player, else clear the action charge. -/
def kickOrClearPhase {Vfx : Type} (input : InputSnapshot) (dtMs : ℝ)
    (currentOwner : Option Player) (e : EngineState Vfx) : EngineState Vfx :=
  match currentOwner with
  | some co =>
      if co.teamId = e.matchState.humanTeamId ∧ co.id = e.matchState.controlledPlayerId then
        humanKickSection input dtMs co e
      else { e with actionChargeMs := 0 }
  | none => { e with actionChargeMs := 0 }

/-- Lines 774–776: re-attach an owned ball to the snapshot owner. -/
def attachPhase {Vfx : Type} (currentOwner : Option Player) (e : EngineState Vfx) :
    EngineState Vfx :=
  match e.matchState.ball.ownerPlayerId, currentOwner with
  | some _, some co =>
      { e with matchState := { e.matchState with
          ball := attachBallToOwner e.matchState.ball co } }
  | _, _ => e

/-- Lines 695–700: attempt the steal (gated by the steal cooldown) and,
on success, clear both charges and arm the 650 ms cooldown. -/
def stealResolvePhase {Vfx : Type} (e : EngineState Vfx) : EngineState Vfx :=
  let sr := if e.stealCooldownMs ≤ 0 then tryStealOwnedBallByBallContact e.matchState
    else (e.matchState, none)
  match sr.2 with
  | some _ => { e with matchState := sr.1, shootChargeMs := 0, actionChargeMs := 0,
                       stealCooldownMs := 650 }
  | none => { e with matchState := sr.1 }

/-- Lines 690–780: the owned-ball branch — steal resolution under the
steal cooldown, goalkeeper-possession auto-switch, the human kick section,
ball re-attachment, and the dangling-owner release (`ball.ownerPlayerId =
null` when the owner id resolves to no player). -/
def ownedBallPhase {Vfx : Type} (input : InputSnapshot) (dtMs : ℝ) (e : EngineState Vfx) :
    EngineState Vfx :=
  match e.matchState.ball.ownerPlayerId with
  | none => e
  | some oid =>
      match lookupPlayer e.matchState oid with
      | none =>
          { e with matchState := { e.matchState with
              ball := { e.matchState.ball with ownerPlayerId := none } } }
      | some _owner =>
          let e1 := stealResolvePhase e
          let currentOwner := e1.matchState.ball.ownerPlayerId.bind
            (lookupPlayer e1.matchState)
          attachPhase currentOwner
            (kickOrClearPhase input dtMs currentOwner (gkFollowPhase currentOwner e1))

/-- Lines 783–826 (free-ball half): integrate, score-and-reset on a goal
(with immediate return), else bump/pickup/claim. -/
def freeBallPhase {Vfx : Type} (trigV : EngineConfig → Vfx → String → Vfx) (dt : ℝ)
    (e : EngineState Vfx) : EngineState Vfx × Option EngineEvent :=
  let m := e.matchState
  let bg := integrateFreeBall m e.config m.ball dt
  match bg.2.scored, bg.2.scoringTeamId with
  | true, some tid =>
      let m1 := resolveScoreSide { m with ball := bg.1 } tid
      let m2 := { m1 with lastEventText := some "GOAL!" }
      let e1 := { e with matchState := m2, celebrationMs := 1400, kickoffHoldMs := 650,
                         kickoffAwaitInput := false, vfx := trigV e.config e.vfx tid }
      ({ e1 with matchState := resetToKickoff e.config e1.matchState },
       some (EngineEvent.goal tid m2.score "GOAL!"))
  | _, _ =>
      let m1 := pushFreeBallByPlayers { m with ball := bg.1 } e.config dt
      let m2 := (tryImmediateBallPickup m1).1
      let m3 := if m2.ball.ownerPlayerId = none then
          let cp := tryClaimBall m2
          let m2' := { cp.1 with possession := cp.2 }
          match cp.2.playerId with
          | some pid => { m2' with ball := { m2'.ball with ownerPlayerId := some pid } }
          | none => m2'
        else m2
      ({ e with matchState := m3 }, none)

/-- Lines 822–826: maintain `match.possession` while the ball is owned. -/
def maintainPossessionPhase {Vfx : Type} (e : EngineState Vfx) : EngineState Vfx :=
  let m := e.matchState
  match m.ball.ownerPlayerId.bind (lookupPlayer m) with
  | some owner =>
      { e with matchState := { m with possession := ⟨some owner.teamId, some owner.id⟩ } }
  | none => e

/-- Lines 828–838: auto-switch when the human team newly gains
possession. -/
def gainedSwitchPhase {Vfx : Type} (prevOwnerTeamId : Option String) (e : EngineState Vfx) :
    EngineState Vfx :=
  let m := e.matchState
  match m.ball.ownerPlayerId.bind (lookupPlayer m) with
  | some newOwner =>
      if newOwner.teamId = m.humanTeamId ∧ prevOwnerTeamId ≠ some m.humanTeamId ∧
          m.controlledPlayerId ≠ newOwner.id then
        { e with matchState := { m with controlledPlayerId := newOwner.id },
                 switchCooldownMs := 220, actionChargeMs := 0 }
      else e
  | none => e

/-- Line 578: `!!controlled && match.ball.ownerPlayerId === controlled.id`. -/
def controlledHasBallProp (m : MatchState) (cid : String) : Prop :=
  match lookupPlayer m cid with
  | some c => m.ball.ownerPlayerId = some c.id
  | none => False

instance (m : MatchState) (cid : String) : Decidable (controlledHasBallProp m cid) := by
  unfold controlledHasBallProp
  cases lookupPlayer m cid with
  | none => infer_instance
  | some c => infer_instance

/-- "Any recognized input" (lines 513–521), used by the kickoff-await
sub-state. -/
def anyInputProp (input : InputSnapshot) : Prop :=
  V.lenSq input.moveVec > 0.01 ∨ input.sprint = true ∨ input.actionDown = true ∨
    input.actionPressed = true ∨ input.actionReleased = true ∨ input.shootDown = true ∨
    input.shootReleased = true ∨ input.pausePressed = true

instance (input : InputSnapshot) : Decidable (anyInputProp input) := by
  unfold anyInputProp; infer_instance

/-- Lines 552–840: everything after the clock has advanced without
reaching full time. -/
def stepSimMain {Vfx : Type} (trigV : EngineConfig → Vfx → String → Vfx) (rand : ℕ → ℝ)
    (e : EngineState Vfx) (input : InputSnapshot) (dtMs dt : ℝ) :
    EngineState Vfx × List EngineEvent :=
  let e2 := { e with switchCooldownMs := max 0 (e.switchCooldownMs - dtMs),
                     stealCooldownMs := max 0 (e.stealCooldownMs - dtMs) }
  let m0 := e2.matchState
  let prevOwnerTeamId := (m0.ball.ownerPlayerId.bind (lookupPlayer m0)).map
    (fun p => p.teamId)
  let possessionTeamId := match m0.possession.teamId with
    | some t => some t
    | none => m0.ball.lastTouchTeamId
  let e3 := possessionFollowPhase e2
  let c577 := e3.matchState.controlledPlayerId
  let e4 := autoSwitchPhase e3
  let e5 := manualSwitchPhase input (controlledHasBallProp e3.matchState c577) e4
  let mc := stepCpuAi e5.config e5.matchState dtMs e5.cpuAi rand
  let e6 := { e5 with matchState := mc.1, cpuAi := mc.2 }
  let e7 := integrateControlledPhase input dt c577 e6
  let ownerSnapId := (e7.matchState.ball.ownerPlayerId.bind (lookupPlayer e7.matchState)).map
    (fun p => p.id)
  let humanTeamId := e7.matchState.humanTeamId
  let cpuTeamId := e7.matchState.awayTeamId
  let humanChaserId := pickTeamBallChaserId e7.matchState humanTeamId
  let cpuChaserId := pickTeamBallChaserId e7.matchState cpuTeamId
  let e8 := npcIntegrateTeam dt humanTeamId true (decide (possessionTeamId = some humanTeamId))
    ownerSnapId humanChaserId false e7
  let e9 := npcIntegrateTeam dt cpuTeamId false (decide (possessionTeamId = some cpuTeamId))
    ownerSnapId cpuChaserId true e8
  let e10 := { e9 with matchState := { e9.matchState with ball :=
    { e9.matchState.ball with kickNoPickupMs := max 0 (e9.matchState.ball.kickNoPickupMs - dtMs) } } }
  let e11 := if e10.matchState.ball.ownerPlayerId.isSome then ownedBallPhase input dtMs e10
    else e10
  if e11.matchState.ball.ownerPlayerId = none then
    match freeBallPhase trigV dt e11 with
    | (e12, some ev) => (e12, [ev])
    | (e12, none) => (gainedSwitchPhase prevOwnerTeamId e12, [])
  else
    (gainedSwitchPhase prevOwnerTeamId (maintainPossessionPhase e11), [])

/-- `stepSim({engine, input, dtMs})` (step.ts): the per-tick orchestrator.
`stepV`/`trigV` are the two VFX entry points (`stepVfx`,
`triggerGoalVfx`), `rand` the `Math.random` oracle. -/
def stepSim {Vfx : Type} (stepV : EngineConfig → Vfx → ℝ → Vfx)
    (trigV : EngineConfig → Vfx → String → Vfx) (rand : ℕ → ℝ)
    (engine : EngineState Vfx) (input : InputSnapshot) (dtMs : ℝ) :
    EngineState Vfx × List EngineEvent :=
  let dt := dtMs / 1000
  if engine.matchState.clock.phase = Phase.FULL_TIME then (engine, [])
  else
    let e1 := { engine with celebrationMs := max 0 (engine.celebrationMs - dtMs),
                            vfx := stepV engine.config engine.vfx dtMs }
    if e1.kickoffHoldMs > 0 then
      let hold := max 0 (e1.kickoffHoldMs - dtMs)
      (if hold ≤ 0 then { e1 with kickoffHoldMs := hold, kickoffAwaitInput := true }
       else { e1 with kickoffHoldMs := hold }, [])
    else if e1.kickoffAwaitInput = true then
      (if anyInputProp input then
        { e1 with kickoffAwaitInput := false,
                  matchState := { e1.matchState with lastEventText := none } }
       else e1, [])
    else
      let m := e1.matchState
      let elapsed := min m.clock.msTotal (m.clock.msElapsed + dtMs)
      if elapsed ≥ m.clock.msTotal then
        let m2 := { m with clock := { m.clock with msElapsed := elapsed, phase := Phase.FULL_TIME },
                           lastEventText := some "FULL TIME" }
        ({ e1 with matchState := m2 }, [EngineEvent.fullTime m2.score "FULL TIME"])
      else
        stepSimMain trigV rand
          { e1 with matchState := { m with clock := { m.clock with msElapsed := elapsed } } }
          input dtMs dt

/-! ## Frame and ownership predicates used by the invariant proofs -/

/-- The match-state frame no simulation phase ever touches: the clock,
the team/roster structure, the team-id fields and the identity (ids, in
order) of the player store. -/
def MFrame (m m' : MatchState) : Prop :=
  m'.clock = m.clock ∧ m'.homeTeamId = m.homeTeamId ∧ m'.awayTeamId = m.awayTeamId ∧
    m'.humanTeamId = m.humanTeamId ∧ m'.teamsById = m.teamsById ∧
    m'.playersById.map Player.id = m.playersById.map Player.id

/-- The engine-level frame: config plus the match frame. -/
def EFrame {Vfx : Type} (e e' : EngineState Vfx) : Prop :=
  e'.config = e.config ∧ MFrame e.matchState e'.matchState

/-- The ball-ownership invariant of C1: a player flag `hasBall` holds
exactly for the recorded owner, and a recorded owner resolves to an
existing player. -/
def OwnerInv (m : MatchState) : Prop :=
  (∀ p ∈ m.playersById, p.hasBall = true ↔ m.ball.ownerPlayerId = some p.id) ∧
    (∀ k, m.ball.ownerPlayerId = some k → ∃ p ∈ m.playersById, p.id = k)

/-- Ownership-neutrality of a phase: owner id and every player's
`(id, hasBall)` pair are untouched. -/
def OwnFrame (m m' : MatchState) : Prop :=
  m'.ball.ownerPlayerId = m.ball.ownerPlayerId ∧
    m'.playersById.map (fun p => (p.id, p.hasBall)) =
      m.playersById.map (fun p => (p.id, p.hasBall))

/-! ## Concrete data for witnesses and counterexamples

`DEFAULT_ENGINE_CONFIG` is from `defaultConfig.ts`; `mkPlayer`/`mkMatch`
build small states with the default MF tuning of `createMatch.ts`. -/

def DEFAULT_ENGINE_CONFIG : EngineConfig :=
  { pitchW := 120, pitchH := 80, goalHalfW := 10, goalDepth := 4,
    simDtMs := 1000 / 60, maxFrameDtMs := 100, uiHz := 10, matchMsTotal := 180000 }

def mkPlayer (id : String) (role : Role) (teamId : String) (pos vel : Vec2) : Player :=
  { id := id, name := id, role := role, teamId := teamId, pos := pos, vel := vel,
    facingRad := 0, stamina := 1, hasBall := false, maxSpeed := 18, accel := 75,
    kickPower := 30 }

def mkBallFree (pos vel : Vec2) : Ball :=
  { pos := pos, vel := vel, radius := 1.2, ownerPlayerId := none, lastTouchTeamId := none,
    lastKickPlayerId := none, kickNoPickupMs := 0 }

def mkMatch (players : List Player) (teams : List Team) (ball : Ball)
    (controlled : String) (poss : Possession) : MatchState :=
  { id := "match:single", homeTeamId := "kilo", awayTeamId := "cpu",
    score := ⟨0, 0⟩, clock := ⟨0, 180000, Phase.FIRST_HALF⟩, ball := ball,
    playersById := players, teamsById := teams, humanTeamId := "kilo",
    controlledPlayerId := controlled, possession := poss, lastEventText := none }

/-- A kicker running against the kick direction exactly fast enough that
35% of their velocity cancels the minimum kick speed. -/
def cancelKicker : Player :=
  mkPlayer "kilo:p3" Role.MF "kilo" ⟨0, 0⟩ ⟨-(160 / 7), 0⟩

/-- A kicker standing still. -/
def stillKicker : Player :=
  mkPlayer "kilo:p3" Role.MF "kilo" ⟨0, 0⟩ ⟨0, 0⟩

def emptyMatch (ball : Ball) : MatchState :=
  mkMatch [] [] ball "kilo:p3" ⟨none, none⟩

/-- The passer of the spec's end-to-end pass scenario. -/
def passKicker : Player := mkPlayer "kilo:p3" Role.MF "kilo" ⟨0, 0⟩ ⟨0, 0⟩

/-- A teammate directly on the aim ray at x-offset `x`. -/
def passMateA (x : ℝ) : Player := mkPlayer "kilo:p4" Role.FW "kilo" ⟨x, 0⟩ ⟨0, 0⟩

def passMateB (x : ℝ) : Player := mkPlayer "kilo:p5" Role.FW "kilo" ⟨x, 0⟩ ⟨0, 0⟩

/-- The pass scenario: the passer at the origin aiming `(1,0)`, two
teammates directly ahead on the aim ray at offsets `xA` and `xB`. -/
def passMatch (xA xB : ℝ) : MatchState :=
  mkMatch [passKicker, passMateA xA, passMateB xB]
    [⟨"kilo", ["kilo:p3", "kilo:p4", "kilo:p5"]⟩, ⟨"cpu", []⟩]
    (mkBallFree ⟨3.02, 0⟩ ⟨0, 0⟩) "kilo:p3" ⟨some "kilo", some "kilo:p3"⟩

/-- Trivial VFX entry points and the constant random oracle used for
concrete engine runs (`Vfx := Unit`). -/
def idStepV : EngineConfig → Unit → ℝ → Unit := fun _ u _ => u

def idTrigV : EngineConfig → Unit → String → Unit := fun _ u _ => u

def zeroRand : ℕ → ℝ := fun _ => 0

/-- An engine over the default config in mid-first-half play (no kickoff
hold, nothing awaited), with a given match state, steal cooldown and
accumulated shoot charge. -/
def mkEngine (m : MatchState) (stealCd shootCharge : ℝ) : EngineState Unit :=
  { config := DEFAULT_ENGINE_CONFIG, matchState := m, vfx := (), paused := false,
    kickoffHoldMs := 0, kickoffAwaitInput := false, uiMsAcc := 0, celebrationMs := 0,
    switchCooldownMs := 0, stealCooldownMs := stealCd, shootChargeMs := shootCharge,
    actionChargeMs := 0, cpuAi := ⟨0, 0, none⟩ }

def noInput : InputSnapshot := ⟨⟨0, 0⟩, false, false, false, false, false, false, false⟩

/-- A quiet engine state for the clock theorems. -/
def c7engine : EngineState Unit := mkEngine (emptyMatch (mkBallFree ⟨0, 0⟩ ⟨0, 0⟩)) 0 0

/-- A one-player match in which the player owns the ball — the minimal
state satisfying the ownership invariant with an owned ball. -/
def c1player : Player :=
  { mkPlayer "kilo:p3" Role.MF "kilo" ⟨0, 0⟩ ⟨0, 0⟩ with hasBall := true }

def c1ballOwned : Ball :=
  { mkBallFree ⟨0, 0⟩ ⟨0, 0⟩ with ownerPlayerId := some "kilo:p3" }

def c1match : MatchState :=
  mkMatch [c1player] [] c1ballOwned "kilo:p3" ⟨some "kilo", some "kilo:p3"⟩

def c1engine : EngineState Unit := mkEngine c1match 1000 0

/-- The possession-follow snap scenario, parametrized by the ball owner's
role: the human player `kilo:p2` (role `r`) owns the ball while the MF
`kilo:p3` is controlled, a steal cooldown is pending, the shoot button is
held with 300 ms of charge accumulated, and no edge is released this
tick. -/
def snapP2 (r : Role) : Player :=
  { mkPlayer "kilo:p2" r "kilo" ⟨0, 0⟩ ⟨0, 0⟩ with hasBall := true }

def snapP3 : Player := mkPlayer "kilo:p3" Role.MF "kilo" ⟨10, 0⟩ ⟨0, 0⟩

def snapBall : Ball :=
  { mkBallFree ⟨0, 0⟩ ⟨0, 0⟩ with ownerPlayerId := some "kilo:p2", lastTouchTeamId := some "kilo" }

def snapMatch (r : Role) : MatchState :=
  mkMatch [snapP2 r, snapP3] [] snapBall "kilo:p3" ⟨some "kilo", some "kilo:p2"⟩

def snapEngine (r : Role) : EngineState Unit := mkEngine (snapMatch r) 1000 300

def snapInput : InputSnapshot := { noInput with shootDown := true }

/-- The snap scenario's intermediate and final states for one tick. -/
def snapM1 (r : Role) : MatchState :=
  { snapMatch r with clock := ⟨16, 180000, Phase.FIRST_HALF⟩ }

def snapM3 (r : Role) : MatchState := { snapM1 r with controlledPlayerId := "kilo:p2" }

def snapE3 (r : Role) : EngineState Unit :=
  { snapEngine r with matchState := snapM3 r, switchCooldownMs := 120, stealCooldownMs := 984, actionChargeMs := 0 }

def snapBallA : Ball := { snapBall with pos := ⟨3.02, 0⟩ }

def snapM13 (r : Role) : MatchState := { snapM3 r with ball := snapBallA }

def snapE13 (r : Role) : EngineState Unit :=
  { snapE3 r with matchState := snapM13 r, shootChargeMs := 316 }

def snapE1 (r : Role) : EngineState Unit := { snapEngine r with matchState := snapM1 r }

def snapE2 (r : Role) : EngineState Unit := { snapE1 r with stealCooldownMs := 984 }

/-- A both-edges-released input and a mid-charge engine for the
pass-precedence scenario. -/
def c10input : InputSnapshot := { noInput with actionReleased := true, shootReleased := true }

def c10engine : EngineState Unit := mkEngine c1match 0 300

/-! ## Basic lemmas about the vector algebra -/

theorem V.lenSq_nonneg (a : Vec2) : 0 ≤ V.lenSq a := by
  unfold V.lenSq; nlinarith [mul_self_nonneg a.x, mul_self_nonneg a.y]

theorem V.len_nonneg (a : Vec2) : 0 ≤ V.len a := Real.sqrt_nonneg _

theorem V.len_zero : V.len ⟨0, 0⟩ = 0 := by
  unfold V.len V.lenSq; simp

theorem V.lenSq_eq_sq_len (a : Vec2) : V.lenSq a = V.len a * V.len a := by
  unfold V.len
  rw [Real.mul_self_sqrt (V.lenSq_nonneg a)]

/-- The squared length of a guarded normalization: `1` away from the
epsilon guard, `0` at it. -/
theorem V.lenSq_norm (a : Vec2) (h : ¬V.len a ≤ 1 / 1000000000) :
    V.lenSq (V.norm a) = 1 := by
  have hl : 0 < V.len a := lt_of_le_of_lt (by norm_num) (not_le.mp h)
  have hne : V.len a ≠ 0 := ne_of_gt hl
  have hs : V.len a * V.len a = V.lenSq a := (V.lenSq_eq_sq_len a).symm
  unfold V.norm
  rw [if_neg h]
  unfold V.lenSq at hs ⊢
  dsimp only
  field_simp
  linarith [hs]

/-! ## C2 — goal detection is side-correct -/

/-- **C2.** `detectGoal` reports a goal exactly when the ball's `|y|` is
within the goal half-width and its `x` has crossed beyond the pitch
half-width plus the ball radius on either end; crossing the −x boundary
scores for the away team and crossing the +x boundary scores for the home
team (home attacks +x).  The hypothesis `0 < pitchW + 2·radius` merely
rules out a degenerate pitch in which both goal lines coincide. -/
theorem detectGoal_side_correct (m : MatchState) (config : EngineConfig) (ball : Ball)
    (hw : 0 < config.pitchW + 2 * ball.radius) :
    ((detectGoal m config ball).scored = true ↔
      |ball.pos.y| ≤ config.goalHalfW ∧
        (ball.pos.x ≤ -(config.pitchW / 2) - ball.radius ∨
         ball.pos.x ≥ config.pitchW / 2 + ball.radius)) ∧
    (|ball.pos.y| ≤ config.goalHalfW → ball.pos.x ≤ -(config.pitchW / 2) - ball.radius →
      detectGoal m config ball = ⟨true, some m.awayTeamId⟩) ∧
    (|ball.pos.y| ≤ config.goalHalfW → ball.pos.x ≥ config.pitchW / 2 + ball.radius →
      detectGoal m config ball = ⟨true, some m.homeTeamId⟩) := by
  unfold detectGoal
  refine ⟨?_, ?_, ?_⟩
  · by_cases h1 : |ball.pos.y| ≤ config.goalHalfW
    · by_cases h2 : ball.pos.x ≤ -(config.pitchW / 2) - ball.radius
      · simp [h1, h2]
      · by_cases h3 : ball.pos.x ≥ config.pitchW / 2 + ball.radius
        · simp [h1, h2, h3]
        · simp [h1, h2, h3]
    · simp [h1]
  · intro hy hx
    rw [if_pos hy, if_pos (by linarith)]
  · intro hy hx
    have hnx : ¬ball.pos.x ≤ -(config.pitchW / 2) - ball.radius := by linarith
    rw [if_pos hy, if_neg (by linarith), if_pos (by linarith)]

/-- Witness for C2: the spec's end-to-end shape — `pitchW=120`,
`goalHalfW=10`, ball radius `1.2` at `(−61.3, 0)` crosses the −x goal
line and scores for the away team. -/
theorem detectGoal_side_correct_witness :
    detectGoal
      { id := "match:single", homeTeamId := "kilo", awayTeamId := "cpu",
        score := ⟨0, 0⟩, clock := ⟨0, 180000, Phase.FIRST_HALF⟩,
        ball := ⟨⟨-61.3, 0⟩, ⟨-5, 0⟩, 1.2, none, none, none, 0⟩,
        playersById := [], teamsById := [], humanTeamId := "kilo",
        controlledPlayerId := "kilo:p3", possession := ⟨none, none⟩,
        lastEventText := none }
      { pitchW := 120, pitchH := 80, goalHalfW := 10, goalDepth := 4,
        simDtMs := 1000 / 60, maxFrameDtMs := 100, uiHz := 10, matchMsTotal := 180000 }
      ⟨⟨-61.3, 0⟩, ⟨-5, 0⟩, 1.2, none, none, none, 0⟩ =
      ⟨true, some "cpu"⟩ := by
  have h := (detectGoal_side_correct
    { id := "match:single", homeTeamId := "kilo", awayTeamId := "cpu",
      score := ⟨0, 0⟩, clock := ⟨0, 180000, Phase.FIRST_HALF⟩,
      ball := ⟨⟨-61.3, 0⟩, ⟨-5, 0⟩, 1.2, none, none, none, 0⟩,
      playersById := [], teamsById := [], humanTeamId := "kilo",
      controlledPlayerId := "kilo:p3", possession := ⟨none, none⟩,
      lastEventText := none }
    { pitchW := 120, pitchH := 80, goalHalfW := 10, goalDepth := 4,
      simDtMs := 1000 / 60, maxFrameDtMs := 100, uiHz := 10, matchMsTotal := 180000 }
    ⟨⟨-61.3, 0⟩, ⟨-5, 0⟩, 1.2, none, none, none, 0⟩
    (by norm_num)).2.1 (by norm_num) (by norm_num)
  exact h

/-! ## C5 — the minimum kick speed -/

theorem V.norm_unitX : V.norm ⟨1, 0⟩ = ⟨1, 0⟩ := by
  unfold V.norm V.len V.lenSq
  norm_num

/-- **C5 counterexample.**  The claim says every kick with `speed = 0` has
released speed at least the minimum kick speed, for *every* kicker and
direction.  A kicker running against the kick at `160/7 ≈ 22.9` units/s
(35% of which is exactly the 8-unit minimum) produces a released ball
velocity of exactly zero, which is below the minimum. -/
theorem releaseBallWithKick_minSpeed_cex :
    V.len (releaseBallWithKick (emptyMatch (mkBallFree ⟨0, 0⟩ ⟨0, 0⟩)) cancelKicker
        ⟨1, 0⟩ 0).ball.vel < BALL_RELEASE_KICK_SPEED_MIN := by
  have hv : (releaseBallWithKick (emptyMatch (mkBallFree ⟨0, 0⟩ ⟨0, 0⟩)) cancelKicker
      ⟨1, 0⟩ 0).ball.vel = ⟨0, 0⟩ := by
    simp only [releaseBallWithKick, updatePlayer, emptyMatch, mkMatch, mkBallFree,
      cancelKicker, mkPlayer, V.norm_unitX]
    norm_num [BALL_RELEASE_KICK_SPEED_MIN]
  rw [hv, V.len_zero]
  norm_num [BALL_RELEASE_KICK_SPEED_MIN]

/-- **C5 (amended).**  `releaseBallWithKick(kicker, dir, speed)` always
detaches the ball, arms the kick-immunity window, and sets the released
velocity to `norm(dir) × max(speed, minimum) + 0.35 × kicker.vel`; and for
a kicker at rest with a non-degenerate direction the released speed is
exactly `max(speed, minimum) ≥ minimum` — in particular `speed = 0` still
yields at least the minimum kick speed.  (The unconditional speed bound of
the original claim fails when 35% of the kicker's opposing velocity
cancels the kick; see the counterexample.) -/
theorem releaseBallWithKick_amended (m : MatchState) (kicker : Player) (dir : Vec2)
    (speed : ℝ) :
    (releaseBallWithKick m kicker dir speed).ball.vel =
      ⟨(V.norm dir).x * max speed BALL_RELEASE_KICK_SPEED_MIN + kicker.vel.x * 0.35,
       (V.norm dir).y * max speed BALL_RELEASE_KICK_SPEED_MIN + kicker.vel.y * 0.35⟩ ∧
    (releaseBallWithKick m kicker dir speed).ball.ownerPlayerId = none ∧
    (releaseBallWithKick m kicker dir speed).ball.lastKickPlayerId = some kicker.id ∧
    (releaseBallWithKick m kicker dir speed).ball.kickNoPickupMs = 220 ∧
    (kicker.vel = ⟨0, 0⟩ → ¬V.len dir ≤ 1 / 1000000000 →
      V.len (releaseBallWithKick m kicker dir speed).ball.vel =
          max speed BALL_RELEASE_KICK_SPEED_MIN ∧
        BALL_RELEASE_KICK_SPEED_MIN ≤ V.len (releaseBallWithKick m kicker dir speed).ball.vel) := by
  refine ⟨rfl, rfl, rfl, rfl, ?_⟩
  intro hrest hdir
  have hmax : (0 : ℝ) < max speed BALL_RELEASE_KICK_SPEED_MIN := by
    have : (8 : ℝ) ≤ max speed BALL_RELEASE_KICK_SPEED_MIN :=
      le_max_of_le_right (le_of_eq rfl)
    linarith
  have hunit : V.lenSq (V.norm dir) = 1 := V.lenSq_norm dir hdir
  have hv : (releaseBallWithKick m kicker dir speed).ball.vel =
      ⟨(V.norm dir).x * max speed BALL_RELEASE_KICK_SPEED_MIN,
       (V.norm dir).y * max speed BALL_RELEASE_KICK_SPEED_MIN⟩ := by
    show Vec2.mk _ _ = _
    rw [hrest]
    norm_num
  have hlen : V.len (releaseBallWithKick m kicker dir speed).ball.vel =
      max speed BALL_RELEASE_KICK_SPEED_MIN := by
    rw [hv]
    unfold V.len V.lenSq
    have : (V.norm dir).x * max speed BALL_RELEASE_KICK_SPEED_MIN *
          ((V.norm dir).x * max speed BALL_RELEASE_KICK_SPEED_MIN) +
        (V.norm dir).y * max speed BALL_RELEASE_KICK_SPEED_MIN *
          ((V.norm dir).y * max speed BALL_RELEASE_KICK_SPEED_MIN) =
        max speed BALL_RELEASE_KICK_SPEED_MIN * max speed BALL_RELEASE_KICK_SPEED_MIN := by
      have hu : (V.norm dir).x * (V.norm dir).x + (V.norm dir).y * (V.norm dir).y = 1 := hunit
      nlinarith [hu]
    rw [this, Real.sqrt_mul_self hmax.le]
  refine ⟨hlen, ?_⟩
  rw [hlen]
  exact le_max_of_le_right (le_of_eq rfl)

/-- Witness for the amended C5: a stationary kicker kicking `(1,0)` with
`speed = 0` releases the ball at exactly the minimum kick speed. -/
theorem releaseBallWithKick_amended_witness :
    V.len (releaseBallWithKick (emptyMatch (mkBallFree ⟨0, 0⟩ ⟨0, 0⟩)) stillKicker
        ⟨1, 0⟩ 0).ball.vel = max 0 BALL_RELEASE_KICK_SPEED_MIN ∧
      BALL_RELEASE_KICK_SPEED_MIN ≤
        V.len (releaseBallWithKick (emptyMatch (mkBallFree ⟨0, 0⟩ ⟨0, 0⟩)) stillKicker
          ⟨1, 0⟩ 0).ball.vel :=
  (releaseBallWithKick_amended (emptyMatch (mkBallFree ⟨0, 0⟩ ⟨0, 0⟩)) stillKicker
    ⟨1, 0⟩ 0).2.2.2.2 rfl
    (by unfold V.len V.lenSq; norm_num)

/-! ## Fold-invariant machinery for the candidate-selection loops -/

theorem foldl_preserve_mem {α β : Type _} (f : β → α → β) (P : β → Prop) (l : List α)
    (b : β) (hb : P b) (hf : ∀ b a, a ∈ l → P b → P (f b a)) : P (l.foldl f b) := by
  induction l generalizing b with
  | nil => exact hb
  | cons a t ih =>
      exact ih (f b a) (hf b a (List.mem_cons_self a t) hb)
        (fun b' a' ha' hb' => hf b' a' (List.mem_cons_of_mem a ha') hb')

/-- What a successful `tryClaimBall` selection loop guarantees about the
selected player. -/
theorem claimScan_spec (ball : Ball) (ps : List Player) (p : Player) (d : ℝ)
    (h : claimScan ball ps = some (p, d)) :
    ¬kickImmune ball p ∧ p ∈ ps ∧ d = V.distSq p.pos ball.pos := by
  unfold claimScan at h
  have := foldl_preserve_mem
    (fun best q =>
      if kickImmune ball q then best
      else
        match best with
        | none => some (q, V.distSq q.pos ball.pos)
        | some (b, bd) =>
            if V.distSq q.pos ball.pos < bd then some (q, V.distSq q.pos ball.pos)
            else some (b, bd))
    (fun r => ∀ q e, r = some (q, e) →
      ¬kickImmune ball q ∧ q ∈ ps ∧ e = V.distSq q.pos ball.pos)
    ps none (by intro q e he; cases he)
    (by
      intro b a ha hb q e
      dsimp only
      by_cases him : kickImmune ball a
      · rw [if_pos him]; exact hb q e
      · rw [if_neg him]
        cases b with
        | none =>
            intro he; injection he with he'; injection he' with h1 h2
            subst h1; subst h2
            exact ⟨him, ha, rfl⟩
        | some be =>
            obtain ⟨bp, bd⟩ := be
            dsimp only
            by_cases hlt : V.distSq a.pos ball.pos < bd
            · rw [if_pos hlt]; intro he; injection he with he'
              injection he' with h1 h2; subst h1; subst h2
              exact ⟨him, ha, rfl⟩
            · rw [if_neg hlt]; intro he; injection he with he'
              injection he' with h1 h2; subst h1; subst h2
              exact hb bp bd rfl)
  exact this p d h

/-- What a successful `tryImmediateBallPickup` selection loop guarantees. -/
theorem pickupScan_spec (ball : Ball) (ps : List Player) (p : Player) (d : ℝ)
    (h : pickupScan ball ps = some (p, d)) :
    ¬kickImmune ball p ∧ p ∈ ps ∧ d = V.distSq p.pos ball.pos ∧
      d ≤ (PLAYER_RADIUS + ball.radius + BALL_PICKUP_PAD) *
        (PLAYER_RADIUS + ball.radius + BALL_PICKUP_PAD) := by
  unfold pickupScan at h
  have := foldl_preserve_mem
    (fun best q =>
      if kickImmune ball q then best
      else
        match best with
        | none =>
            if V.distSq q.pos ball.pos ≤
                (PLAYER_RADIUS + ball.radius + BALL_PICKUP_PAD) *
                  (PLAYER_RADIUS + ball.radius + BALL_PICKUP_PAD) then
              some (q, V.distSq q.pos ball.pos)
            else best
        | some (b, bd) =>
            if V.distSq q.pos ball.pos ≤
                  (PLAYER_RADIUS + ball.radius + BALL_PICKUP_PAD) *
                    (PLAYER_RADIUS + ball.radius + BALL_PICKUP_PAD) ∧
                V.distSq q.pos ball.pos < bd then
              some (q, V.distSq q.pos ball.pos)
            else some (b, bd))
    (fun r => ∀ q e, r = some (q, e) →
      ¬kickImmune ball q ∧ q ∈ ps ∧ e = V.distSq q.pos ball.pos ∧
        e ≤ (PLAYER_RADIUS + ball.radius + BALL_PICKUP_PAD) *
          (PLAYER_RADIUS + ball.radius + BALL_PICKUP_PAD))
    ps none (by intro q e he; cases he)
    (by
      intro b a ha hb q e
      dsimp only
      by_cases him : kickImmune ball a
      · rw [if_pos him]; exact hb q e
      · rw [if_neg him]
        cases b with
        | none =>
            by_cases hr : V.distSq a.pos ball.pos ≤
                (PLAYER_RADIUS + ball.radius + BALL_PICKUP_PAD) *
                  (PLAYER_RADIUS + ball.radius + BALL_PICKUP_PAD)
            · rw [if_pos hr]; intro he; injection he with he'
              injection he' with h1 h2; subst h1; subst h2
              exact ⟨him, ha, rfl, hr⟩
            · rw [if_neg hr]; intro he; cases he
        | some be =>
            obtain ⟨bp, bd⟩ := be
            dsimp only
            by_cases hr : V.distSq a.pos ball.pos ≤
                  (PLAYER_RADIUS + ball.radius + BALL_PICKUP_PAD) *
                    (PLAYER_RADIUS + ball.radius + BALL_PICKUP_PAD) ∧
                V.distSq a.pos ball.pos < bd
            · rw [if_pos hr]; intro he; injection he with he'
              injection he' with h1 h2; subst h1; subst h2
              exact ⟨him, ha, rfl, hr.1⟩
            · rw [if_neg hr]; intro he; injection he with he'
              injection he' with h1 h2; subst h1; subst h2
              exact hb bp bd rfl)
  exact this p d h

/-- What a successful steal selection loop guarantees: the stealer is a
different player, is not kick-immune, approaches the ball at the minimum
approach speed or more, and overlaps the (tightly padded) ball contact
radius. -/
theorem stealScan_spec (ball : Ball) (ownerId : String) (ps : List Player) (p : Player)
    (d : ℝ) (h : stealScan ball ownerId ps = some (p, d)) :
    p.id ≠ ownerId ∧ ¬kickImmune ball p ∧
      stealApproach ball p ≥ STEAL_APPROACH_SPEED_MIN ∧ p ∈ ps ∧
      d = V.distSq p.pos ball.pos ∧
      d ≤ (PLAYER_RADIUS + ball.radius + BALL_STEAL_PAD) *
        (PLAYER_RADIUS + ball.radius + BALL_STEAL_PAD) := by
  unfold stealScan at h
  have := foldl_preserve_mem (stealStep ball ownerId)
    (fun r => ∀ q e, r = some (q, e) →
      q.id ≠ ownerId ∧ ¬kickImmune ball q ∧
        stealApproach ball q ≥ STEAL_APPROACH_SPEED_MIN ∧ q ∈ ps ∧
        e = V.distSq q.pos ball.pos ∧
        e ≤ (PLAYER_RADIUS + ball.radius + BALL_STEAL_PAD) *
          (PLAYER_RADIUS + ball.radius + BALL_STEAL_PAD))
    ps none (by intro q e he; cases he)
    (by
      intro b a ha hb q e
      unfold stealStep
      by_cases hown : a.id = ownerId
      · rw [if_pos hown]; exact hb q e
      · rw [if_neg hown]
        by_cases him : kickImmune ball a
        · rw [if_pos him]; exact hb q e
        · rw [if_neg him]
          by_cases happ : stealApproach ball a < STEAL_APPROACH_SPEED_MIN
          · rw [if_pos happ]; exact hb q e
          · rw [if_neg happ]
            cases b with
            | none =>
                by_cases hr : V.distSq a.pos ball.pos ≤
                    (PLAYER_RADIUS + ball.radius + BALL_STEAL_PAD) *
                      (PLAYER_RADIUS + ball.radius + BALL_STEAL_PAD)
                · rw [if_pos hr]; intro he; injection he with he'
                  injection he' with h1 h2; subst h1; subst h2
                  exact ⟨hown, him, not_lt.mp happ, ha, rfl, hr⟩
                · rw [if_neg hr]; intro he; cases he
            | some be =>
                obtain ⟨bp, bd⟩ := be
                dsimp only
                by_cases hr : V.distSq a.pos ball.pos ≤
                      (PLAYER_RADIUS + ball.radius + BALL_STEAL_PAD) *
                        (PLAYER_RADIUS + ball.radius + BALL_STEAL_PAD) ∧
                    V.distSq a.pos ball.pos < bd
                · rw [if_pos hr]; intro he; injection he with he'
                  injection he' with h1 h2; subst h1; subst h2
                  exact ⟨hown, him, not_lt.mp happ, ha, rfl, hr.1⟩
                · rw [if_neg hr]; intro he; injection he with he'
                  injection he' with h1 h2; subst h1; subst h2
                  exact hb bp bd rfl)
  exact this p d h

/-! ## C6 — the kicker cannot re-claim their own kick -/

theorem notImmune_ne (ball : Ball) (p : Player) (k : String)
    (hms : ball.kickNoPickupMs > 0) (hlk : ball.lastKickPlayerId = some k)
    (h : ¬kickImmune ball p) : p.id ≠ k := by
  intro he
  exact h ⟨hms, by rw [hlk, he]⟩

/-- **C6.**  While the kick-immunity countdown is positive and the last
kicker is recorded, (i) `tryClaimBall` never awards possession to the
kicker, (ii) `tryImmediateBallPickup` never selects the kicker, and
(iii) when every *other* player is outside both the claim distance and
the pickup contact radius, the ball stays free through both paths — so
running the claim logic immediately after `releaseBallWithKick` (which
sets the countdown to 220 and records the kicker) at the kicker's own
position leaves ownership free. -/
theorem kickImmunity_no_reclaim (m : MatchState) (k : String)
    (hms : m.ball.kickNoPickupMs > 0) (hlk : m.ball.lastKickPlayerId = some k) :
    (∀ j, m.ball.ownerPlayerId = none → (tryClaimBall m).2.playerId = some j → j ≠ k) ∧
    (∀ j, (tryImmediateBallPickup m).2 = some j → j ≠ k) ∧
    (m.ball.ownerPlayerId = none →
      (∀ p, p ∈ m.playersById → p.id ≠ k →
        V.distSq p.pos m.ball.pos > BALL_CLAIM_DIST * BALL_CLAIM_DIST ∧
        V.distSq p.pos m.ball.pos >
          (PLAYER_RADIUS + m.ball.radius + BALL_PICKUP_PAD) *
            (PLAYER_RADIUS + m.ball.radius + BALL_PICKUP_PAD)) →
      (tryClaimBall m).1.ball.ownerPlayerId = none ∧
      (tryClaimBall m).2 = ⟨none, none⟩ ∧
      (tryImmediateBallPickup m).1.ball.ownerPlayerId = none ∧
      (tryImmediateBallPickup m).2 = none) := by
  refine ⟨?_, ?_, ?_⟩
  · intro j hown hj
    unfold tryClaimBall at hj
    dsimp only at hj
    rw [hown] at hj
    simp only [Option.isSome_none, Bool.false_eq_true, if_false] at hj
    by_cases hs : V.len m.ball.vel > BALL_CLAIM_SPEED_MAX
    · rw [if_pos hs] at hj; cases hj
    · rw [if_neg hs] at hj
      rcases hsc : claimScan m.ball m.playersById with _ | ⟨bp, bd⟩
      · rw [hsc] at hj; cases hj
      · rw [hsc] at hj
        dsimp only at hj
        obtain ⟨hni, _, _⟩ := claimScan_spec m.ball m.playersById bp bd hsc
        by_cases hr : bd ≤ BALL_CLAIM_DIST * BALL_CLAIM_DIST
        · rw [if_pos hr] at hj
          have : some bp.id = some j := hj
          have hbj : bp.id = j := by injection this
          subst hbj
          exact notImmune_ne m.ball bp k hms hlk hni
        · rw [if_neg hr] at hj; cases hj
  · intro j hj
    unfold tryImmediateBallPickup at hj
    by_cases hown : m.ball.ownerPlayerId.isSome
    · rw [if_pos hown] at hj; cases hj
    · rw [if_neg hown] at hj
      rcases hsc : pickupScan m.ball m.playersById with _ | ⟨bp, bd⟩
      · rw [hsc] at hj; cases hj
      · rw [hsc] at hj
        dsimp only at hj
        obtain ⟨hni, _, _, _⟩ := pickupScan_spec m.ball m.playersById bp bd hsc
        have : some bp.id = some j := hj
        have hbj : bp.id = j := by injection this
        subst hbj
        exact notImmune_ne m.ball bp k hms hlk hni
  · intro hown hfar
    have hclaim : (tryClaimBall m).1 = m ∧ (tryClaimBall m).2 = ⟨none, none⟩ := by
      unfold tryClaimBall
      dsimp only
      rw [hown]
      simp only [Option.isSome_none, Bool.false_eq_true, if_false]
      by_cases hs : V.len m.ball.vel > BALL_CLAIM_SPEED_MAX
      · rw [if_pos hs]; exact ⟨rfl, rfl⟩
      · rw [if_neg hs]
        rcases hsc : claimScan m.ball m.playersById with _ | ⟨bp, bd⟩
        · exact ⟨rfl, rfl⟩
        · dsimp only
          obtain ⟨hni, hmem, hd⟩ := claimScan_spec m.ball m.playersById bp bd hsc
          have hne : bp.id ≠ k := notImmune_ne m.ball bp k hms hlk hni
          have hout := (hfar bp hmem hne).1
          rw [if_neg (by rw [hd]; exact not_le.mpr hout)]
          exact ⟨rfl, rfl⟩
    have hpick : (tryImmediateBallPickup m).1 = m ∧ (tryImmediateBallPickup m).2 = none := by
      unfold tryImmediateBallPickup
      have hown' : ¬m.ball.ownerPlayerId.isSome = true := by rw [hown]; simp
      rw [if_neg hown']
      rcases hsc : pickupScan m.ball m.playersById with _ | ⟨bp, bd⟩
      · exact ⟨rfl, rfl⟩
      · obtain ⟨hni, hmem, hd, hr⟩ := pickupScan_spec m.ball m.playersById bp bd hsc
        have hne : bp.id ≠ k := notImmune_ne m.ball bp k hms hlk hni
        have hout := (hfar bp hmem hne).2
        rw [hd] at hr
        exact absurd hr (not_le.mpr hout)
    exact ⟨by rw [hclaim.1]; exact hown, hclaim.2, by rw [hpick.1]; exact hown, hpick.2⟩

/-- Witness for C6: the state immediately after a kick — countdown 220,
last kicker `kilo:p3` standing exactly at the ball — keeps the ball free
and unclaimable by the kicker. -/
theorem kickImmunity_no_reclaim_witness :
    (tryClaimBall (mkMatch [mkPlayer "kilo:p3" Role.MF "kilo" ⟨0, 0⟩ ⟨0, 0⟩] []
        { pos := ⟨0, 0⟩, vel := ⟨0, 0⟩, radius := 1.2, ownerPlayerId := none,
          lastTouchTeamId := some "kilo", lastKickPlayerId := some "kilo:p3",
          kickNoPickupMs := 220 } "kilo:p3" ⟨none, none⟩)).1.ball.ownerPlayerId = none ∧
    (tryClaimBall (mkMatch [mkPlayer "kilo:p3" Role.MF "kilo" ⟨0, 0⟩ ⟨0, 0⟩] []
        { pos := ⟨0, 0⟩, vel := ⟨0, 0⟩, radius := 1.2, ownerPlayerId := none,
          lastTouchTeamId := some "kilo", lastKickPlayerId := some "kilo:p3",
          kickNoPickupMs := 220 } "kilo:p3" ⟨none, none⟩)).2 = ⟨none, none⟩ ∧
    (tryImmediateBallPickup (mkMatch [mkPlayer "kilo:p3" Role.MF "kilo" ⟨0, 0⟩ ⟨0, 0⟩] []
        { pos := ⟨0, 0⟩, vel := ⟨0, 0⟩, radius := 1.2, ownerPlayerId := none,
          lastTouchTeamId := some "kilo", lastKickPlayerId := some "kilo:p3",
          kickNoPickupMs := 220 } "kilo:p3" ⟨none, none⟩)).1.ball.ownerPlayerId = none ∧
    (tryImmediateBallPickup (mkMatch [mkPlayer "kilo:p3" Role.MF "kilo" ⟨0, 0⟩ ⟨0, 0⟩] []
        { pos := ⟨0, 0⟩, vel := ⟨0, 0⟩, radius := 1.2, ownerPlayerId := none,
          lastTouchTeamId := some "kilo", lastKickPlayerId := some "kilo:p3",
          kickNoPickupMs := 220 } "kilo:p3" ⟨none, none⟩)).2 = none :=
  (kickImmunity_no_reclaim
    (mkMatch [mkPlayer "kilo:p3" Role.MF "kilo" ⟨0, 0⟩ ⟨0, 0⟩] []
      { pos := ⟨0, 0⟩, vel := ⟨0, 0⟩, radius := 1.2, ownerPlayerId := none,
        lastTouchTeamId := some "kilo", lastKickPlayerId := some "kilo:p3",
        kickNoPickupMs := 220 } "kilo:p3" ⟨none, none⟩) "kilo:p3"
    (by norm_num [mkMatch]) (by simp [mkMatch])).2.2 rfl
    (by
      intro p hp hne
      simp only [mkMatch, List.mem_singleton] at hp
      subst hp
      exact (hne rfl).elim)

/-! ## C3 — steals need proximity and approach speed, then a cooldown -/

theorem lookupPlayer_spec (m : MatchState) (pid : String) (p : Player)
    (h : lookupPlayer m pid = some p) : p.id = pid ∧ p ∈ m.playersById := by
  unfold lookupPlayer at h
  have h1 := List.find?_some h
  simp only [decide_eq_true_eq] at h1
  exact ⟨h1, List.mem_of_find?_eq_some h⟩

theorem stealStep_some (ball : Ball) (oid : String) (x : Player × ℝ) (p : Player) :
    stealStep ball oid (some x) p ≠ none := by
  unfold stealStep
  obtain ⟨b, bd⟩ := x
  dsimp only
  split_ifs <;> simp

theorem stealFold_some (ball : Ball) (oid : String) (ps : List Player)
    (acc : Option (Player × ℝ)) (h : acc ≠ none) :
    ps.foldl (stealStep ball oid) acc ≠ none := by
  induction ps generalizing acc with
  | nil => exact h
  | cons a t ih =>
      apply ih
      cases acc with
      | none => exact absurd rfl h
      | some x => exact stealStep_some ball oid x a

/-- If the steal loop selects nobody, then no player was eligible. -/
theorem stealScan_none_spec (ball : Ball) (oid : String) :
    ∀ (ps : List Player) (acc : Option (Player × ℝ)),
      ps.foldl (stealStep ball oid) acc = none →
      ∀ p ∈ ps, ¬(p.id ≠ oid ∧ ¬kickImmune ball p ∧
        stealApproach ball p ≥ STEAL_APPROACH_SPEED_MIN ∧
        V.distSq p.pos ball.pos ≤ (PLAYER_RADIUS + ball.radius + BALL_STEAL_PAD) *
          (PLAYER_RADIUS + ball.radius + BALL_STEAL_PAD)) := by
  intro ps
  induction ps with
  | nil => intro acc h p hp; cases hp
  | cons a t ih =>
      intro acc h p hp
      rcases List.mem_cons.mp hp with rfl | hpt
      · rintro ⟨h1, h2, h3, h4⟩
        have hstep : stealStep ball oid acc p ≠ none := by
          unfold stealStep
          rw [if_neg h1, if_neg h2, if_neg (not_lt.mpr h3)]
          cases acc with
          | none => dsimp only; rw [if_pos h4]; simp
          | some x => obtain ⟨b, bd⟩ := x; dsimp only; split_ifs <;> simp
        exact absurd h (stealFold_some ball oid t _ hstep)
      · exact ih (stealStep ball oid acc a) h p hpt

/-- A stationary player's approach velocity toward the ball is zero. -/
theorem stealApproach_of_still (ball : Ball) (p : Player) (hv : p.vel = ⟨0, 0⟩) :
    stealApproach ball p = 0 := by
  unfold stealApproach V.dot
  rw [hv]
  ring

theorem humanKickSection_stealCooldown {Vfx : Type} (input : InputSnapshot) (dtMs : ℝ)
    (co : Player) (e : EngineState Vfx) :
    (humanKickSection input dtMs co e).stealCooldownMs = e.stealCooldownMs := by
  unfold humanKickSection
  dsimp only
  split_ifs <;> rfl

theorem humanKickSection_owner {Vfx : Type} (input : InputSnapshot) (dtMs : ℝ)
    (co : Player) (e : EngineState Vfx) :
    (humanKickSection input dtMs co e).matchState.ball.ownerPlayerId = none ∨
    (humanKickSection input dtMs co e).matchState.ball.ownerPlayerId =
      e.matchState.ball.ownerPlayerId := by
  unfold humanKickSection
  dsimp only
  split_ifs <;> first | exact Or.inl rfl | exact Or.inr rfl

theorem gkFollowPhase_stealCooldown {Vfx : Type} (co : Option Player)
    (e : EngineState Vfx) : (gkFollowPhase co e).stealCooldownMs = e.stealCooldownMs := by
  unfold gkFollowPhase
  rcases co with _ | c
  · rfl
  · dsimp only
    split_ifs <;> rfl

theorem gkFollowPhase_ball {Vfx : Type} (co : Option Player) (e : EngineState Vfx) :
    (gkFollowPhase co e).matchState.ball = e.matchState.ball := by
  unfold gkFollowPhase
  rcases co with _ | c
  · rfl
  · dsimp only
    split_ifs <;> rfl

theorem kickOrClearPhase_stealCooldown {Vfx : Type} (input : InputSnapshot) (dtMs : ℝ)
    (co : Option Player) (e : EngineState Vfx) :
    (kickOrClearPhase input dtMs co e).stealCooldownMs = e.stealCooldownMs := by
  unfold kickOrClearPhase
  rcases co with _ | c
  · rfl
  · dsimp only
    split_ifs
    · exact humanKickSection_stealCooldown input dtMs c e
    · rfl

theorem kickOrClearPhase_owner {Vfx : Type} (input : InputSnapshot) (dtMs : ℝ)
    (co : Option Player) (e : EngineState Vfx) :
    (kickOrClearPhase input dtMs co e).matchState.ball.ownerPlayerId = none ∨
    (kickOrClearPhase input dtMs co e).matchState.ball.ownerPlayerId =
      e.matchState.ball.ownerPlayerId := by
  unfold kickOrClearPhase
  rcases co with _ | c
  · exact Or.inr rfl
  · dsimp only
    split_ifs
    · exact humanKickSection_owner input dtMs c e
    · exact Or.inr rfl

theorem attachPhase_stealCooldown {Vfx : Type} (co : Option Player) (e : EngineState Vfx) :
    (attachPhase co e).stealCooldownMs = e.stealCooldownMs := by
  unfold attachPhase
  rcases e.matchState.ball.ownerPlayerId with _ | o <;> rcases co with _ | c <;> rfl

theorem attachPhase_owner {Vfx : Type} (co : Option Player) (e : EngineState Vfx) :
    (attachPhase co e).matchState.ball.ownerPlayerId =
      e.matchState.ball.ownerPlayerId := by
  unfold attachPhase
  rcases h : e.matchState.ball.ownerPlayerId with _ | o <;> rcases co with _ | c <;>
    simp [h, attachBallToOwner]

theorem stealResolvePhase_skip {Vfx : Type} (e : EngineState Vfx)
    (hcd : e.stealCooldownMs > 0) : stealResolvePhase e = e := by
  unfold stealResolvePhase
  dsimp only
  rw [if_neg (not_le.mpr hcd)]

theorem stealResolvePhase_fired {Vfx : Type} (e : EngineState Vfx) (j : String)
    (hcd : e.stealCooldownMs ≤ 0)
    (hsteal : (tryStealOwnedBallByBallContact e.matchState).2 = some j) :
    (stealResolvePhase e).stealCooldownMs = 650 := by
  unfold stealResolvePhase
  dsimp only
  rw [if_pos hcd, hsteal]

/-- **C3.**  The steal rule: (i) a winner of the ball-contact steal loop
is never a stationary player (the approach velocity must reach the
minimum approach speed, which excludes any player at rest, however
close); (ii) a defender whose tight contact radius overlaps the ball and
who closes in fast enough does gain possession — the steal succeeds and
the winner (a non-owner) becomes the new owner; (iii) while the steal
cooldown is positive the owned-ball phase attempts no steal, so ownership
can only stay or be released by a kick, never pass to another player;
(iv) a successful steal inside the owned-ball phase arms the 650 ms
cooldown. -/
theorem steal_needs_contact_and_approach :
    (∀ (ball : Ball) (oid : String) (ps : List Player) (q : Player) (d : ℝ),
      stealScan ball oid ps = some (q, d) → q.vel ≠ ⟨0, 0⟩) ∧
    (∀ (m : MatchState) (oid : String) (defender : Player),
      m.ball.ownerPlayerId = some oid → (lookupPlayer m oid).isSome →
      defender ∈ m.playersById → defender.id ≠ oid →
      ¬kickImmune m.ball defender →
      stealApproach m.ball defender ≥ STEAL_APPROACH_SPEED_MIN →
      V.distSq defender.pos m.ball.pos ≤
        (PLAYER_RADIUS + m.ball.radius + BALL_STEAL_PAD) *
          (PLAYER_RADIUS + m.ball.radius + BALL_STEAL_PAD) →
      (tryStealOwnedBallByBallContact m).2.isSome ∧
        (∀ j, (tryStealOwnedBallByBallContact m).2 = some j →
          (tryStealOwnedBallByBallContact m).1.ball.ownerPlayerId = some j ∧ j ≠ oid)) ∧
    (∀ (Vfx : Type) (input : InputSnapshot) (dtMs : ℝ) (e : EngineState Vfx),
      e.stealCooldownMs > 0 →
      (ownedBallPhase input dtMs e).matchState.ball.ownerPlayerId = none ∨
      (ownedBallPhase input dtMs e).matchState.ball.ownerPlayerId =
        e.matchState.ball.ownerPlayerId) ∧
    (∀ (Vfx : Type) (input : InputSnapshot) (dtMs : ℝ) (e : EngineState Vfx) (j : String),
      e.stealCooldownMs ≤ 0 →
      (tryStealOwnedBallByBallContact e.matchState).2 = some j →
      (ownedBallPhase input dtMs e).stealCooldownMs = 650) := by
  refine ⟨?_, ?_, ?_, ?_⟩
  · intro ball oid ps q d h hv
    obtain ⟨_, _, happ, _, _, _⟩ := stealScan_spec ball oid ps q d h
    rw [stealApproach_of_still ball q hv] at happ
    have : (5.5 : ℝ) ≤ 0 := by
      simpa [STEAL_APPROACH_SPEED_MIN] using happ
    norm_num at this
  · intro m oid defender hown hres hmem hne him happ hd
    unfold tryStealOwnedBallByBallContact
    rw [hown]
    dsimp only
    obtain ⟨owner, howner⟩ := Option.isSome_iff_exists.mp hres
    rw [howner]
    dsimp only
    have hoid : owner.id = oid := (lookupPlayer_spec m oid owner howner).1
    rcases hsc : stealScan m.ball owner.id m.playersById with _ | ⟨q, d⟩
    · exfalso
      have := stealScan_none_spec m.ball owner.id m.playersById none hsc defender hmem
      rw [hoid] at this
      exact this ⟨hne, him, happ, hd⟩
    · constructor
      · simp
      · intro j hj
        dsimp only at hj
        have hqj : q.id = j := by injection hj
        obtain ⟨hqne, _, _, _, _, _⟩ := stealScan_spec m.ball owner.id m.playersById q d hsc
        subst hqj
        refine ⟨rfl, ?_⟩
        rw [← hoid]
        exact hqne
  · intro Vfx input dtMs e hcd
    unfold ownedBallPhase
    rcases hB : e.matchState.ball.ownerPlayerId with _ | oid
    · exact Or.inl hB
    · dsimp only
      rcases hL : lookupPlayer e.matchState oid with _ | w
      · exact Or.inl rfl
      · dsimp only
        rw [stealResolvePhase_skip e hcd]
        rw [attachPhase_owner]
        rcases kickOrClearPhase_owner input dtMs
            (e.matchState.ball.ownerPlayerId.bind (lookupPlayer e.matchState))
            (gkFollowPhase (e.matchState.ball.ownerPlayerId.bind (lookupPlayer e.matchState)) e)
          with h | h
        · exact Or.inl h
        · rw [h, gkFollowPhase_ball]
          exact Or.inr hB
  · intro Vfx input dtMs e j hcd hsteal
    unfold ownedBallPhase
    rcases hown : e.matchState.ball.ownerPlayerId with _ | oid
    · exfalso
      unfold tryStealOwnedBallByBallContact at hsteal
      rw [hown] at hsteal
      cases hsteal
    · dsimp only
      rcases hlk : lookupPlayer e.matchState oid with _ | owner
      · exfalso
        unfold tryStealOwnedBallByBallContact at hsteal
        rw [hown] at hsteal
        dsimp only at hsteal
        rw [hlk] at hsteal
        cases hsteal
      · dsimp only
        rw [attachPhase_stealCooldown, kickOrClearPhase_stealCooldown,
          gkFollowPhase_stealCooldown]
        exact stealResolvePhase_fired e j hcd hsteal

/-! ## C4 — pass target selection -/

theorem V.len_axis (d : ℝ) : V.len ⟨d, 0⟩ = |d| := by
  unfold V.len V.lenSq
  rw [show d * d + 0 * 0 = d ^ 2 by ring, Real.sqrt_sq_eq_abs]

theorem passMatch_teamPlayers (xA xB : ℝ) :
    getTeamPlayers (passMatch xA xB) "kilo" = [passKicker, passMateA xA, passMateB xB] := by
  simp [getTeamPlayers, lookupTeam, lookupPlayer, passMatch, mkMatch, passKicker,
    passMateA, passMateB, mkPlayer, List.find?, List.filterMap]

/-- The candidate list of the two-teammate pass scenario: the passer is
excluded, each teammate at axis offset `x` yields distance `|x|`,
projection `x` and lateral deviation `0` (provided it clears the
3-unit minimum selectable distance). -/
theorem passCands_eval (xA xB : ℝ) (hA : ¬|xA| < 3) (hB : ¬|xB| < 3) :
    passCands [passKicker, passMateA xA, passMateB xB] passKicker ⟨1, 0⟩ =
      [⟨passMateA xA, |xA|, xA, 0⟩, ⟨passMateB xB, |xB|, xB, 0⟩] := by
  unfold passCands
  simp only [passKicker, passMateA, passMateB, mkPlayer, List.filterMap_cons]
  simp [V.sub, V.dot, V.len_axis, hA, hB]

/-- **C4 counterexample.**  The spec's own scenario — teammates at 1 and
20 units directly ahead of a passer aiming straight ahead — does *not*
give the tap pass to the 1-unit teammate: candidates closer than the
3-unit minimum selectable distance are discarded, so the tap pass selects
the 20-unit teammate even though the 1-unit teammate is a teammate on the
aim ray (lateral deviation 0) at a smaller distance. -/
theorem pickBestPassTarget_tap_cex :
    pickBestPassTarget (passMatch 1 20) "kilo" passKicker ⟨1, 0⟩ false =
        some (passMateB 20) ∧
      passMateA 1 ∈ getTeamPlayers (passMatch 1 20) "kilo" ∧
      (passMateA 1).id ≠ (passMateB 20).id ∧
      V.dist (passMateA 1).pos passKicker.pos < V.dist (passMateB 20).pos passKicker.pos ∧
      (V.sub (passMateA 1).pos passKicker.pos).y = 0 ∧
      (V.sub (passMateB 20).pos passKicker.pos).y = 0 := by
  refine ⟨?_, ?_, ?_, ?_, ?_, ?_⟩
  · unfold pickBestPassTarget
    rw [passMatch_teamPlayers, V.norm_unitX]
    have hcands : passCands [passKicker, passMateA 1, passMateB 20] passKicker ⟨1, 0⟩ =
        [⟨passMateB 20, 20, 20, 0⟩] := by
      unfold passCands
      simp only [passKicker, passMateA, passMateB, mkPlayer, List.filterMap_cons]
      simp [V.sub, V.dot, V.len_axis]
      norm_num
    rw [if_neg (by norm_num [V.lenSq]), hcands]
    norm_num [firstMinBy, passLtTap]
  · rw [passMatch_teamPlayers]
    simp
  · simp [passMateA, passMateB, mkPlayer]
  · unfold V.dist V.distSq
    have h1 : V.lenSq (V.sub (passMateA 1).pos passKicker.pos) = 1 := by
      norm_num [passMateA, passKicker, mkPlayer, V.sub, V.lenSq]
    have h2 : V.lenSq (V.sub (passMateB 20).pos passKicker.pos) = 400 := by
      norm_num [passMateB, passKicker, mkPlayer, V.sub, V.lenSq]
    rw [h1, h2]
    rw [show (400 : ℝ) = 20 ^ 2 by norm_num, Real.sqrt_sq (by norm_num)]
    have : Real.sqrt 1 = 1 := Real.sqrt_one
    rw [this]
    norm_num
  · norm_num [passMateA, passKicker, mkPlayer, V.sub]
  · norm_num [passMateB, passKicker, mkPlayer, V.sub]

/-- **C4 (amended).**  With a non-degenerate aim, `pickBestPassTarget`
selects among teammates at least 3 units away: below the tap threshold it
takes, within the lane band around the aim ray, the candidate with the
smallest lateral deviation and then the smallest aim-ray projection
(for candidates ahead of the aim this is the nearest); strictly above the
threshold it takes the one with the smallest lateral deviation and then
the largest projection (the farthest in the lane).  If no teammate is
ahead of the aim (projection > 1), the candidate pool falls back to all
selectable teammates.  Concretely, with two on-ray teammates at `xA` and
`xB` (`3 ≤ xA < xB`): tap selects the nearer, hold the farther, and with
both teammates behind the passer the selection still returns a (behind)
teammate via the fallback pool. -/
theorem pickBestPassTarget_amended (xA xB : ℝ) (h3 : 3 ≤ xA) (hAB : xA < xB) :
    pickBestPassTarget (passMatch xA xB) "kilo" passKicker ⟨1, 0⟩ false =
        some (passMateA xA) ∧
      pickBestPassTarget (passMatch xA xB) "kilo" passKicker ⟨1, 0⟩ true =
        some (passMateB xB) ∧
      pickBestPassTarget (passMatch (-xA) (-xB)) "kilo" passKicker ⟨1, 0⟩ false =
        some (passMateB (-xB)) := by
  have hA0 : (0 : ℝ) ≤ xA := by linarith
  have hB0 : (0 : ℝ) ≤ xB := by linarith
  have hAa : |xA| = xA := abs_of_nonneg hA0
  have hBa : |xB| = xB := abs_of_nonneg hB0
  have hAn : ¬|xA| < 3 := by rw [hAa]; linarith
  have hBn : ¬|xB| < 3 := by rw [hBa]; linarith
  have hAn' : ¬|(-xA)| < 3 := by rw [abs_neg, hAa]; linarith
  have hBn' : ¬|(-xB)| < 3 := by rw [abs_neg, hBa]; linarith
  have hA1 : (1 : ℝ) < xA := by linarith
  have hB1 : (1 : ℝ) < xB := by linarith
  have hnBA : ¬xB < xA := not_lt.mpr hAB.le
  have hnBAe : xB ≠ xA := ne_of_gt hAB
  refine ⟨?_, ?_, ?_⟩
  · unfold pickBestPassTarget
    rw [passMatch_teamPlayers, V.norm_unitX, if_neg (by norm_num [V.lenSq]),
      passCands_eval xA xB hAn hBn]
    simp only [List.isEmpty_cons, List.filter_cons, List.filter_nil]
    rw [hAa, hBa]
    norm_num [hA1, hB1, min_self, firstMinBy, passLtTap, hnBA, hnBAe]
  · unfold pickBestPassTarget
    rw [passMatch_teamPlayers, V.norm_unitX, if_neg (by norm_num [V.lenSq]),
      passCands_eval xA xB hAn hBn]
    simp only [List.isEmpty_cons, List.filter_cons, List.filter_nil]
    rw [hAa, hBa]
    norm_num [hA1, hB1, min_self, firstMinBy, passLtHold, hAB]
  · unfold pickBestPassTarget
    rw [passMatch_teamPlayers, V.norm_unitX, if_neg (by norm_num [V.lenSq]),
      passCands_eval (-xA) (-xB) hAn' hBn']
    simp only [List.isEmpty_cons, List.filter_cons, List.filter_nil]
    rw [abs_neg, abs_neg, hAa, hBa]
    have hnA1 : ¬(1 : ℝ) < -xA := by linarith
    have hnB1 : ¬(1 : ℝ) < -xB := by linarith
    have hBA' : -xB < -xA := by linarith
    norm_num [hnA1, hnB1, min_self, firstMinBy, passLtTap, hBA']

/-- Witness for the amended C4 at the spec's corrected offsets 4 and 20:
tap picks the 4-unit teammate, full hold the 20-unit one, and the
behind-fallback also selects. -/
theorem pickBestPassTarget_amended_witness :
    pickBestPassTarget (passMatch 4 20) "kilo" passKicker ⟨1, 0⟩ false =
        some (passMateA 4) ∧
      pickBestPassTarget (passMatch 4 20) "kilo" passKicker ⟨1, 0⟩ true =
        some (passMateB 20) ∧
      pickBestPassTarget (passMatch (-4) (-20)) "kilo" passKicker ⟨1, 0⟩ false =
        some (passMateB (-20)) :=
  pickBestPassTarget_amended 4 20 (by norm_num) (by norm_num)

/-! ## Frame lemmas: no phase touches the clock, the team structure or
the identity of the player store -/

theorem MFrame_refl (m : MatchState) : MFrame m m :=
  ⟨rfl, rfl, rfl, rfl, rfl, rfl⟩

theorem MFrame_trans {a b c : MatchState} (h1 : MFrame a b) (h2 : MFrame b c) :
    MFrame a c :=
  ⟨h2.1.trans h1.1, h2.2.1.trans h1.2.1, h2.2.2.1.trans h1.2.2.1,
   h2.2.2.2.1.trans h1.2.2.2.1, h2.2.2.2.2.1.trans h1.2.2.2.2.1,
   h2.2.2.2.2.2.trans h1.2.2.2.2.2⟩

theorem updatePlayer_mframe (m : MatchState) (pid : String) (f : Player → Player)
    (hf : ∀ p, (f p).id = p.id) : MFrame m (updatePlayer m pid f) := by
  refine ⟨rfl, rfl, rfl, rfl, rfl, ?_⟩
  unfold updatePlayer
  dsimp only
  rw [List.map_map]
  refine List.map_congr_left ?_
  intro p _
  by_cases h : p.id = pid
  · simp [h, hf p]
  · simp [h]

theorem mapAllPlayers_mframe (m : MatchState) (f : Player → Player)
    (hf : ∀ p, (f p).id = p.id) : MFrame m (mapAllPlayers m f) := by
  refine ⟨rfl, rfl, rfl, rfl, rfl, ?_⟩
  unfold mapAllPlayers
  dsimp only
  rw [List.map_map]
  refine List.map_congr_left ?_
  intro p _
  exact hf p

theorem foldl_mframe {α : Type _} (step : MatchState → α → MatchState) (l : List α)
    (m0 : MatchState) (h : ∀ m a, a ∈ l → MFrame m (step m a)) :
    MFrame m0 (l.foldl step m0) :=
  foldl_preserve_mem step (MFrame m0) l m0 (MFrame_refl m0)
    (fun b a ha hb => MFrame_trans hb (h b a ha))

theorem ballUpdate_mframe (m : MatchState) (b : Ball) :
    MFrame m { m with ball := b } :=
  ⟨rfl, rfl, rfl, rfl, rfl, rfl⟩

theorem setBallOwner_mframe (m : MatchState) (p : Player) :
    MFrame m (setBallOwner m p) := by
  refine ⟨rfl, rfl, rfl, rfl, rfl, ?_⟩
  show ((setBallOwner m p).playersById.map Player.id) = m.playersById.map Player.id
  unfold setBallOwner mapAllPlayers
  dsimp only
  rw [List.map_map]
  exact List.map_congr_left (fun q _ => rfl)

theorem releaseBallWithKick_mframe (m : MatchState) (kicker : Player) (dir : Vec2)
    (speed : ℝ) : MFrame m (releaseBallWithKick m kicker dir speed) := by
  unfold releaseBallWithKick
  dsimp only
  exact MFrame_trans (ballUpdate_mframe m _)
    (updatePlayer_mframe _ kicker.id (fun p => { p with hasBall := false }) (fun _ => rfl))

theorem tryClaimBall_mframe (m : MatchState) : MFrame m (tryClaimBall m).1 := by
  unfold tryClaimBall
  dsimp only
  split_ifs with h1 h2
  · exact MFrame_refl m
  · exact MFrame_refl m
  · rcases claimScan m.ball m.playersById with _ | ⟨bp, bd⟩
    · exact MFrame_refl m
    · dsimp only
      split_ifs with h3
      · exact MFrame_trans (ballUpdate_mframe m _)
          (mapAllPlayers_mframe _ (fun p => { p with hasBall := decide (p.id = bp.id) })
            (fun _ => rfl))
      · exact MFrame_refl m

theorem tryImmediateBallPickup_mframe (m : MatchState) :
    MFrame m (tryImmediateBallPickup m).1 := by
  unfold tryImmediateBallPickup
  split_ifs with h1
  · exact MFrame_refl m
  · rcases pickupScan m.ball m.playersById with _ | ⟨bp, bd⟩
    · exact MFrame_refl m
    · exact setBallOwner_mframe m bp

theorem tryStealOwnedBallByBallContact_mframe (m : MatchState) :
    MFrame m (tryStealOwnedBallByBallContact m).1 := by
  unfold tryStealOwnedBallByBallContact
  rcases m.ball.ownerPlayerId with _ | oid
  · exact MFrame_refl m
  · dsimp only
    rcases lookupPlayer m oid with _ | owner
    · exact MFrame_refl m
    · dsimp only
      rcases stealScan m.ball owner.id m.playersById with _ | ⟨bp, bd⟩
      · exact MFrame_refl m
      · exact setBallOwner_mframe m bp

theorem pushFreeBallByPlayers_mframe (m : MatchState) (config : EngineConfig) (dt : ℝ) :
    MFrame m (pushFreeBallByPlayers m config dt) := by
  unfold pushFreeBallByPlayers
  split_ifs with h1
  · exact MFrame_refl m
  · exact ballUpdate_mframe m _

theorem resolveScoreSide_mframe (m : MatchState) (tid : String) :
    MFrame m (resolveScoreSide m tid) := by
  unfold resolveScoreSide
  split_ifs <;> exact ⟨rfl, rfl, rfl, rfl, rfl, rfl⟩

theorem setPosOpt_mframe (mm : MatchState) (po : Option Player) (x y : ℝ) :
    MFrame mm (setPosOpt mm po x y) := by
  unfold setPosOpt
  rcases po with _ | p
  · exact MFrame_refl mm
  · exact updatePlayer_mframe mm p.id _ (fun _ => rfl)

theorem placeTeamKickoff_mframe (config : EngineConfig) (m : MatchState) (tid : String)
    (leftSide : Bool) : MFrame m (placeTeamKickoff config m tid leftSide) := by
  unfold placeTeamKickoff
  dsimp only
  exact MFrame_trans (setPosOpt_mframe m _ _ _)
    (MFrame_trans (setPosOpt_mframe _ _ _ _)
      (MFrame_trans (setPosOpt_mframe _ _ _ _)
        (MFrame_trans (setPosOpt_mframe _ _ _ _)
          (MFrame_trans (setPosOpt_mframe _ _ _ _)
            (foldl_mframe _ (getTeamPlayers m tid) _
              (fun mm p _ => updatePlayer_mframe mm p.id _ (fun _ => rfl)))))))


theorem ctrl_mframe (m : MatchState) (cid : String) :
    MFrame m { m with controlledPlayerId := cid } :=
  ⟨rfl, rfl, rfl, rfl, rfl, rfl⟩

theorem poss_mframe (m : MatchState) (po : Possession) :
    MFrame m { m with possession := po } :=
  ⟨rfl, rfl, rfl, rfl, rfl, rfl⟩

theorem lastEvent_mframe (m : MatchState) (t : Option String) :
    MFrame m { m with lastEventText := t } :=
  ⟨rfl, rfl, rfl, rfl, rfl, rfl⟩

theorem ballPoss_mframe (m : MatchState) (b : Ball) (po : Possession) :
    MFrame m { m with ball := b, possession := po } :=
  ⟨rfl, rfl, rfl, rfl, rfl, rfl⟩

theorem ballOwnerSet_mframe (m : MatchState) (o : Option String) :
    MFrame m { m with ball := { m.ball with ownerPlayerId := o } } :=
  ⟨rfl, rfl, rfl, rfl, rfl, rfl⟩

theorem releaseAfterUpdate_mframe (m : MatchState) (pid : String) (f : Player → Player)
    (kicker : Player) (dir : Vec2) (speed : ℝ) (hf : ∀ p, (f p).id = p.id) :
    MFrame m (releaseBallWithKick (updatePlayer m pid f) kicker dir speed) :=
  MFrame_trans (updatePlayer_mframe m pid f hf) (releaseBallWithKick_mframe _ kicker dir speed)

theorem possessionFollowPhase_mframe {Vfx : Type} (e : EngineState Vfx) :
    MFrame e.matchState (possessionFollowPhase e).matchState := by
  unfold possessionFollowPhase
  dsimp only
  rcases e.matchState.ball.ownerPlayerId.bind (lookupPlayer e.matchState) with _ | op
  · exact MFrame_refl _
  · dsimp only
    split_ifs with h
    · exact ⟨rfl, rfl, rfl, rfl, rfl, rfl⟩
    · exact MFrame_refl _

theorem autoSwitchNearest_mframe {Vfx : Type} (e : EngineState Vfx) :
    MFrame e.matchState (autoSwitchNearest e).matchState := by
  unfold autoSwitchNearest
  dsimp only
  split_ifs with h
  · exact ⟨rfl, rfl, rfl, rfl, rfl, rfl⟩
  · exact MFrame_refl _

theorem autoSwitchPhase_mframe {Vfx : Type} (e : EngineState Vfx) :
    MFrame e.matchState (autoSwitchPhase e).matchState := by
  unfold autoSwitchPhase
  dsimp only
  by_cases h1 : e.matchState.ball.ownerPlayerId = none ∧ e.switchCooldownMs ≤ 0
  · rw [if_pos h1]
    rcases getTeamGoalkeeper e.matchState e.matchState.humanTeamId with _ | g
    · exact autoSwitchNearest_mframe e
    · dsimp only
      by_cases h2 : isDangerousShotTowardGoal e.matchState e.config e.matchState.humanTeamId
      · rw [if_pos h2]
        by_cases h3 : e.matchState.controlledPlayerId ≠ g.id
        · rw [if_pos h3]
          exact ctrl_mframe _ _
        · rw [if_neg h3]
          exact MFrame_refl _
      · rw [if_neg h2]
        exact autoSwitchNearest_mframe e
  · rw [if_neg h1]
    exact MFrame_refl _

theorem manualSwitchPhase_mframe {Vfx : Type} (input : InputSnapshot) (P : Prop)
    [Decidable P] (e : EngineState Vfx) :
    MFrame e.matchState (manualSwitchPhase input P e).matchState := by
  unfold manualSwitchPhase
  dsimp only
  split_ifs with h
  · exact ⟨rfl, rfl, rfl, rfl, rfl, rfl⟩
  · exact MFrame_refl _

theorem cpuChaseBall_mframe (m : MatchState) (p : Player) :
    MFrame m (cpuChaseBall m p) := by
  unfold cpuChaseBall
  exact updatePlayer_mframe m p.id _ (fun _ => rfl)

theorem cpuDribbleAndShoot_mframe (config : EngineConfig) (m : MatchState) (cpuTeam : Team)
    (owner : Player) (cpuAi : CpuAiState) (rand : ℕ → ℝ) :
    MFrame m (cpuDribbleAndShoot config m cpuTeam owner cpuAi rand).1 := by
  unfold cpuDribbleAndShoot
  dsimp only
  split
  · exact releaseAfterUpdate_mframe _ _ _ _ _ _ (fun _ => rfl)
  · split
    · split
      · dsimp only
        exact releaseAfterUpdate_mframe _ _ _ _ _ _ (fun _ => rfl)
      · dsimp only
        exact updatePlayer_mframe m owner.id _ (fun _ => rfl)
    · dsimp only
      exact updatePlayer_mframe m owner.id _ (fun _ => rfl)

theorem cpuChasePhase_mframe (m : MatchState) (cpuTeam : Team) (ai1 : CpuAiState) :
    MFrame m (cpuChasePhase m cpuTeam ai1).1 := by
  unfold cpuChasePhase
  rcases pickCpuChaser m cpuTeam with _ | chaser
  · exact MFrame_refl m
  · exact cpuChaseBall_mframe m chaser

theorem stepCpuAi_mframe (config : EngineConfig) (m : MatchState) (dtMs : ℝ)
    (cpuAi : CpuAiState) (rand : ℕ → ℝ) :
    MFrame m (stepCpuAi config m dtMs cpuAi rand).1 := by
  unfold stepCpuAi
  rcases lookupTeam m m.awayTeamId with _ | cpuTeam
  · exact MFrame_refl m
  · dsimp only
    rcases m.ball.ownerPlayerId.bind (lookupPlayer m) with _ | o
    · exact cpuChasePhase_mframe m cpuTeam _
    · dsimp only
      split_ifs with h
      · exact cpuDribbleAndShoot_mframe config m cpuTeam o _ rand
      · exact cpuChasePhase_mframe m cpuTeam _

theorem integrateControlledPhase_mframe {Vfx : Type} (input : InputSnapshot) (dt : ℝ)
    (c577 : String) (e : EngineState Vfx) :
    MFrame e.matchState (integrateControlledPhase input dt c577 e).matchState := by
  unfold integrateControlledPhase
  dsimp only
  rcases lookupPlayer e.matchState c577 with _ | c
  · exact MFrame_refl _
  · dsimp only
    by_cases h : c.teamId = e.matchState.humanTeamId
    · rw [if_pos h]
      dsimp only
      exact updatePlayer_mframe _ c577 _ (fun _ => rfl)
    · rw [if_neg h]
      exact MFrame_refl _

theorem npcIntegrateTeam_mframe {Vfx : Type} (dt : ℝ) (tid : String) (skipControlled : Bool)
    (teamHasPossession : Bool) (ownerSnapId : Option String) (chaserId : Option String)
    (defenseMult : Bool) (e : EngineState Vfx) :
    MFrame e.matchState
      (npcIntegrateTeam dt tid skipControlled teamHasPossession ownerSnapId chaserId
        defenseMult e).matchState := by
  unfold npcIntegrateTeam
  dsimp only
  refine foldl_mframe _ _ _ ?_
  intro mm pid _
  dsimp only
  by_cases h1 : skipControlled = true ∧ mm.controlledPlayerId = pid
  · rw [if_pos h1]
    exact MFrame_refl mm
  · rw [if_neg h1]
    rcases lookupPlayer mm pid with _ | p
    · exact MFrame_refl mm
    · dsimp only
      exact updatePlayer_mframe mm pid _ (fun _ => rfl)

theorem humanKickSection_mframe {Vfx : Type} (input : InputSnapshot) (dtMs : ℝ)
    (co : Player) (e : EngineState Vfx) :
    MFrame e.matchState (humanKickSection input dtMs co e).matchState := by
  unfold humanKickSection
  dsimp only
  split_ifs <;>
    first
      | exact ⟨rfl, rfl, rfl, rfl, rfl, rfl⟩
      | exact releaseBallWithKick_mframe _ co _ _

theorem gkFollowPhase_mframe {Vfx : Type} (co : Option Player) (e : EngineState Vfx) :
    MFrame e.matchState (gkFollowPhase co e).matchState := by
  unfold gkFollowPhase
  rcases co with _ | c
  · exact MFrame_refl _
  · dsimp only
    split_ifs with h
    · exact ⟨rfl, rfl, rfl, rfl, rfl, rfl⟩
    · exact MFrame_refl _

theorem kickOrClearPhase_mframe {Vfx : Type} (input : InputSnapshot) (dtMs : ℝ)
    (co : Option Player) (e : EngineState Vfx) :
    MFrame e.matchState (kickOrClearPhase input dtMs co e).matchState := by
  unfold kickOrClearPhase
  rcases co with _ | c
  · exact MFrame_refl _
  · dsimp only
    split_ifs with h
    · exact humanKickSection_mframe input dtMs c e
    · exact MFrame_refl _

theorem attachPhase_mframe {Vfx : Type} (co : Option Player) (e : EngineState Vfx) :
    MFrame e.matchState (attachPhase co e).matchState := by
  unfold attachPhase
  rcases e.matchState.ball.ownerPlayerId with _ | oid <;> rcases co with _ | c <;>
    first
      | exact MFrame_refl _
      | exact ballUpdate_mframe _ _

theorem stealResolvePhase_mframe {Vfx : Type} (e : EngineState Vfx) :
    MFrame e.matchState (stealResolvePhase e).matchState := by
  unfold stealResolvePhase
  dsimp only
  split_ifs with h
  · rcases (tryStealOwnedBallByBallContact e.matchState).2 with _ | j
    · dsimp only
      exact tryStealOwnedBallByBallContact_mframe e.matchState
    · dsimp only
      exact tryStealOwnedBallByBallContact_mframe e.matchState
  · exact MFrame_refl _

theorem ownedBallPhase_mframe {Vfx : Type} (input : InputSnapshot) (dtMs : ℝ)
    (e : EngineState Vfx) :
    MFrame e.matchState (ownedBallPhase input dtMs e).matchState := by
  unfold ownedBallPhase
  rcases e.matchState.ball.ownerPlayerId with _ | oid
  · exact MFrame_refl _
  · dsimp only
    rcases lookupPlayer e.matchState oid with _ | ow
    · exact ballUpdate_mframe _ _
    · dsimp only
      exact MFrame_trans
        (MFrame_trans
          (MFrame_trans (stealResolvePhase_mframe e) (gkFollowPhase_mframe _ _))
          (kickOrClearPhase_mframe input dtMs _ _))
        (attachPhase_mframe _ _)

theorem resetControlledFallback_mframe (m4 : MatchState) :
    MFrame m4 (resetControlledFallback m4) := by
  unfold resetControlledFallback
  split
  · exact MFrame_refl _
  · dsimp only
    split
    · exact ctrl_mframe _ _
    · exact MFrame_refl _

theorem resetToKickoff_mframe (config : EngineConfig) (m : MatchState) :
    MFrame m (resetToKickoff config m) := by
  unfold resetToKickoff
  rcases lookupTeam m m.homeTeamId with _ | home <;>
    rcases lookupTeam m m.awayTeamId with _ | away
  · exact MFrame_refl _
  · exact MFrame_refl _
  · exact MFrame_refl _
  · dsimp only
    split
    · exact MFrame_trans (MFrame_trans (MFrame_trans (MFrame_trans
        (ballPoss_mframe m _ _)
        (foldl_mframe _ _ _ (fun mm pid _ => updatePlayer_mframe mm pid
          (fun q => { q with vel := ⟨0, 0⟩, hasBall := false }) (fun _ => rfl))))
        (placeTeamKickoff_mframe config _ m.homeTeamId true))
        (placeTeamKickoff_mframe config _ m.awayTeamId false))
        (resetControlledFallback_mframe _)
    · split_ifs with hc
      · exact MFrame_trans (MFrame_trans (MFrame_trans (MFrame_trans
          (ballPoss_mframe m _ _)
          (foldl_mframe _ _ _ (fun mm pid _ => updatePlayer_mframe mm pid
            (fun q => { q with vel := ⟨0, 0⟩, hasBall := false }) (fun _ => rfl))))
          (placeTeamKickoff_mframe config _ m.homeTeamId true))
          (placeTeamKickoff_mframe config _ m.awayTeamId false))
          (resetControlledFallback_mframe _)
      · exact MFrame_trans (MFrame_trans (MFrame_trans
          (ballPoss_mframe m _ _)
          (foldl_mframe _ _ _ (fun mm pid _ => updatePlayer_mframe mm pid
            (fun q => { q with vel := ⟨0, 0⟩, hasBall := false }) (fun _ => rfl))))
          (placeTeamKickoff_mframe config _ m.homeTeamId true))
          (placeTeamKickoff_mframe config _ m.awayTeamId false)

theorem claimTail_mframe (m2 : MatchState) :
    MFrame m2 (if m2.ball.ownerPlayerId = none then
      let cp := tryClaimBall m2
      let m2s := { cp.1 with possession := cp.2 }
      match cp.2.playerId with
      | some pid => { m2s with ball := { m2s.ball with ownerPlayerId := some pid } }
      | none => m2s
    else m2) := by
  dsimp only
  split_ifs with h1
  · rcases (tryClaimBall m2).2.playerId with _ | pid
    · dsimp only
      exact MFrame_trans (tryClaimBall_mframe m2) (poss_mframe _ _)
    · dsimp only
      refine MFrame_trans (MFrame_trans (tryClaimBall_mframe m2) (poss_mframe _ _))
        (ballOwnerSet_mframe _ (some pid))
  · exact MFrame_refl m2

theorem freeBallPhase_mframe {Vfx : Type} (trigV : EngineConfig → Vfx → String → Vfx)
    (dt : ℝ) (e : EngineState Vfx) :
    MFrame e.matchState (freeBallPhase trigV dt e).1.matchState := by
  unfold freeBallPhase
  dsimp only
  rcases (integrateFreeBall e.matchState e.config e.matchState.ball dt).2.scored
      with _ | _ <;>
    rcases (integrateFreeBall e.matchState e.config e.matchState.ball dt).2.scoringTeamId
      with _ | tid <;>
    dsimp only <;>
    try exact MFrame_trans (MFrame_trans (MFrame_trans
      (ballUpdate_mframe e.matchState _)
      (pushFreeBallByPlayers_mframe _ e.config dt))
      (tryImmediateBallPickup_mframe _)) (claimTail_mframe _)
  exact MFrame_trans (MFrame_trans (MFrame_trans
    (ballUpdate_mframe e.matchState _)
    (resolveScoreSide_mframe _ tid))
    (lastEvent_mframe _ _)) (resetToKickoff_mframe e.config _)

theorem maintainPossessionPhase_mframe {Vfx : Type} (e : EngineState Vfx) :
    MFrame e.matchState (maintainPossessionPhase e).matchState := by
  unfold maintainPossessionPhase
  dsimp only
  rcases e.matchState.ball.ownerPlayerId.bind (lookupPlayer e.matchState) with _ | ow
  · exact MFrame_refl _
  · exact ⟨rfl, rfl, rfl, rfl, rfl, rfl⟩

theorem gainedSwitchPhase_mframe {Vfx : Type} (prev : Option String) (e : EngineState Vfx) :
    MFrame e.matchState (gainedSwitchPhase prev e).matchState := by
  unfold gainedSwitchPhase
  dsimp only
  rcases e.matchState.ball.ownerPlayerId.bind (lookupPlayer e.matchState) with _ | nw
  · exact MFrame_refl _
  · dsimp only
    split_ifs with h
    · exact ⟨rfl, rfl, rfl, rfl, rfl, rfl⟩
    · exact MFrame_refl _


theorem freeBallPhase_event {Vfx : Type} (trigV : EngineConfig → Vfx → String → Vfx)
    (dt : ℝ) (e : EngineState Vfx) :
    (freeBallPhase trigV dt e).2 = none ∨
      ∃ tid sc, (freeBallPhase trigV dt e).2 = some (EngineEvent.goal tid sc "GOAL!") := by
  unfold freeBallPhase
  dsimp only
  rcases (integrateFreeBall e.matchState e.config e.matchState.ball dt).2.scored
      with _ | _ <;>
    rcases (integrateFreeBall e.matchState e.config e.matchState.ball dt).2.scoringTeamId
      with _ | tid <;>
    dsimp only
  · exact Or.inl rfl
  · exact Or.inl rfl
  · exact Or.inl rfl
  · exact Or.inr ⟨tid, _, rfl⟩

theorem stepSimMain_frame_events {Vfx : Type} (trigV : EngineConfig → Vfx → String → Vfx)
    (rand : ℕ → ℝ) (e : EngineState Vfx) (input : InputSnapshot) (dtMs dt : ℝ) :
    MFrame e.matchState (stepSimMain trigV rand e input dtMs dt).1.matchState ∧
      ((stepSimMain trigV rand e input dtMs dt).2 = [] ∨
        ∃ tid sc, (stepSimMain trigV rand e input dtMs dt).2 =
          [EngineEvent.goal tid sc "GOAL!"]) := by
  rcases hr : stepSimMain trigV rand e input dtMs dt with ⟨res1, res2⟩
  unfold stepSimMain at hr
  lift_lets at hr
  extract_lets e2 m0 prev ptid e3 c577 e4 e5 mc e6 e7 osid htid ctid hcid ccid e8 e9 s9 b9
    e10 e11 at hr
  have H7 : MFrame e.matchState e7.matchState :=
    MFrame_trans
      (MFrame_trans
        (MFrame_trans
          (MFrame_trans (possessionFollowPhase_mframe e2) (autoSwitchPhase_mframe e3))
          (manualSwitchPhase_mframe input _ e4))
        (stepCpuAi_mframe e5.config e5.matchState dtMs e5.cpuAi rand))
      (integrateControlledPhase_mframe input dt c577 e6)
  have H10 : MFrame e.matchState e10.matchState :=
    MFrame_trans
      (MFrame_trans
        (MFrame_trans H7 (npcIntegrateTeam_mframe dt htid true _ osid hcid false e7))
        (npcIntegrateTeam_mframe dt ctid false _ osid ccid true e8))
      (ballUpdate_mframe e9.matchState _)
  have H11 : MFrame e.matchState e11.matchState := by
    show MFrame e.matchState
      (if e10.matchState.ball.ownerPlayerId.isSome then ownedBallPhase input dtMs e10
        else e10).matchState
    split
    · exact MFrame_trans H10 (ownedBallPhase_mframe input dtMs e10)
    · exact H10
  split at hr
  · rcases hf : freeBallPhase trigV dt e11 with ⟨e12, ev⟩
    have hfM := freeBallPhase_mframe trigV dt e11
    have hfE := freeBallPhase_event trigV dt e11
    rw [hf] at hfM hfE hr
    rcases ev with _ | ev1
    · dsimp only at hfM hfE hr ⊢
      rw [Prod.mk.injEq] at hr
      obtain ⟨h1, h2⟩ := hr
      subst h1
      subst h2
      exact ⟨MFrame_trans (MFrame_trans H11 hfM) (gainedSwitchPhase_mframe prev e12),
             Or.inl rfl⟩
    · dsimp only at hfM hfE hr ⊢
      rw [Prod.mk.injEq] at hr
      obtain ⟨h1, h2⟩ := hr
      subst h1
      subst h2
      refine ⟨MFrame_trans H11 hfM, Or.inr ?_⟩
      rcases hfE with h | ⟨tid, sc, h⟩
      · exact Option.noConfusion h
      · simp only [Option.some.injEq] at h
        exact ⟨tid, sc, by rw [h]⟩
  · rw [Prod.mk.injEq] at hr
    obtain ⟨h1, h2⟩ := hr
    subst h1
    subst h2
    exact ⟨MFrame_trans (MFrame_trans H11 (maintainPossessionPhase_mframe e11))
      (gainedSwitchPhase_mframe prev _), Or.inl rfl⟩


theorem stepSimMain_of_eq {Vfx : Type} {trigV : EngineConfig → Vfx → String → Vfx}
    {rand : ℕ → ℝ} {E : EngineState Vfx} {input : InputSnapshot} {dtMs dt : ℝ}
    {r1 : EngineState Vfx} {r2 : List EngineEvent}
    (h : stepSimMain trigV rand E input dtMs dt = (r1, r2)) :
    MFrame E.matchState r1.matchState ∧
      (r2 = [] ∨ ∃ tid sc, r2 = [EngineEvent.goal tid sc "GOAL!"]) := by
  have h2 := stepSimMain_frame_events trigV rand E input dtMs dt
  rw [h] at h2
  exact h2

/-- C7: the clock total is preserved and the elapsed clock never exceeds
it; a `FULL_TIME` event is emitted exactly when the phase is not yet
`FULL_TIME`, no kickoff hold or await is pending, and the elapsed clock
plus the tick reaches the total — in which case the phase becomes
`FULL_TIME` and the single event carries the final score; and once the
phase is `FULL_TIME`, `stepSim` returns its input unchanged with no
events (so the event fires exactly once and no further simulation
happens). -/
theorem stepSim_clock_and_full_time {Vfx : Type}
    (stepV : EngineConfig → Vfx → ℝ → Vfx) (trigV : EngineConfig → Vfx → String → Vfx)
    (rand : ℕ → ℝ) (e : EngineState Vfx) (input : InputSnapshot) (dtMs : ℝ)
    (hel : e.matchState.clock.msElapsed ≤ e.matchState.clock.msTotal) :
    (e.matchState.clock.phase = Phase.FULL_TIME →
        stepSim stepV trigV rand e input dtMs = (e, [])) ∧
      (stepSim stepV trigV rand e input dtMs).1.matchState.clock.msTotal =
        e.matchState.clock.msTotal ∧
      (stepSim stepV trigV rand e input dtMs).1.matchState.clock.msElapsed ≤
        e.matchState.clock.msTotal ∧
      ((∃ sc txt, EngineEvent.fullTime sc txt ∈ (stepSim stepV trigV rand e input dtMs).2) ↔
        (e.matchState.clock.phase ≠ Phase.FULL_TIME ∧ ¬e.kickoffHoldMs > 0 ∧
          e.kickoffAwaitInput = false ∧
          e.matchState.clock.msTotal ≤ e.matchState.clock.msElapsed + dtMs)) ∧
      (e.matchState.clock.phase ≠ Phase.FULL_TIME → ¬e.kickoffHoldMs > 0 →
        e.kickoffAwaitInput = false →
        e.matchState.clock.msTotal ≤ e.matchState.clock.msElapsed + dtMs →
        (stepSim stepV trigV rand e input dtMs).1.matchState.clock.phase =
            Phase.FULL_TIME ∧
          (stepSim stepV trigV rand e input dtMs).2 =
            [EngineEvent.fullTime (stepSim stepV trigV rand e input dtMs).1.matchState.score
              "FULL TIME"]) := by
  rcases hr : stepSim stepV trigV rand e input dtMs with ⟨r1, r2⟩
  dsimp only
  unfold stepSim at hr
  dsimp only at hr
  by_cases hph : e.matchState.clock.phase = Phase.FULL_TIME
  · rw [if_pos hph] at hr
    rw [Prod.mk.injEq] at hr
    obtain ⟨h1, h2⟩ := hr
    subst h1
    subst h2
    refine ⟨fun _ => rfl, rfl, hel, ?_, fun h _ _ _ => absurd hph h⟩
    constructor
    · rintro ⟨sc, txt, hmem⟩
      exact absurd hmem (List.not_mem_nil _)
    · rintro ⟨h1, _⟩
      exact absurd hph h1
  · rw [if_neg hph] at hr
    by_cases hhold : e.kickoffHoldMs > 0
    · rw [if_pos hhold] at hr
      rw [Prod.mk.injEq] at hr
      obtain ⟨h1, h2⟩ := hr
      subst h2
      have hc : r1.matchState.clock = e.matchState.clock := by
        rw [← h1]
        split <;> rfl
      refine ⟨fun h => absurd h hph, by rw [hc], by rw [hc]; exact hel, ?_,
        fun _ h _ _ => absurd hhold h⟩
      constructor
      · rintro ⟨sc, txt, hmem⟩
        exact absurd hmem (List.not_mem_nil _)
      · rintro ⟨_, h2', _⟩
        exact absurd hhold h2'
    · rw [if_neg hhold] at hr
      by_cases haw : e.kickoffAwaitInput = true
      · rw [if_pos haw] at hr
        rw [Prod.mk.injEq] at hr
        obtain ⟨h1, h2⟩ := hr
        subst h2
        have hc : r1.matchState.clock = e.matchState.clock := by
          rw [← h1]
          split <;> rfl
        refine ⟨fun h => absurd h hph, by rw [hc], by rw [hc]; exact hel, ?_,
          fun _ _ h _ => Bool.noConfusion (haw.symm.trans h)⟩
        constructor
        · rintro ⟨sc, txt, hmem⟩
          exact absurd hmem (List.not_mem_nil _)
        · rintro ⟨_, _, h3, _⟩
          exact Bool.noConfusion (haw.symm.trans h3)
      · rw [if_neg haw] at hr
        have haw' : e.kickoffAwaitInput = false := by
          revert haw
          cases e.kickoffAwaitInput <;> simp
        by_cases hreach : e.matchState.clock.msTotal ≤ e.matchState.clock.msElapsed + dtMs
        · have hge : min e.matchState.clock.msTotal (e.matchState.clock.msElapsed + dtMs) ≥
              e.matchState.clock.msTotal := le_min le_rfl hreach
          rw [if_pos hge] at hr
          rw [Prod.mk.injEq] at hr
          obtain ⟨h1, h2⟩ := hr
          subst h1
          subst h2
          refine ⟨fun h => absurd h hph, rfl, min_le_left _ _, ?_,
            fun _ _ _ _ => ⟨rfl, rfl⟩⟩
          constructor
          · intro _
            exact ⟨hph, hhold, haw', hreach⟩
          · intro _
            exact ⟨_, _, List.mem_singleton_self _⟩
        · have hlt : ¬min e.matchState.clock.msTotal (e.matchState.clock.msElapsed + dtMs) ≥
              e.matchState.clock.msTotal := by
            intro h
            exact hreach (le_trans h (min_le_right _ _))
          rw [if_neg hlt] at hr
          have hmain := stepSimMain_of_eq hr
          have hclock : r1.matchState.clock = { e.matchState.clock with
              msElapsed := min e.matchState.clock.msTotal
                (e.matchState.clock.msElapsed + dtMs) } := by
            rw [hmain.1.1]
          refine ⟨fun h => absurd h hph, by rw [hclock], ?_, ?_,
            fun _ _ _ h => absurd h hreach⟩
          · rw [hclock]
            exact min_le_left _ _
          · constructor
            · rintro ⟨sc, txt, hmem⟩
              rcases hmain.2 with h | ⟨tid, scg, h⟩
              · rw [h] at hmem
                exact absurd hmem (List.not_mem_nil _)
              · rw [h] at hmem
                simp at hmem
            · rintro ⟨_, _, _, h4⟩
              exact absurd h4 hreach

/-- Closed instance of the C7 theorem on a concrete quiet engine. -/
theorem stepSim_clock_and_full_time_witness :
    (c7engine.matchState.clock.phase = Phase.FULL_TIME →
        stepSim idStepV idTrigV zeroRand c7engine noInput 16 = (c7engine, [])) ∧
      (stepSim idStepV idTrigV zeroRand c7engine noInput 16).1.matchState.clock.msTotal =
        c7engine.matchState.clock.msTotal ∧
      (stepSim idStepV idTrigV zeroRand c7engine noInput 16).1.matchState.clock.msElapsed ≤
        c7engine.matchState.clock.msTotal ∧
      ((∃ sc txt, EngineEvent.fullTime sc txt ∈
          (stepSim idStepV idTrigV zeroRand c7engine noInput 16).2) ↔
        (c7engine.matchState.clock.phase ≠ Phase.FULL_TIME ∧ ¬c7engine.kickoffHoldMs > 0 ∧
          c7engine.kickoffAwaitInput = false ∧
          c7engine.matchState.clock.msTotal ≤ c7engine.matchState.clock.msElapsed + 16)) ∧
      (c7engine.matchState.clock.phase ≠ Phase.FULL_TIME → ¬c7engine.kickoffHoldMs > 0 →
        c7engine.kickoffAwaitInput = false →
        c7engine.matchState.clock.msTotal ≤ c7engine.matchState.clock.msElapsed + 16 →
        (stepSim idStepV idTrigV zeroRand c7engine noInput 16).1.matchState.clock.phase =
            Phase.FULL_TIME ∧
          (stepSim idStepV idTrigV zeroRand c7engine noInput 16).2 =
            [EngineEvent.fullTime
              (stepSim idStepV idTrigV zeroRand c7engine noInput 16).1.matchState.score
              "FULL TIME"]) :=
  stepSim_clock_and_full_time idStepV idTrigV zeroRand c7engine noInput 16
    (by norm_num [c7engine, mkEngine, emptyMatch, mkMatch])


theorem OwnFrame_refl (m : MatchState) : OwnFrame m m := ⟨rfl, rfl⟩

theorem OwnFrame_trans {a b c : MatchState} (h1 : OwnFrame a b) (h2 : OwnFrame b c) :
    OwnFrame a c := ⟨h2.1.trans h1.1, h2.2.trans h1.2⟩

theorem ownFrame_ownerInv {m m' : MatchState} (h : OwnFrame m m') (hi : OwnerInv m) :
    OwnerInv m' := by
  obtain ⟨hb, hp⟩ := h
  constructor
  · intro p' hp'
    have hmem : (p'.id, p'.hasBall) ∈ m'.playersById.map (fun p => (p.id, p.hasBall)) :=
      List.mem_map.mpr ⟨p', hp', rfl⟩
    rw [hp] at hmem
    obtain ⟨p, hpm, hpe⟩ := List.mem_map.mp hmem
    rw [Prod.mk.injEq] at hpe
    rw [hb, ← hpe.1, ← hpe.2]
    exact hi.1 p hpm
  · intro k hk
    rw [hb] at hk
    obtain ⟨p, hpm, hpk⟩ := hi.2 k hk
    have hmem : (p.id, p.hasBall) ∈ m.playersById.map (fun p => (p.id, p.hasBall)) :=
      List.mem_map.mpr ⟨p, hpm, rfl⟩
    rw [← hp] at hmem
    obtain ⟨p', hpm', hpe⟩ := List.mem_map.mp hmem
    rw [Prod.mk.injEq] at hpe
    exact ⟨p', hpm', hpe.1.trans hpk⟩

theorem updatePlayer_ownframe (m : MatchState) (pid : String) (f : Player → Player)
    (hf : ∀ p, (f p).id = p.id ∧ (f p).hasBall = p.hasBall) :
    OwnFrame m (updatePlayer m pid f) := by
  refine ⟨rfl, ?_⟩
  unfold updatePlayer
  dsimp only
  rw [List.map_map]
  refine List.map_congr_left ?_
  intro p _
  by_cases h : p.id = pid
  · simp [h, (hf p).1, (hf p).2]
  · simp [h]

theorem foldl_ownframe {α : Type _} (step : MatchState → α → MatchState) (l : List α)
    (m0 : MatchState) (h : ∀ m a, a ∈ l → OwnFrame m (step m a)) :
    OwnFrame m0 (l.foldl step m0) :=
  foldl_preserve_mem step (OwnFrame m0) l m0 (OwnFrame_refl m0)
    (fun b a ha hb => OwnFrame_trans hb (h b a ha))

theorem ballKeepOwner_ownframe (m : MatchState) (b : Ball)
    (hb : b.ownerPlayerId = m.ball.ownerPlayerId) : OwnFrame m { m with ball := b } :=
  ⟨hb, rfl⟩

theorem pushFreeBallOne_owner (dt : ℝ) (p : Player) (b : Ball) :
    (pushFreeBallOne dt p b).ownerPlayerId = b.ownerPlayerId := by
  unfold pushFreeBallOne
  dsimp only
  split_ifs <;> rfl

theorem bounceBallOffPitch_owner (config : EngineConfig) (b : Ball) :
    (bounceBallOffPitch config b).ownerPlayerId = b.ownerPlayerId := by
  unfold bounceBallOffPitch
  dsimp only
  split_ifs <;> rfl

theorem integrateFreeBall_owner (m : MatchState) (config : EngineConfig) (ball : Ball)
    (dt : ℝ) : (integrateFreeBall m config ball dt).1.ownerPlayerId = ball.ownerPlayerId := by
  unfold integrateFreeBall
  dsimp only
  split_ifs <;> first | rfl | exact bounceBallOffPitch_owner config _

theorem pushFreeBallByPlayers_ownframe (m : MatchState) (config : EngineConfig) (dt : ℝ) :
    OwnFrame m (pushFreeBallByPlayers m config dt) := by
  unfold pushFreeBallByPlayers
  split_ifs with h1
  · exact OwnFrame_refl m
  · refine ballKeepOwner_ownframe m _ ?_
    rw [bounceBallOffPitch_owner]
    exact foldl_preserve_mem (fun b p => pushFreeBallOne dt p b)
      (fun b => b.ownerPlayerId = m.ball.ownerPlayerId) m.playersById m.ball rfl
      (fun b a _ hb => (pushFreeBallOne_owner dt a b).trans hb)

theorem ownerAssign_ownerInv (m : MatchState) (b : Ball) (pid : String)
    (hb : b.ownerPlayerId = some pid) (hex : ∃ q ∈ m.playersById, q.id = pid) :
    OwnerInv (mapAllPlayers { m with ball := b }
      (fun p => { p with hasBall := decide (p.id = pid) })) := by
  obtain ⟨q, hq, hqid⟩ := hex
  unfold mapAllPlayers OwnerInv
  dsimp only
  constructor
  · intro p' hp'
    obtain ⟨x, hx, rfl⟩ := List.mem_map.mp hp'
    dsimp only
    rw [hb]
    constructor
    · intro h
      simp only [decide_eq_true_eq] at h
      rw [h]
    · intro h
      simp only [Option.some.injEq] at h
      exact decide_eq_true h.symm
  · intro k hk
    rw [hb] at hk
    simp only [Option.some.injEq] at hk
    refine ⟨{ q with hasBall := decide (q.id = pid) }, List.mem_map.mpr ⟨q, hq, rfl⟩, ?_⟩
    dsimp only
    exact hqid.trans hk

theorem setBallOwner_ownerInv (m : MatchState) (p : Player)
    (hex : ∃ q ∈ m.playersById, q.id = p.id) : OwnerInv (setBallOwner m p) := by
  unfold setBallOwner
  dsimp only
  exact ownFrame_ownerInv ⟨rfl, rfl⟩ (ownerAssign_ownerInv m _ p.id rfl hex)

theorem tryClaimBall_ownerInv (m : MatchState) (hi : OwnerInv m) :
    OwnerInv (tryClaimBall m).1 := by
  unfold tryClaimBall
  dsimp only
  split_ifs with h1 h2
  · exact hi
  · exact hi
  · rcases hsc : claimScan m.ball m.playersById with _ | ⟨bp, bd⟩
    · exact hi
    · dsimp only
      split_ifs with h3
      · have hbp := (claimScan_spec m.ball m.playersById bp bd hsc).2.1
        exact ownerAssign_ownerInv m _ bp.id rfl ⟨bp, hbp, rfl⟩
      · exact hi

theorem tryImmediateBallPickup_ownerInv (m : MatchState) (hi : OwnerInv m) :
    OwnerInv (tryImmediateBallPickup m).1 := by
  unfold tryImmediateBallPickup
  split_ifs with h1
  · exact hi
  · rcases hps : pickupScan m.ball m.playersById with _ | ⟨bp, bd⟩
    · exact hi
    · dsimp only
      have hbp := (pickupScan_spec m.ball m.playersById bp bd hps).2.1
      exact setBallOwner_ownerInv m bp ⟨bp, hbp, rfl⟩

theorem tryStealOwnedBallByBallContact_ownerInv (m : MatchState) (hi : OwnerInv m) :
    OwnerInv (tryStealOwnedBallByBallContact m).1 := by
  unfold tryStealOwnedBallByBallContact
  rcases m.ball.ownerPlayerId with _ | oid
  · exact hi
  · dsimp only
    rcases lookupPlayer m oid with _ | owner
    · exact hi
    · dsimp only
      rcases hss : stealScan m.ball owner.id m.playersById with _ | ⟨bp, bd⟩
      · exact hi
      · dsimp only
        have hbp := (stealScan_spec m.ball owner.id m.playersById bp bd hss).2.2.2.1
        exact setBallOwner_ownerInv m bp ⟨bp, hbp, rfl⟩

theorem releaseBallWithKick_ownerInv (m : MatchState) (kicker : Player) (dir : Vec2)
    (speed : ℝ) (hown : m.ball.ownerPlayerId = some kicker.id) (hi : OwnerInv m) :
    OwnerInv (releaseBallWithKick m kicker dir speed) := by
  unfold releaseBallWithKick updatePlayer
  dsimp only
  constructor
  · intro p' hp'
    obtain ⟨x, hx, rfl⟩ := List.mem_map.mp hp'
    constructor
    · intro h
      exfalso
      by_cases hxk : x.id = kicker.id
      · rw [if_pos hxk] at h
        exact absurd h (by simp)
      · rw [if_neg hxk] at h
        have h2 := (hi.1 x hx).mp h
        rw [hown] at h2
        simp only [Option.some.injEq] at h2
        exact hxk h2.symm
    · intro h
      exact Option.noConfusion h
  · intro k hk
    exact Option.noConfusion hk


theorem lookup_congr (m m' : MatchState) (h : m'.playersById = m.playersById)
    (pid : String) : lookupPlayer m' pid = lookupPlayer m pid := by
  unfold lookupPlayer
  rw [h]

theorem possessionFollowPhase_ownframe {Vfx : Type} (e : EngineState Vfx) :
    OwnFrame e.matchState (possessionFollowPhase e).matchState := by
  unfold possessionFollowPhase
  dsimp only
  rcases e.matchState.ball.ownerPlayerId.bind (lookupPlayer e.matchState) with _ | op
  · exact OwnFrame_refl _
  · dsimp only
    split_ifs with h
    · exact ⟨rfl, rfl⟩
    · exact OwnFrame_refl _

theorem autoSwitchNearest_ownframe {Vfx : Type} (e : EngineState Vfx) :
    OwnFrame e.matchState (autoSwitchNearest e).matchState := by
  unfold autoSwitchNearest
  dsimp only
  split_ifs with h
  · exact ⟨rfl, rfl⟩
  · exact OwnFrame_refl _

theorem autoSwitchPhase_ownframe {Vfx : Type} (e : EngineState Vfx) :
    OwnFrame e.matchState (autoSwitchPhase e).matchState := by
  unfold autoSwitchPhase
  dsimp only
  by_cases h1 : e.matchState.ball.ownerPlayerId = none ∧ e.switchCooldownMs ≤ 0
  · rw [if_pos h1]
    rcases getTeamGoalkeeper e.matchState e.matchState.humanTeamId with _ | g
    · exact autoSwitchNearest_ownframe e
    · dsimp only
      by_cases h2 : isDangerousShotTowardGoal e.matchState e.config e.matchState.humanTeamId
      · rw [if_pos h2]
        by_cases h3 : e.matchState.controlledPlayerId ≠ g.id
        · rw [if_pos h3]
          exact ⟨rfl, rfl⟩
        · rw [if_neg h3]
          exact OwnFrame_refl _
      · rw [if_neg h2]
        exact autoSwitchNearest_ownframe e
  · rw [if_neg h1]
    exact OwnFrame_refl _

theorem manualSwitchPhase_ownframe {Vfx : Type} (input : InputSnapshot) (P : Prop)
    [Decidable P] (e : EngineState Vfx) :
    OwnFrame e.matchState (manualSwitchPhase input P e).matchState := by
  unfold manualSwitchPhase
  dsimp only
  split_ifs with h
  · exact ⟨rfl, rfl⟩
  · exact OwnFrame_refl _

theorem cpuChaseBall_ownframe (m : MatchState) (p : Player) :
    OwnFrame m (cpuChaseBall m p) := by
  unfold cpuChaseBall
  exact updatePlayer_ownframe m p.id _ (fun _ => ⟨rfl, rfl⟩)

theorem cpuChasePhase_ownframe (m : MatchState) (cpuTeam : Team) (ai1 : CpuAiState) :
    OwnFrame m (cpuChasePhase m cpuTeam ai1).1 := by
  unfold cpuChasePhase
  rcases pickCpuChaser m cpuTeam with _ | chaser
  · exact OwnFrame_refl m
  · exact cpuChaseBall_ownframe m chaser

theorem integrateControlledPhase_ownframe {Vfx : Type} (input : InputSnapshot) (dt : ℝ)
    (c577 : String) (e : EngineState Vfx) :
    OwnFrame e.matchState (integrateControlledPhase input dt c577 e).matchState := by
  unfold integrateControlledPhase
  dsimp only
  rcases lookupPlayer e.matchState c577 with _ | c
  · exact OwnFrame_refl _
  · dsimp only
    by_cases h : c.teamId = e.matchState.humanTeamId
    · rw [if_pos h]
      dsimp only
      exact updatePlayer_ownframe _ c577 _ (fun _ => ⟨rfl, rfl⟩)
    · rw [if_neg h]
      exact OwnFrame_refl _

theorem npcIntegrateTeam_ownframe {Vfx : Type} (dt : ℝ) (tid : String)
    (skipControlled : Bool) (teamHasPossession : Bool) (ownerSnapId : Option String)
    (chaserId : Option String) (defenseMult : Bool) (e : EngineState Vfx) :
    OwnFrame e.matchState
      (npcIntegrateTeam dt tid skipControlled teamHasPossession ownerSnapId chaserId
        defenseMult e).matchState := by
  unfold npcIntegrateTeam
  dsimp only
  refine foldl_ownframe _ _ _ ?_
  intro mm pid _
  dsimp only
  by_cases h1 : skipControlled = true ∧ mm.controlledPlayerId = pid
  · rw [if_pos h1]
    exact OwnFrame_refl mm
  · rw [if_neg h1]
    rcases lookupPlayer mm pid with _ | p
    · exact OwnFrame_refl mm
    · dsimp only
      exact updatePlayer_ownframe mm pid _ (fun _ => ⟨rfl, rfl⟩)

theorem gkFollowPhase_ownframe {Vfx : Type} (co : Option Player) (e : EngineState Vfx) :
    OwnFrame e.matchState (gkFollowPhase co e).matchState := by
  unfold gkFollowPhase
  rcases co with _ | c
  · exact OwnFrame_refl _
  · dsimp only
    split_ifs with h
    · exact ⟨rfl, rfl⟩
    · exact OwnFrame_refl _

theorem gkFollowPhase_players {Vfx : Type} (co : Option Player) (e : EngineState Vfx) :
    (gkFollowPhase co e).matchState.playersById = e.matchState.playersById := by
  unfold gkFollowPhase
  rcases co with _ | c
  · rfl
  · dsimp only
    split_ifs with h
    · rfl
    · rfl

theorem attachPhase_ownframe {Vfx : Type} (co : Option Player) (e : EngineState Vfx) :
    OwnFrame e.matchState (attachPhase co e).matchState := by
  unfold attachPhase
  rcases e.matchState.ball.ownerPlayerId with _ | oid <;> rcases co with _ | c <;>
    first
      | exact OwnFrame_refl _
      | exact ballKeepOwner_ownframe _ _ rfl

theorem maintainPossessionPhase_ownframe {Vfx : Type} (e : EngineState Vfx) :
    OwnFrame e.matchState (maintainPossessionPhase e).matchState := by
  unfold maintainPossessionPhase
  dsimp only
  rcases e.matchState.ball.ownerPlayerId.bind (lookupPlayer e.matchState) with _ | ow
  · exact OwnFrame_refl _
  · exact ⟨rfl, rfl⟩

theorem gainedSwitchPhase_ownframe {Vfx : Type} (prev : Option String)
    (e : EngineState Vfx) :
    OwnFrame e.matchState (gainedSwitchPhase prev e).matchState := by
  unfold gainedSwitchPhase
  dsimp only
  rcases e.matchState.ball.ownerPlayerId.bind (lookupPlayer e.matchState) with _ | nw
  · exact OwnFrame_refl _
  · dsimp only
    split_ifs with h
    · exact ⟨rfl, rfl⟩
    · exact OwnFrame_refl _


theorem stealResolvePhase_ownerInv {Vfx : Type} (e : EngineState Vfx)
    (hi : OwnerInv e.matchState) : OwnerInv (stealResolvePhase e).matchState := by
  unfold stealResolvePhase
  dsimp only
  split_ifs with h
  · rcases (tryStealOwnedBallByBallContact e.matchState).2 with _ | j
    · dsimp only
      exact tryStealOwnedBallByBallContact_ownerInv e.matchState hi
    · dsimp only
      exact tryStealOwnedBallByBallContact_ownerInv e.matchState hi
  · exact hi

theorem humanKickSection_ownerInv {Vfx : Type} (input : InputSnapshot) (dtMs : ℝ)
    (co : Player) (e : EngineState Vfx)
    (hown : e.matchState.ball.ownerPlayerId = some co.id)
    (hi : OwnerInv e.matchState) :
    OwnerInv (humanKickSection input dtMs co e).matchState := by
  unfold humanKickSection
  dsimp only
  split_ifs <;>
    first
      | exact hi
      | exact releaseBallWithKick_ownerInv _ co _ _ hown hi

theorem kickOrClearPhase_ownerInv {Vfx : Type} (input : InputSnapshot) (dtMs : ℝ)
    (co : Option Player) (e : EngineState Vfx)
    (hco : co = e.matchState.ball.ownerPlayerId.bind (lookupPlayer e.matchState))
    (hi : OwnerInv e.matchState) :
    OwnerInv (kickOrClearPhase input dtMs co e).matchState := by
  unfold kickOrClearPhase
  rcases co with _ | c
  · exact hi
  · dsimp only
    split_ifs with h
    · have hbind := hco.symm
      rw [Option.bind_eq_some] at hbind
      obtain ⟨oid, ho, hl⟩ := hbind
      have hcid := (lookupPlayer_spec e.matchState oid c hl).1
      refine humanKickSection_ownerInv input dtMs c e ?_ hi
      rw [ho, hcid]
    · exact hi

theorem ownedBallPhase_ownerInv {Vfx : Type} (input : InputSnapshot) (dtMs : ℝ)
    (e : EngineState Vfx) (hi : OwnerInv e.matchState) :
    OwnerInv (ownedBallPhase input dtMs e).matchState := by
  unfold ownedBallPhase
  rcases ho : e.matchState.ball.ownerPlayerId with _ | oid
  · exact hi
  · dsimp only
    rcases hl : lookupPlayer e.matchState oid with _ | ow
    · obtain ⟨p, hp, hpk⟩ := hi.2 oid ho
      unfold lookupPlayer at hl
      rw [List.find?_eq_none] at hl
      have h2 := hl p hp
      simp only [decide_eq_true_eq] at h2
      exact absurd hpk h2
    · dsimp only
      have h1 : OwnerInv (stealResolvePhase e).matchState := stealResolvePhase_ownerInv e hi
      have h2 : OwnerInv (gkFollowPhase
          ((stealResolvePhase e).matchState.ball.ownerPlayerId.bind
            (lookupPlayer (stealResolvePhase e).matchState))
          (stealResolvePhase e)).matchState :=
        ownFrame_ownerInv (gkFollowPhase_ownframe _ _) h1
      have hfun : lookupPlayer (gkFollowPhase
          ((stealResolvePhase e).matchState.ball.ownerPlayerId.bind
            (lookupPlayer (stealResolvePhase e).matchState))
          (stealResolvePhase e)).matchState =
          lookupPlayer (stealResolvePhase e).matchState :=
        funext (fun pid => lookup_congr _ _ (gkFollowPhase_players _ _) pid)
      have hco : ((stealResolvePhase e).matchState.ball.ownerPlayerId.bind
            (lookupPlayer (stealResolvePhase e).matchState)) =
          (gkFollowPhase
            ((stealResolvePhase e).matchState.ball.ownerPlayerId.bind
              (lookupPlayer (stealResolvePhase e).matchState))
            (stealResolvePhase e)).matchState.ball.ownerPlayerId.bind
            (lookupPlayer (gkFollowPhase
              ((stealResolvePhase e).matchState.ball.ownerPlayerId.bind
                (lookupPlayer (stealResolvePhase e).matchState))
              (stealResolvePhase e)).matchState) := by
        rw [gkFollowPhase_ball, hfun]
      have h3 := kickOrClearPhase_ownerInv input dtMs _ _ hco h2
      exact ownFrame_ownerInv (attachPhase_ownframe _ _) h3

theorem cpuDribbleAndShoot_ownerInv (config : EngineConfig) (m : MatchState)
    (cpuTeam : Team) (owner : Player) (cpuAi : CpuAiState) (rand : ℕ → ℝ)
    (hown : m.ball.ownerPlayerId = some owner.id) (hi : OwnerInv m) :
    OwnerInv (cpuDribbleAndShoot config m cpuTeam owner cpuAi rand).1 := by
  unfold cpuDribbleAndShoot
  dsimp only
  split
  · exact releaseBallWithKick_ownerInv _ owner _ _ hown
      (ownFrame_ownerInv (updatePlayer_ownframe m owner.id _ (fun _ => ⟨rfl, rfl⟩)) hi)
  · split
    · split
      · dsimp only
        exact releaseBallWithKick_ownerInv _ owner _ _ hown
          (ownFrame_ownerInv (updatePlayer_ownframe m owner.id _ (fun _ => ⟨rfl, rfl⟩)) hi)
      · dsimp only
        exact ownFrame_ownerInv (updatePlayer_ownframe m owner.id _ (fun _ => ⟨rfl, rfl⟩)) hi
    · dsimp only
      exact ownFrame_ownerInv (updatePlayer_ownframe m owner.id _ (fun _ => ⟨rfl, rfl⟩)) hi

theorem stepCpuAi_ownerInv (config : EngineConfig) (m : MatchState) (dtMs : ℝ)
    (cpuAi : CpuAiState) (rand : ℕ → ℝ) (hi : OwnerInv m) :
    OwnerInv (stepCpuAi config m dtMs cpuAi rand).1 := by
  unfold stepCpuAi
  rcases lookupTeam m m.awayTeamId with _ | cpuTeam
  · exact hi
  · dsimp only
    rcases hb : m.ball.ownerPlayerId.bind (lookupPlayer m) with _ | o
    · exact ownFrame_ownerInv (cpuChasePhase_ownframe m cpuTeam _) hi
    · dsimp only
      split_ifs with h
      · rw [Option.bind_eq_some] at hb
        obtain ⟨oid, ho, hl⟩ := hb
        have hcid := (lookupPlayer_spec m oid o hl).1
        refine cpuDribbleAndShoot_ownerInv config m cpuTeam o _ rand ?_ hi
        rw [ho, hcid]
      · exact ownFrame_ownerInv (cpuChasePhase_ownframe m cpuTeam _) hi

theorem allFree_ownerInv (m : MatchState) (hfree : m.ball.ownerPlayerId = none)
    (hall : ∀ p ∈ m.playersById, p.hasBall = false) : OwnerInv m := by
  constructor
  · intro p hp
    rw [hfree, hall p hp]
    simp
  · intro k hk
    rw [hfree] at hk
    exact Option.noConfusion hk

theorem ownerInv_allFree (m : MatchState) (hi : OwnerInv m)
    (hfree : m.ball.ownerPlayerId = none) : ∀ p ∈ m.playersById, p.hasBall = false := by
  intro p hp
  cases hball : p.hasBall
  · rfl
  · have h2 := (hi.1 p hp).mp hball
    rw [hfree] at h2
    exact Option.noConfusion h2

theorem updatePlayer_allFree (m : MatchState) (pid : String) (f : Player → Player)
    (hf : ∀ p, p.hasBall = false → (f p).hasBall = false)
    (hall : ∀ p ∈ m.playersById, p.hasBall = false) :
    ∀ p ∈ (updatePlayer m pid f).playersById, p.hasBall = false := by
  intro p' hp'
  unfold updatePlayer at hp'
  dsimp only at hp'
  obtain ⟨x, hx, rfl⟩ := List.mem_map.mp hp'
  by_cases h : x.id = pid
  · rw [if_pos h]
    exact hf x (hall x hx)
  · rw [if_neg h]
    exact hall x hx

theorem setPosOpt_ball (mm : MatchState) (po : Option Player) (x y : ℝ) :
    (setPosOpt mm po x y).ball = mm.ball := by
  unfold setPosOpt
  rcases po with _ | p <;> rfl

theorem setPosOpt_allFree (mm : MatchState) (po : Option Player) (x y : ℝ)
    (hall : ∀ p ∈ mm.playersById, p.hasBall = false) :
    ∀ p ∈ (setPosOpt mm po x y).playersById, p.hasBall = false := by
  unfold setPosOpt
  rcases po with _ | p
  · exact hall
  · exact updatePlayer_allFree mm p.id _ (fun _ h => h) hall

theorem foldl_ball_preserve {α : Type _} (step : MatchState → α → MatchState)
    (l : List α) (m0 : MatchState) (h : ∀ mm a, a ∈ l → (step mm a).ball = mm.ball) :
    (l.foldl step m0).ball = m0.ball :=
  foldl_preserve_mem step (fun mm => mm.ball = m0.ball) l m0 rfl
    (fun b a ha hb => (h b a ha).trans hb)

theorem placeTeamKickoff_ball (config : EngineConfig) (m : MatchState) (tid : String)
    (leftSide : Bool) : (placeTeamKickoff config m tid leftSide).ball = m.ball := by
  unfold placeTeamKickoff
  dsimp only
  refine Eq.trans (foldl_ball_preserve _ _ _ ?_) ?_
  · intro mm a _
    rfl
  · rw [setPosOpt_ball, setPosOpt_ball, setPosOpt_ball, setPosOpt_ball, setPosOpt_ball]

theorem placeTeamKickoff_allFree (config : EngineConfig) (m : MatchState) (tid : String)
    (leftSide : Bool) (hall : ∀ p ∈ m.playersById, p.hasBall = false) :
    ∀ p ∈ (placeTeamKickoff config m tid leftSide).playersById, p.hasBall = false := by
  unfold placeTeamKickoff
  dsimp only
  refine foldl_preserve_mem _ (fun mm : MatchState => ∀ p ∈ mm.playersById, p.hasBall = false)
    (getTeamPlayers m tid) _ ?_ ?_
  · exact setPosOpt_allFree _ _ _ _ (setPosOpt_allFree _ _ _ _ (setPosOpt_allFree _ _ _ _
      (setPosOpt_allFree _ _ _ _ (setPosOpt_allFree _ _ _ _ hall))))
  · intro b a _ hb
    exact updatePlayer_allFree b a.id _ (fun _ h => h) hb

theorem resetControlledFallback_ball (m4 : MatchState) :
    (resetControlledFallback m4).ball = m4.ball := by
  unfold resetControlledFallback
  split
  · rfl
  · dsimp only
    split
    · rfl
    · rfl

theorem resetControlledFallback_players (m4 : MatchState) :
    (resetControlledFallback m4).playersById = m4.playersById := by
  unfold resetControlledFallback
  split
  · rfl
  · dsimp only
    split
    · rfl
    · rfl

theorem updFoldl_ball (l : List String) (m0 : MatchState) :
    (l.foldl (fun mm pid => updatePlayer mm pid
      (fun q => { q with vel := ⟨0, 0⟩, hasBall := false })) m0).ball = m0.ball :=
  foldl_ball_preserve _ l m0 (fun mm a _ => rfl)

theorem updFoldl_allFree (l : List String) (m0 : MatchState)
    (hall : ∀ p ∈ m0.playersById, p.hasBall = false) :
    ∀ p ∈ (l.foldl (fun mm pid => updatePlayer mm pid
      (fun q => { q with vel := ⟨0, 0⟩, hasBall := false })) m0).playersById,
      p.hasBall = false :=
  foldl_preserve_mem _ (fun mm => ∀ p ∈ mm.playersById, p.hasBall = false) l m0 hall
    (fun b a _ hb => updatePlayer_allFree b a _ (fun _ _ => rfl) hb)

theorem resetToKickoff_ownerInv (config : EngineConfig) (m : MatchState)
    (hfree : m.ball.ownerPlayerId = none) (hi : OwnerInv m) :
    OwnerInv (resetToKickoff config m) := by
  unfold resetToKickoff
  rcases lookupTeam m m.homeTeamId with _ | home <;>
    rcases lookupTeam m m.awayTeamId with _ | away
  · exact hi
  · exact hi
  · exact hi
  · dsimp only
    split
    · refine allFree_ownerInv _ ?_ ?_
      · rw [resetControlledFallback_ball, placeTeamKickoff_ball, placeTeamKickoff_ball,
          updFoldl_ball]
      · rw [resetControlledFallback_players]
        refine placeTeamKickoff_allFree _ _ _ _ (placeTeamKickoff_allFree _ _ _ _
          (updFoldl_allFree _ _ ?_))
        exact ownerInv_allFree m hi hfree
    · split_ifs with hc
      · refine allFree_ownerInv _ ?_ ?_
        · rw [resetControlledFallback_ball, placeTeamKickoff_ball, placeTeamKickoff_ball,
            updFoldl_ball]
        · rw [resetControlledFallback_players]
          refine placeTeamKickoff_allFree _ _ _ _ (placeTeamKickoff_allFree _ _ _ _
            (updFoldl_allFree _ _ ?_))
          exact ownerInv_allFree m hi hfree
      · refine allFree_ownerInv _ ?_ ?_
        · rw [placeTeamKickoff_ball, placeTeamKickoff_ball, updFoldl_ball]
        · refine placeTeamKickoff_allFree _ _ _ _ (placeTeamKickoff_allFree _ _ _ _
            (updFoldl_allFree _ _ ?_))
          exact ownerInv_allFree m hi hfree


theorem resolveScoreSide_ball (m : MatchState) (tid : String) :
    (resolveScoreSide m tid).ball = m.ball := by
  unfold resolveScoreSide
  split_ifs <;> rfl

theorem resolveScoreSide_ownframe (m : MatchState) (tid : String) :
    OwnFrame m (resolveScoreSide m tid) := by
  unfold resolveScoreSide
  split_ifs <;> exact ⟨rfl, rfl⟩

theorem tryClaimBall_playerId (m : MatchState) (pid : String)
    (hfree : m.ball.ownerPlayerId = none)
    (h : (tryClaimBall m).2.playerId = some pid) :
    (tryClaimBall m).1.ball.ownerPlayerId = some pid := by
  unfold tryClaimBall at h ⊢
  dsimp only at h ⊢
  have hns : ¬m.ball.ownerPlayerId.isSome = true := by
    rw [hfree]
    simp
  rw [if_neg hns] at h ⊢
  by_cases h2 : V.len m.ball.vel > BALL_CLAIM_SPEED_MAX
  · rw [if_pos h2] at h
    exact absurd h (by simp)
  · rw [if_neg h2] at h ⊢
    rcases hsc : claimScan m.ball m.playersById with _ | ⟨bp, bd⟩
    · rw [hsc] at h
      exact absurd h (by simp)
    · rw [hsc] at h
      dsimp only at h ⊢
      by_cases h3 : bd ≤ BALL_CLAIM_DIST * BALL_CLAIM_DIST
      · rw [if_pos h3] at h ⊢
        exact h
      · rw [if_neg h3] at h
        exact absurd h (by simp)

theorem claimTail_ownerInv (m2 : MatchState) (hi : OwnerInv m2) :
    OwnerInv (if m2.ball.ownerPlayerId = none then
      let cp := tryClaimBall m2
      let m2s := { cp.1 with possession := cp.2 }
      match cp.2.playerId with
      | some pid => { m2s with ball := { m2s.ball with ownerPlayerId := some pid } }
      | none => m2s
    else m2) := by
  dsimp only
  split_ifs with h1
  · rcases hp : (tryClaimBall m2).2.playerId with _ | pid
    · dsimp only
      exact ownFrame_ownerInv ⟨rfl, rfl⟩ (tryClaimBall_ownerInv m2 hi)
    · dsimp only
      have h2 := tryClaimBall_playerId m2 pid h1 hp
      exact ownFrame_ownerInv ⟨h2.symm, rfl⟩
        (ownFrame_ownerInv ⟨rfl, rfl⟩ (tryClaimBall_ownerInv m2 hi))
  · exact hi

theorem freeBallPhase_ownerInv {Vfx : Type} (trigV : EngineConfig → Vfx → String → Vfx)
    (dt : ℝ) (e : EngineState Vfx) (hfree : e.matchState.ball.ownerPlayerId = none)
    (hi : OwnerInv e.matchState) :
    OwnerInv (freeBallPhase trigV dt e).1.matchState := by
  unfold freeBallPhase
  dsimp only
  rcases (integrateFreeBall e.matchState e.config e.matchState.ball dt).2.scored
      with _ | _ <;>
    rcases (integrateFreeBall e.matchState e.config e.matchState.ball dt).2.scoringTeamId
      with _ | tid <;>
    dsimp only <;>
    try exact claimTail_ownerInv _ (tryImmediateBallPickup_ownerInv _
      (ownFrame_ownerInv (pushFreeBallByPlayers_ownframe _ e.config dt)
        (ownFrame_ownerInv (ballKeepOwner_ownframe e.matchState _
          (integrateFreeBall_owner e.matchState e.config e.matchState.ball dt)) hi)))
  refine resetToKickoff_ownerInv e.config _ ?_ ?_
  · show (resolveScoreSide
      { e.matchState with
          ball := (integrateFreeBall e.matchState e.config e.matchState.ball dt).1 }
      tid).ball.ownerPlayerId = none
    rw [resolveScoreSide_ball]
    exact (integrateFreeBall_owner e.matchState e.config e.matchState.ball dt).trans hfree
  · exact ownFrame_ownerInv ⟨rfl, rfl⟩
      (ownFrame_ownerInv (resolveScoreSide_ownframe _ tid)
        (ownFrame_ownerInv (ballKeepOwner_ownframe e.matchState _
          (integrateFreeBall_owner e.matchState e.config e.matchState.ball dt)) hi))

theorem stepSimMain_ownerInv {Vfx : Type} (trigV : EngineConfig → Vfx → String → Vfx)
    (rand : ℕ → ℝ) (e : EngineState Vfx) (input : InputSnapshot) (dtMs dt : ℝ)
    (hi : OwnerInv e.matchState) :
    OwnerInv (stepSimMain trigV rand e input dtMs dt).1.matchState := by
  rcases hr : stepSimMain trigV rand e input dtMs dt with ⟨res1, res2⟩
  dsimp only
  unfold stepSimMain at hr
  lift_lets at hr
  extract_lets e2 m0 prev ptid e3 c577 e4 e5 mc e6 e7 osid htid ctid hcid ccid e8 e9 s9 b9
    e10 e11 at hr
  have H7 : OwnerInv e7.matchState :=
    ownFrame_ownerInv (integrateControlledPhase_ownframe input dt c577 e6)
      (stepCpuAi_ownerInv e5.config e5.matchState dtMs e5.cpuAi rand
        (ownFrame_ownerInv (manualSwitchPhase_ownframe input _ e4)
          (ownFrame_ownerInv (autoSwitchPhase_ownframe e3)
            (ownFrame_ownerInv (possessionFollowPhase_ownframe e2) hi))))
  have H10 : OwnerInv e10.matchState :=
    ownFrame_ownerInv ⟨rfl, rfl⟩
      (ownFrame_ownerInv (npcIntegrateTeam_ownframe dt ctid false _ osid ccid true e8)
        (ownFrame_ownerInv (npcIntegrateTeam_ownframe dt htid true _ osid hcid false e7)
          H7))
  have H11 : OwnerInv e11.matchState := by
    show OwnerInv
      (if e10.matchState.ball.ownerPlayerId.isSome then ownedBallPhase input dtMs e10
        else e10).matchState
    split
    · exact ownedBallPhase_ownerInv input dtMs e10 H10
    · exact H10
  split at hr
  · rename_i hcond
    rcases hf : freeBallPhase trigV dt e11 with ⟨e12, ev⟩
    have hOB := freeBallPhase_ownerInv trigV dt e11 hcond H11
    rw [hf] at hOB hr
    rcases ev with _ | ev1
    · dsimp only at hr hOB
      rw [Prod.mk.injEq] at hr
      obtain ⟨h1, h2⟩ := hr
      subst h1
      exact ownFrame_ownerInv (gainedSwitchPhase_ownframe prev e12) hOB
    · dsimp only at hr hOB
      rw [Prod.mk.injEq] at hr
      obtain ⟨h1, h2⟩ := hr
      subst h1
      exact hOB
  · rw [Prod.mk.injEq] at hr
    obtain ⟨h1, h2⟩ := hr
    subst h1
    exact ownFrame_ownerInv (gainedSwitchPhase_ownframe prev _)
      (ownFrame_ownerInv (maintainPossessionPhase_ownframe e11) H11)

theorem stepSimMain_ownerInv_of_eq {Vfx : Type}
    {trigV : EngineConfig → Vfx → String → Vfx} {rand : ℕ → ℝ} {E : EngineState Vfx}
    {input : InputSnapshot} {dtMs dt : ℝ} {r1 : EngineState Vfx} {r2 : List EngineEvent}
    (h : stepSimMain trigV rand E input dtMs dt = (r1, r2)) (hi : OwnerInv E.matchState) :
    OwnerInv r1.matchState := by
  have h2 := stepSimMain_ownerInv trigV rand E input dtMs dt hi
  rw [h] at h2
  exact h2

theorem stepSim_ownerInv {Vfx : Type} (stepV : EngineConfig → Vfx → ℝ → Vfx)
    (trigV : EngineConfig → Vfx → String → Vfx) (rand : ℕ → ℝ) (e : EngineState Vfx)
    (input : InputSnapshot) (dtMs : ℝ) (hi : OwnerInv e.matchState) :
    OwnerInv (stepSim stepV trigV rand e input dtMs).1.matchState := by
  rcases hr : stepSim stepV trigV rand e input dtMs with ⟨r1, r2⟩
  dsimp only
  unfold stepSim at hr
  dsimp only at hr
  by_cases hph : e.matchState.clock.phase = Phase.FULL_TIME
  · rw [if_pos hph] at hr
    rw [Prod.mk.injEq] at hr
    obtain ⟨h1, h2⟩ := hr
    subst h1
    exact hi
  · rw [if_neg hph] at hr
    by_cases hhold : e.kickoffHoldMs > 0
    · rw [if_pos hhold] at hr
      rw [Prod.mk.injEq] at hr
      obtain ⟨h1, h2⟩ := hr
      subst h1
      split
      · exact hi
      · exact hi
    · rw [if_neg hhold] at hr
      by_cases haw : e.kickoffAwaitInput = true
      · rw [if_pos haw] at hr
        rw [Prod.mk.injEq] at hr
        obtain ⟨h1, h2⟩ := hr
        subst h1
        split
        · exact ownFrame_ownerInv ⟨rfl, rfl⟩ hi
        · exact hi
      · rw [if_neg haw] at hr
        by_cases hreach : min e.matchState.clock.msTotal
            (e.matchState.clock.msElapsed + dtMs) ≥ e.matchState.clock.msTotal
        · rw [if_pos hreach] at hr
          rw [Prod.mk.injEq] at hr
          obtain ⟨h1, h2⟩ := hr
          subst h1
          exact ownFrame_ownerInv ⟨rfl, rfl⟩ hi
        · rw [if_neg hreach] at hr
          exact stepSimMain_ownerInv_of_eq hr (ownFrame_ownerInv ⟨rfl, rfl⟩ hi)

theorem ownedBallPhase_dangling {Vfx : Type} (input : InputSnapshot) (dtMs : ℝ)
    (e : EngineState Vfx) (oid : String)
    (ho : e.matchState.ball.ownerPlayerId = some oid)
    (hl : lookupPlayer e.matchState oid = none) :
    (ownedBallPhase input dtMs e).matchState.ball.ownerPlayerId = none := by
  unfold ownedBallPhase
  rw [ho]
  dsimp only
  rw [hl]

/-- C1: ball ownership is exactly owned-or-free.  Under the ownership
invariant, every operation that can change ownership — `setBallOwner` (for
a stored player), `tryClaimBall`, `tryImmediateBallPickup`,
`tryStealOwnedBallByBallContact`, `releaseBallWithKick` (by the current
owner) and a whole `stepSim` tick — preserves it; the invariant forces any
two ball-holding players to share their id (at most one holder in an
id-keyed store) and a recorded owner to resolve to an existing player who
holds the ball; and the owned-ball branch frees the ball whenever the
recorded owner id does not resolve to an existing player. -/
theorem ball_ownership_invariant {Vfx : Type}
    (stepV : EngineConfig → Vfx → ℝ → Vfx) (trigV : EngineConfig → Vfx → String → Vfx)
    (rand : ℕ → ℝ) (e eDangling : EngineState Vfx) (input : InputSnapshot) (dtMs : ℝ)
    (m : MatchState) (p kicker : Player) (dir : Vec2) (speed : ℝ)
    (hi : OwnerInv m) (hp : p ∈ m.playersById)
    (hk : m.ball.ownerPlayerId = some kicker.id)
    (he : OwnerInv e.matchState) :
    OwnerInv (setBallOwner m p) ∧
      OwnerInv (tryClaimBall m).1 ∧
      OwnerInv (tryImmediateBallPickup m).1 ∧
      OwnerInv (tryStealOwnedBallByBallContact m).1 ∧
      OwnerInv (releaseBallWithKick m kicker dir speed) ∧
      OwnerInv (stepSim stepV trigV rand e input dtMs).1.matchState ∧
      (∀ q ∈ m.playersById, ∀ r ∈ m.playersById,
        q.hasBall = true → r.hasBall = true → q.id = r.id) ∧
      (∀ k, m.ball.ownerPlayerId = some k →
        ∃ q ∈ m.playersById, q.id = k ∧ q.hasBall = true) ∧
      (∀ oid, eDangling.matchState.ball.ownerPlayerId = some oid →
        lookupPlayer eDangling.matchState oid = none →
        (ownedBallPhase input dtMs eDangling).matchState.ball.ownerPlayerId = none) := by
  refine ⟨setBallOwner_ownerInv m p ⟨p, hp, rfl⟩,
    tryClaimBall_ownerInv m hi,
    tryImmediateBallPickup_ownerInv m hi,
    tryStealOwnedBallByBallContact_ownerInv m hi,
    releaseBallWithKick_ownerInv m kicker dir speed hk hi,
    stepSim_ownerInv stepV trigV rand e input dtMs he,
    ?_, ?_, fun oid ho hl => ownedBallPhase_dangling input dtMs eDangling oid ho hl⟩
  · intro q hq r hr hqb hrb
    have h1 := (hi.1 q hq).mp hqb
    have h2 := (hi.1 r hr).mp hrb
    rw [h1] at h2
    exact Option.some.inj h2
  · intro k hkk
    obtain ⟨q, hq, hqid⟩ := hi.2 k hkk
    refine ⟨q, hq, hqid, ?_⟩
    refine (hi.1 q hq).mpr ?_
    rw [hkk, hqid]

/-- Closed instance of the C1 theorem on a one-player owned-ball state. -/
theorem ball_ownership_invariant_witness :
    OwnerInv (setBallOwner c1match c1player) ∧
      OwnerInv (tryClaimBall c1match).1 ∧
      OwnerInv (tryImmediateBallPickup c1match).1 ∧
      OwnerInv (tryStealOwnedBallByBallContact c1match).1 ∧
      OwnerInv (releaseBallWithKick c1match c1player ⟨1, 0⟩ 0) ∧
      OwnerInv (stepSim idStepV idTrigV zeroRand c1engine noInput 16).1.matchState ∧
      (∀ q ∈ c1match.playersById, ∀ r ∈ c1match.playersById,
        q.hasBall = true → r.hasBall = true → q.id = r.id) ∧
      (∀ k, c1match.ball.ownerPlayerId = some k →
        ∃ q ∈ c1match.playersById, q.id = k ∧ q.hasBall = true) ∧
      (∀ oid, c1engine.matchState.ball.ownerPlayerId = some oid →
        lookupPlayer c1engine.matchState oid = none →
        (ownedBallPhase noInput 16 c1engine).matchState.ball.ownerPlayerId = none) := by
  have hi : OwnerInv c1match := by
    constructor
    · intro p hp
      simp only [c1match, mkMatch, List.mem_singleton] at hp
      subst hp
      constructor
      · intro _
        rfl
      · intro _
        rfl
    · intro k hk
      have hk2 : some "kilo:p3" = some k := hk
      refine ⟨c1player, ?_, Option.some.inj hk2⟩
      simp [c1match, mkMatch]
  exact ball_ownership_invariant idStepV idTrigV zeroRand c1engine c1engine noInput 16
    c1match c1player c1player ⟨1, 0⟩ 0 hi (by simp [c1match, mkMatch]) rfl hi

theorem stepSim_snap_stage1 (r : Role) :
    stepSim idStepV idTrigV zeroRand (snapEngine r) snapInput 16 =
      stepSimMain idTrigV zeroRand (snapE1 r) snapInput 16 (16 / 1000) := by
  unfold stepSim
  dsimp only
  rw [if_neg (show ¬((snapEngine r).matchState.clock.phase = Phase.FULL_TIME) from by
    simp [snapEngine, mkEngine, snapMatch, mkMatch])]
  rw [if_neg (show ¬((snapEngine r).kickoffHoldMs > 0) from by
    simp [snapEngine, mkEngine])]
  rw [if_neg (show ¬((snapEngine r).kickoffAwaitInput = true) from by
    simp [snapEngine, mkEngine])]
  rw [if_neg (show ¬(min (snapEngine r).matchState.clock.msTotal
      ((snapEngine r).matchState.clock.msElapsed + 16) ≥
        (snapEngine r).matchState.clock.msTotal) from by
    simp [snapEngine, mkEngine, snapMatch, mkMatch]
    norm_num)]
  congr 1
  simp [snapEngine, mkEngine, snapE1, snapM1, snapMatch, mkMatch]
  norm_num [min_def]

set_option maxHeartbeats 1000000 in
theorem stepSim_snap_main (r : Role) :
    stepSimMain idTrigV zeroRand (snapE1 r) snapInput 16 (16 / 1000) =
      (snapE13 r, []) := by
  rcases hr : stepSimMain idTrigV zeroRand (snapE1 r) snapInput 16 (16 / 1000)
    with ⟨r1, r2⟩
  unfold stepSimMain at hr
  lift_lets at hr
  extract_lets e2 m0 prev ptid e3 c577 e4 e5 mc e6 e7 osid htid ctid hcid ccid e8 e9 s9 b9
    e10 e11 at hr
  have h2 : e2 = snapE2 r := by
    show ({ snapE1 r with
      switchCooldownMs := max 0 ((snapE1 r).switchCooldownMs - 16),
      stealCooldownMs := max 0 ((snapE1 r).stealCooldownMs - 16) } : EngineState Unit) =
        snapE2 r
    simp [snapE2, snapE1, snapEngine, mkEngine]
    norm_num [max_def]
  have hm0 : m0 = snapM1 r := by
    show e2.matchState = snapM1 r
    rw [h2]
    rfl
  have hprev : prev = some "kilo" := by
    show (m0.ball.ownerPlayerId.bind (lookupPlayer m0)).map (fun p => p.teamId) =
      some "kilo"
    rw [hm0]
    simp [snapM1, snapMatch, mkMatch, lookupPlayer, snapBall, mkBallFree, snapP2, snapP3,
      mkPlayer]
  have h3 : e3 = snapE3 r := by
    show possessionFollowPhase e2 = snapE3 r
    rw [h2]
    simp [possessionFollowPhase, lookupPlayer, snapE3, snapE2, snapE1, snapEngine,
      mkEngine, snapM3, snapM1, snapMatch, mkMatch, snapBall, mkBallFree, snapP2, snapP3,
      mkPlayer]
  have hc : c577 = "kilo:p2" := by
    show e3.matchState.controlledPlayerId = "kilo:p2"
    rw [h3]
    rfl
  have h4 : e4 = snapE3 r := by
    show autoSwitchPhase e3 = snapE3 r
    rw [h3]
    simp [autoSwitchPhase, snapE3, snapM3, snapM1, snapMatch, mkMatch, snapBall,
      mkBallFree]
  have h5 : e5 = snapE3 r := by
    show manualSwitchPhase snapInput (controlledHasBallProp e3.matchState c577) e4 =
      snapE3 r
    rw [h4]
    simp [manualSwitchPhase, snapInput, noInput]
  have hmc : mc = (snapM3 r, ⟨0, 0, none⟩) := by
    show stepCpuAi e5.config e5.matchState 16 e5.cpuAi zeroRand = (snapM3 r, ⟨0, 0, none⟩)
    rw [h5]
    simp [stepCpuAi, lookupTeam, snapE3, snapEngine, mkEngine, snapM3, snapM1, snapMatch,
      mkMatch]
  have h6 : e6 = snapE3 r := by
    show ({ e5 with matchState := mc.1, cpuAi := mc.2 } : EngineState Unit) = snapE3 r
    rw [h5, hmc]
    simp [snapE3, snapEngine, mkEngine]
  have h7 : e7 = snapE3 r := by
    show integrateControlledPhase snapInput (16 / 1000) c577 e6 = snapE3 r
    rw [h6, hc]
    simp [integrateControlledPhase, lookupPlayer, updatePlayer, integratePlayer,
      containPlayerInPitch, V.norm, V.len_zero, V.mul, V.sub, V.len, V.lenSq, V.clampLen,
      clamp, snapE3, snapEngine, mkEngine, snapM3, snapM1, snapMatch, mkMatch, snapP2,
      snapP3, mkPlayer, snapInput, noInput, DEFAULT_ENGINE_CONFIG, SPRINT_MULT]
    norm_num [min_def, max_def, Real.sqrt_zero, PLAYER_RADIUS]
  have h8 : e8 = snapE3 r := by
    show npcIntegrateTeam (16 / 1000) htid true (decide (ptid = some htid)) osid hcid
      false e7 = snapE3 r
    rw [h7]
    simp [npcIntegrateTeam, lookupTeam, snapE3, snapM3, snapM1, snapMatch, mkMatch]
  have h9 : e9 = snapE3 r := by
    show npcIntegrateTeam (16 / 1000) ctid false (decide (ptid = some ctid)) osid ccid
      true e8 = snapE3 r
    rw [h8]
    simp [npcIntegrateTeam, lookupTeam, snapE3, snapM3, snapM1, snapMatch, mkMatch]
  have hs9 : s9 = snapM3 r := by
    show e9.matchState = snapM3 r
    rw [h9]
    rfl
  have hb9 : b9 = snapBall := by
    show s9.ball = snapBall
    rw [hs9]
    rfl
  have h10 : e10 = snapE3 r := by
    show ({ e9 with matchState := { s9 with ball :=
      { b9 with kickNoPickupMs := max 0 (e9.matchState.ball.kickNoPickupMs - 16) } } } :
        EngineState Unit) = snapE3 r
    rw [h9, hs9, hb9]
    simp [snapE3, snapEngine, mkEngine, snapM3, snapM1, snapMatch, mkMatch, snapBall,
      mkBallFree]
  have h11 : e11 = snapE13 r := by
    show (if e10.matchState.ball.ownerPlayerId.isSome = true then
        ownedBallPhase snapInput 16 e10 else e10) = snapE13 r
    rw [h10]
    simp [ownedBallPhase, stealResolvePhase, gkFollowPhase, kickOrClearPhase,
      humanKickSection, attachPhase, attachBallToOwner, lookupPlayer, PLAYER_RADIUS,
      snapE13, snapE3, snapEngine, mkEngine, snapM13, snapM3, snapM1, snapMatch, mkMatch,
      snapBall, snapBallA, mkBallFree, snapP2, snapP3, mkPlayer, snapInput, noInput,
      SHOOT_CHARGE_FULL_MS, ACTION_CHARGE_FULL_MS, Real.cos_zero, Real.sin_zero,
      (show ¬((984:ℝ) ≤ 0) from by norm_num),
      (show min (650:ℝ) (300 + 16) = 316 from by norm_num [min_def])]
    norm_num
  rw [h11, hprev] at hr
  rw [if_neg (show ¬((snapE13 r).matchState.ball.ownerPlayerId = none) from by
    simp [snapE13, snapM13, snapM3, snapM1, snapMatch, mkMatch, snapBallA, snapBall,
      mkBallFree])] at hr
  have hmaint : maintainPossessionPhase (snapE13 r) = snapE13 r := by
    simp [maintainPossessionPhase, lookupPlayer, snapE13, snapM13, snapM3, snapM1,
      snapMatch, mkMatch, snapBallA, snapBall, mkBallFree, snapP2, snapP3, mkPlayer]
  have hgain : gainedSwitchPhase (some "kilo") (maintainPossessionPhase (snapE13 r)) =
      snapE13 r := by
    rw [hmaint]
    simp [gainedSwitchPhase, lookupPlayer, snapE13, snapM13, snapM3, snapM1, snapMatch,
      mkMatch, snapBallA, snapBall, mkBallFree, snapP2, snapP3, mkPlayer]
  rw [hgain] at hr
  exact hr.symm

theorem stepSim_snap (r : Role) :
    stepSim idStepV idTrigV zeroRand (snapEngine r) snapInput 16 = (snapE13 r, []) :=
  (stepSim_snap_stage1 r).trans (stepSim_snap_main r)

theorem trySteal_cases (m : MatchState) :
    tryStealOwnedBallByBallContact m = (m, none) ∨
      (tryStealOwnedBallByBallContact m).2.isSome = true := by
  unfold tryStealOwnedBallByBallContact
  rcases m.ball.ownerPlayerId with _ | oid
  · exact Or.inl rfl
  · dsimp only
    rcases lookupPlayer m oid with _ | owner
    · exact Or.inl rfl
    · dsimp only
      rcases stealScan m.ball owner.id m.playersById with _ | ⟨best, bd⟩
      · exact Or.inl rfl
      · exact Or.inr rfl

theorem trySteal_none (m : MatchState)
    (h : (tryStealOwnedBallByBallContact m).2 = none) :
    (tryStealOwnedBallByBallContact m).1 = m := by
  rcases trySteal_cases m with he | hs
  · rw [he]
  · rw [h] at hs
    simp at hs

theorem stealResolvePhase_charges {Vfx : Type} (e : EngineState Vfx)
    (h : (stealResolvePhase e).matchState.ball.ownerPlayerId ≠
      e.matchState.ball.ownerPlayerId) :
    (stealResolvePhase e).actionChargeMs = 0 ∧ (stealResolvePhase e).shootChargeMs = 0 ∧
      (stealResolvePhase e).stealCooldownMs = 650 := by
  unfold stealResolvePhase at h ⊢
  dsimp only at h ⊢
  by_cases hc : e.stealCooldownMs ≤ 0
  · rw [if_pos hc] at h ⊢
    rcases hsr : (tryStealOwnedBallByBallContact e.matchState).2 with _ | sid
    · rw [hsr] at h
      dsimp only at h ⊢
      rw [trySteal_none e.matchState hsr] at h
      exact absurd rfl h
    · exact ⟨rfl, rfl, rfl⟩
  · rw [if_neg hc] at h ⊢
    dsimp only at h ⊢
    exact absurd rfl h

theorem humanKickSection_release_charges {Vfx : Type} (input : InputSnapshot) (dtMs : ℝ)
    (co : Player) (e : EngineState Vfx)
    (h : input.actionReleased = true ∨ input.shootReleased = true) :
    (humanKickSection input dtMs co e).actionChargeMs = 0 ∧
      (humanKickSection input dtMs co e).shootChargeMs = 0 := by
  unfold humanKickSection
  dsimp only
  by_cases ha : input.actionReleased = true
  · rw [if_pos ha]
    exact ⟨rfl, rfl⟩
  · rw [if_neg ha]
    by_cases hs : input.shootReleased = true
    · rw [if_pos hs]
      exact ⟨rfl, rfl⟩
    · rcases h with h | h
      · exact absurd h ha
      · exact absurd h hs

theorem switch_charges_of_dis {Vfx : Type} {e f : EngineState Vfx}
    (hd : f = e ∨ (f.actionChargeMs = 0 ∧ f.shootChargeMs = e.shootChargeMs))
    (h : f.matchState.controlledPlayerId ≠ e.matchState.controlledPlayerId) :
    f.actionChargeMs = 0 ∧ f.shootChargeMs = e.shootChargeMs := by
  rcases hd with he | hc
  · exact absurd (congrArg (fun x => x.matchState.controlledPlayerId) he) h
  · exact hc

theorem possessionFollow_dis {Vfx : Type} (e : EngineState Vfx) :
    possessionFollowPhase e = e ∨
      ((possessionFollowPhase e).actionChargeMs = 0 ∧
        (possessionFollowPhase e).shootChargeMs = e.shootChargeMs) := by
  unfold possessionFollowPhase
  dsimp only
  rcases e.matchState.ball.ownerPlayerId.bind (lookupPlayer e.matchState) with _ | op
  · exact Or.inl rfl
  · dsimp only
    split_ifs with h
    · exact Or.inr ⟨rfl, rfl⟩
    · exact Or.inl rfl

theorem autoSwitchNearest_dis {Vfx : Type} (e : EngineState Vfx) :
    autoSwitchNearest e = e ∨
      ((autoSwitchNearest e).actionChargeMs = 0 ∧
        (autoSwitchNearest e).shootChargeMs = e.shootChargeMs) := by
  unfold autoSwitchNearest
  dsimp only
  split_ifs with h
  · exact Or.inr ⟨rfl, rfl⟩
  · exact Or.inl rfl

theorem autoSwitch_dis {Vfx : Type} (e : EngineState Vfx) :
    autoSwitchPhase e = e ∨
      ((autoSwitchPhase e).actionChargeMs = 0 ∧
        (autoSwitchPhase e).shootChargeMs = e.shootChargeMs) := by
  unfold autoSwitchPhase
  dsimp only
  by_cases h1 : e.matchState.ball.ownerPlayerId = none ∧ e.switchCooldownMs ≤ 0
  · rw [if_pos h1]
    rcases getTeamGoalkeeper e.matchState e.matchState.humanTeamId with _ | g
    · exact autoSwitchNearest_dis e
    · dsimp only
      by_cases h2 : isDangerousShotTowardGoal e.matchState e.config e.matchState.humanTeamId
      · rw [if_pos h2]
        by_cases h3 : e.matchState.controlledPlayerId ≠ g.id
        · rw [if_pos h3]
          exact Or.inr ⟨rfl, rfl⟩
        · rw [if_neg h3]
          exact Or.inl rfl
      · rw [if_neg h2]
        exact autoSwitchNearest_dis e
  · rw [if_neg h1]
    exact Or.inl rfl

theorem manualSwitch_dis {Vfx : Type} (input : InputSnapshot) (P : Prop) [Decidable P]
    (e : EngineState Vfx) :
    manualSwitchPhase input P e = e ∨
      ((manualSwitchPhase input P e).actionChargeMs = 0 ∧
        (manualSwitchPhase input P e).shootChargeMs = e.shootChargeMs) := by
  unfold manualSwitchPhase
  dsimp only
  split_ifs with h
  · exact Or.inr ⟨rfl, rfl⟩
  · exact Or.inl rfl

theorem gkFollow_dis {Vfx : Type} (co : Player) (e : EngineState Vfx) :
    gkFollowPhase (some co) e = e ∨
      ((gkFollowPhase (some co) e).actionChargeMs = 0 ∧
        (gkFollowPhase (some co) e).shootChargeMs = e.shootChargeMs) := by
  unfold gkFollowPhase
  dsimp only
  split_ifs with h
  · exact Or.inr ⟨rfl, rfl⟩
  · exact Or.inl rfl

theorem gainedSwitch_dis {Vfx : Type} (prev : Option String) (e : EngineState Vfx) :
    gainedSwitchPhase prev e = e ∨
      ((gainedSwitchPhase prev e).actionChargeMs = 0 ∧
        (gainedSwitchPhase prev e).shootChargeMs = e.shootChargeMs) := by
  unfold gainedSwitchPhase
  dsimp only
  rcases e.matchState.ball.ownerPlayerId.bind (lookupPlayer e.matchState) with _ | nw
  · exact Or.inl rfl
  · dsimp only
    split_ifs with h
    · exact Or.inr ⟨rfl, rfl⟩
    · exact Or.inl rfl

/-- **C8 counterexample.**  One tick of `stepSim` on the possession-follow
snap scenario (a defender owns the ball, a midfielder is controlled, 300 ms
of shoot charge is banked and the shoot button is held): control passes to
a different player, yet the shoot charge is not cleared — it keeps
accumulating to 316 ms and survives the control change, so a charge
accumulated under one controlled player can fire under another. -/
theorem charge_reset_on_switch_cex :
    (snapEngine Role.DF).shootChargeMs = 300 ∧
    (stepSim idStepV idTrigV zeroRand (snapEngine Role.DF)
        snapInput 16).1.matchState.controlledPlayerId ≠
      (snapEngine Role.DF).matchState.controlledPlayerId ∧
    (stepSim idStepV idTrigV zeroRand (snapEngine Role.DF) snapInput 16).1.shootChargeMs =
      316 := by
  rw [stepSim_snap Role.DF]
  refine ⟨rfl, ?_, rfl⟩
  simp [snapE13, snapE3, snapEngine, mkEngine, snapM13, snapM3, snapM1, snapMatch, mkMatch]

/-- **C8 (amended).**  When control passes to a different player — via
possession-follow, the loose-ball auto-switch, the manual defensive
switch, the goalkeeper-possession follow, or the gained-possession switch
— only the pass/action charge is cleared; the shoot charge is preserved
unchanged by the switch itself.  Both charges are cleared together exactly
when a steal transfers the ball (which also arms the 650 ms steal
cooldown) and on a pass or shoot release edge in the human kick
section. -/
theorem charge_reset_on_switch_amended {Vfx : Type} (e : EngineState Vfx)
    (input : InputSnapshot) (dtMs : ℝ) (cid : String) (prev : Option String) (co : Player) :
    ((possessionFollowPhase e).matchState.controlledPlayerId ≠
        e.matchState.controlledPlayerId →
      (possessionFollowPhase e).actionChargeMs = 0 ∧
        (possessionFollowPhase e).shootChargeMs = e.shootChargeMs) ∧
    ((autoSwitchPhase e).matchState.controlledPlayerId ≠ e.matchState.controlledPlayerId →
      (autoSwitchPhase e).actionChargeMs = 0 ∧
        (autoSwitchPhase e).shootChargeMs = e.shootChargeMs) ∧
    ((manualSwitchPhase input (controlledHasBallProp e.matchState cid)
          e).matchState.controlledPlayerId ≠ e.matchState.controlledPlayerId →
      (manualSwitchPhase input (controlledHasBallProp e.matchState cid) e).actionChargeMs =
          0 ∧
        (manualSwitchPhase input (controlledHasBallProp e.matchState cid)
            e).shootChargeMs = e.shootChargeMs) ∧
    ((gkFollowPhase (some co) e).matchState.controlledPlayerId ≠
        e.matchState.controlledPlayerId →
      (gkFollowPhase (some co) e).actionChargeMs = 0 ∧
        (gkFollowPhase (some co) e).shootChargeMs = e.shootChargeMs) ∧
    ((gainedSwitchPhase prev e).matchState.controlledPlayerId ≠
        e.matchState.controlledPlayerId →
      (gainedSwitchPhase prev e).actionChargeMs = 0 ∧
        (gainedSwitchPhase prev e).shootChargeMs = e.shootChargeMs) ∧
    ((stealResolvePhase e).matchState.ball.ownerPlayerId ≠
        e.matchState.ball.ownerPlayerId →
      (stealResolvePhase e).actionChargeMs = 0 ∧ (stealResolvePhase e).shootChargeMs = 0 ∧
        (stealResolvePhase e).stealCooldownMs = 650) ∧
    (input.actionReleased = true ∨ input.shootReleased = true →
      (humanKickSection input dtMs co e).actionChargeMs = 0 ∧
        (humanKickSection input dtMs co e).shootChargeMs = 0) :=
  ⟨fun h => switch_charges_of_dis (possessionFollow_dis e) h,
   fun h => switch_charges_of_dis (autoSwitch_dis e) h,
   fun h => switch_charges_of_dis (manualSwitch_dis input _ e) h,
   fun h => switch_charges_of_dis (gkFollow_dis co e) h,
   fun h => switch_charges_of_dis (gainedSwitch_dis prev e) h,
   fun h => stealResolvePhase_charges e h,
   fun h => humanKickSection_release_charges input dtMs co e h⟩

theorem getTeamPlayers_mem (m : MatchState) (tid : String) (p : Player)
    (h : p ∈ getTeamPlayers m tid) : p ∈ m.playersById := by
  unfold getTeamPlayers at h
  rcases ht : lookupTeam m tid with _ | t
  · rw [ht] at h
    simp at h
  · rw [ht] at h
    dsimp only at h
    obtain ⟨pid, hpid, hl⟩ := List.mem_filterMap.mp h
    unfold lookupPlayer at hl
    exact List.mem_of_find?_eq_some hl

theorem pickBestSwitchCandidate_spec (m : MatchState) (tid cur : String) :
    pickBestSwitchCandidate m tid cur = cur ∨
      ∃ p ∈ m.playersById, p.id = pickBestSwitchCandidate m tid cur ∧ p.role ≠ Role.GK := by
  unfold pickBestSwitchCandidate
  dsimp only
  refine foldl_preserve_mem _
    (fun b : String × Option ℝ =>
      b.1 = cur ∨ ∃ p ∈ m.playersById, p.id = b.1 ∧ p.role ≠ Role.GK)
    (getTeamPlayers m tid) (cur, none) (Or.inl rfl) ?_
  intro b p hp hb
  dsimp only
  by_cases hgk : p.role = Role.GK
  · rw [if_pos hgk]
    exact hb
  · rw [if_neg hgk]
    rcases b with ⟨bid, _ | bd⟩
    · exact Or.inr ⟨p, getTeamPlayers_mem m tid p hp, rfl, hgk⟩
    · dsimp only
      split_ifs with hd
      · exact Or.inr ⟨p, getTeamPlayers_mem m tid p hp, rfl, hgk⟩
      · exact hb

theorem pickDefensiveSwitchCandidate_spec (m : MatchState) (tid cur : String)
    (aimDir : Vec2) :
    pickDefensiveSwitchCandidate m tid cur aimDir = cur ∨
      ∃ p ∈ m.playersById, p.id = pickDefensiveSwitchCandidate m tid cur aimDir ∧
        p.role ≠ Role.GK := by
  unfold pickDefensiveSwitchCandidate
  dsimp only
  split_ifs with h1 h2
  · exact pickBestSwitchCandidate_spec m tid cur
  · refine foldl_preserve_mem _
      (fun b : String × Option ℝ =>
        b.1 = cur ∨ ∃ p ∈ m.playersById, p.id = b.1 ∧ p.role ≠ Role.GK)
      (getTeamPlayers m tid) (cur, none) (Or.inl rfl) ?_
    intro b p hp hb
    dsimp only
    by_cases hgk : p.role = Role.GK
    · rw [if_pos hgk]
      exact hb
    · rw [if_neg hgk]
      by_cases hcos : V.dot (V.norm (V.sub p.pos m.ball.pos)) (V.norm aimDir) < 0.35
      · rw [if_pos hcos]
        exact hb
      · rw [if_neg hcos]
        rcases b with ⟨bid, _ | bd⟩
        · exact Or.inr ⟨p, getTeamPlayers_mem m tid p hp, rfl, hgk⟩
        · dsimp only
          split_ifs with hd
          · exact Or.inr ⟨p, getTeamPlayers_mem m tid p hp, rfl, hgk⟩
          · exact hb
  · exact pickBestSwitchCandidate_spec m tid cur

theorem autoSwitchNearest_target {Vfx : Type} (e : EngineState Vfx) :
    (autoSwitchNearest e).matchState.controlledPlayerId =
        e.matchState.controlledPlayerId ∨
      ∃ p ∈ e.matchState.playersById,
        p.id = (autoSwitchNearest e).matchState.controlledPlayerId ∧ p.role ≠ Role.GK := by
  unfold autoSwitchNearest
  dsimp only
  split_ifs with h
  · exact pickBestSwitchCandidate_spec e.matchState e.matchState.humanTeamId
      e.matchState.controlledPlayerId
  · exact Or.inl rfl

theorem autoSwitchPhase_target {Vfx : Type} (e : EngineState Vfx)
    (hnd : ¬ isDangerousShotTowardGoal e.matchState e.config e.matchState.humanTeamId) :
    (autoSwitchPhase e).matchState.controlledPlayerId = e.matchState.controlledPlayerId ∨
      ∃ p ∈ e.matchState.playersById,
        p.id = (autoSwitchPhase e).matchState.controlledPlayerId ∧ p.role ≠ Role.GK := by
  unfold autoSwitchPhase
  dsimp only
  by_cases h1 : e.matchState.ball.ownerPlayerId = none ∧ e.switchCooldownMs ≤ 0
  · rw [if_pos h1]
    rcases getTeamGoalkeeper e.matchState e.matchState.humanTeamId with _ | g
    · exact autoSwitchNearest_target e
    · dsimp only
      rw [if_neg hnd]
      exact autoSwitchNearest_target e
  · rw [if_neg h1]
    exact Or.inl rfl

theorem manualSwitchPhase_target {Vfx : Type} (input : InputSnapshot) (P : Prop)
    [Decidable P] (e : EngineState Vfx) :
    (manualSwitchPhase input P e).matchState.controlledPlayerId =
        e.matchState.controlledPlayerId ∨
      ∃ p ∈ e.matchState.playersById,
        p.id = (manualSwitchPhase input P e).matchState.controlledPlayerId ∧
          p.role ≠ Role.GK := by
  unfold manualSwitchPhase
  dsimp only
  split_ifs with h
  · exact pickDefensiveSwitchCandidate_spec e.matchState e.matchState.humanTeamId
      e.matchState.controlledPlayerId input.moveVec
  · exact Or.inl rfl

theorem possessionFollowPhase_target {Vfx : Type} (e : EngineState Vfx) :
    (possessionFollowPhase e).matchState.controlledPlayerId =
        e.matchState.controlledPlayerId ∨
      (e.matchState.ball.ownerPlayerId.bind (lookupPlayer e.matchState)).map Player.id =
        some (possessionFollowPhase e).matchState.controlledPlayerId := by
  unfold possessionFollowPhase
  dsimp only
  rcases e.matchState.ball.ownerPlayerId.bind (lookupPlayer e.matchState) with _ | op
  · exact Or.inl rfl
  · dsimp only
    split_ifs with h
    · exact Or.inr rfl
    · exact Or.inl rfl

theorem gainedSwitchPhase_target {Vfx : Type} (prev : Option String)
    (e : EngineState Vfx) :
    (gainedSwitchPhase prev e).matchState.controlledPlayerId =
        e.matchState.controlledPlayerId ∨
      (e.matchState.ball.ownerPlayerId.bind (lookupPlayer e.matchState)).map Player.id =
        some (gainedSwitchPhase prev e).matchState.controlledPlayerId := by
  unfold gainedSwitchPhase
  dsimp only
  rcases e.matchState.ball.ownerPlayerId.bind (lookupPlayer e.matchState) with _ | nw
  · exact Or.inl rfl
  · dsimp only
    split_ifs with h
    · exact Or.inr rfl
    · exact Or.inl rfl

theorem gkFollowPhase_target {Vfx : Type} (co : Player) (e : EngineState Vfx) :
    (gkFollowPhase (some co) e).matchState.controlledPlayerId =
        e.matchState.controlledPlayerId ∨
      ((gkFollowPhase (some co) e).matchState.controlledPlayerId = co.id ∧
        co.role = Role.GK) := by
  unfold gkFollowPhase
  dsimp only
  split_ifs with h
  · exact Or.inr ⟨rfl, h.2.1⟩
  · exact Or.inl rfl

/-- **C9 counterexample.**  One tick of `stepSim` on the snap scenario with
a goalkeeper ball owner: the pre-state's controlled player is the
midfielder `kilo:p3` (not a goalkeeper), but possession-follow snaps
control to the ball-owning goalkeeper `kilo:p2` unconditionally, and in
the resulting state no shot is imminently dangerous (the ball is owned,
not free), so the controlled player is a goalkeeper without a dangerous
shot. -/
theorem controlled_gk_cex :
    (snapEngine Role.GK).matchState.controlledPlayerId = "kilo:p3" ∧
    (∀ p ∈ (snapEngine Role.GK).matchState.playersById,
      p.id = "kilo:p3" → p.role ≠ Role.GK) ∧
    (stepSim idStepV idTrigV zeroRand (snapEngine Role.GK)
        snapInput 16).1.matchState.controlledPlayerId = "kilo:p2" ∧
    (∃ p ∈ (stepSim idStepV idTrigV zeroRand (snapEngine Role.GK)
        snapInput 16).1.matchState.playersById,
      p.id = "kilo:p2" ∧ p.role = Role.GK) ∧
    ¬ isDangerousShotTowardGoal
        (stepSim idStepV idTrigV zeroRand (snapEngine Role.GK) snapInput 16).1.matchState
        (stepSim idStepV idTrigV zeroRand (snapEngine Role.GK) snapInput 16).1.config
        (stepSim idStepV idTrigV zeroRand (snapEngine Role.GK)
          snapInput 16).1.matchState.humanTeamId := by
  rw [stepSim_snap Role.GK]
  refine ⟨rfl, ?_, rfl, ⟨snapP2 Role.GK, ?_, rfl, rfl⟩, ?_⟩
  · intro p hp hpid
    have hp2 : p = snapP2 Role.GK ∨ p = snapP3 := by
      simpa [snapEngine, mkEngine, snapMatch, mkMatch] using hp
    rcases hp2 with rfl | rfl
    · exact absurd hpid (by simp [snapP2, mkPlayer])
    · simp [snapP3, mkPlayer]
  · simp [snapE13, snapE3, snapEngine, mkEngine, snapM13, snapM3, snapM1, snapMatch,
      mkMatch]
  · intro hd
    unfold isDangerousShotTowardGoal at hd
    exact absurd hd.1 (by simp [snapE13, snapE3, snapEngine, mkEngine, snapM13, snapM3,
      snapM1, snapMatch, mkMatch, snapBallA, snapBall, mkBallFree])

/-- **C9 (amended).**  The controlled player is a single id per match
state, so there is always exactly one controlled player.  The loose-ball
auto-switch (with its nearest-candidate selection), the dangerous-shot-free
auto-switch phase as a whole, and the manual defensive switch only ever
hand control to a non-goalkeeper teammate or keep the current id, and the
auto-switch hands control to the goalkeeper only on an imminently
dangerous shot; but the possession-follow, gained-possession, and
goalkeeper-possession switches snap control to the ball owner regardless
of role, so a ball-carrying goalkeeper does become the controlled
player. -/
theorem controlled_gk_amended {Vfx : Type} (e : EngineState Vfx) (input : InputSnapshot)
    (cid : String) (prev : Option String) (co : Player) :
    ((autoSwitchNearest e).matchState.controlledPlayerId =
        e.matchState.controlledPlayerId ∨
      ∃ p ∈ e.matchState.playersById,
        p.id = (autoSwitchNearest e).matchState.controlledPlayerId ∧
          p.role ≠ Role.GK) ∧
    (¬ isDangerousShotTowardGoal e.matchState e.config e.matchState.humanTeamId →
      (autoSwitchPhase e).matchState.controlledPlayerId =
          e.matchState.controlledPlayerId ∨
        ∃ p ∈ e.matchState.playersById,
          p.id = (autoSwitchPhase e).matchState.controlledPlayerId ∧
            p.role ≠ Role.GK) ∧
    ((manualSwitchPhase input (controlledHasBallProp e.matchState cid)
          e).matchState.controlledPlayerId = e.matchState.controlledPlayerId ∨
      ∃ p ∈ e.matchState.playersById,
        p.id = (manualSwitchPhase input (controlledHasBallProp e.matchState cid)
          e).matchState.controlledPlayerId ∧ p.role ≠ Role.GK) ∧
    ((possessionFollowPhase e).matchState.controlledPlayerId =
        e.matchState.controlledPlayerId ∨
      (e.matchState.ball.ownerPlayerId.bind (lookupPlayer e.matchState)).map Player.id =
        some (possessionFollowPhase e).matchState.controlledPlayerId) ∧
    ((gainedSwitchPhase prev e).matchState.controlledPlayerId =
        e.matchState.controlledPlayerId ∨
      (e.matchState.ball.ownerPlayerId.bind (lookupPlayer e.matchState)).map Player.id =
        some (gainedSwitchPhase prev e).matchState.controlledPlayerId) ∧
    ((gkFollowPhase (some co) e).matchState.controlledPlayerId =
        e.matchState.controlledPlayerId ∨
      ((gkFollowPhase (some co) e).matchState.controlledPlayerId = co.id ∧
        co.role = Role.GK)) :=
  ⟨autoSwitchNearest_target e, fun hnd => autoSwitchPhase_target e hnd,
   manualSwitchPhase_target input (controlledHasBallProp e.matchState cid) e,
   possessionFollowPhase_target e, gainedSwitchPhase_target prev e,
   gkFollowPhase_target co e⟩

/-- **C10.**  When the pass-release edge is set on a tick where the human
kick section runs, the pass takes precedence: the result is identical to
the same tick with the shoot release cleared (the shoot edge is ignored),
and the banked shoot charge has no effect on the outcome; the ball is
released (owner cleared, the kicker recorded as last kicker) and both
charge counters end at zero. -/
theorem pass_overrides_shoot {Vfx : Type} (input : InputSnapshot) (dtMs : ℝ) (co : Player)
    (e : EngineState Vfx) (ha : input.actionReleased = true) :
    humanKickSection input dtMs co e =
        humanKickSection { input with shootReleased := false } dtMs co e ∧
      humanKickSection input dtMs co { e with shootChargeMs := 0 } =
        humanKickSection input dtMs co e ∧
      (humanKickSection input dtMs co e).matchState.ball.ownerPlayerId = none ∧
      (humanKickSection input dtMs co e).matchState.ball.lastKickPlayerId = some co.id ∧
      (humanKickSection input dtMs co e).shootChargeMs = 0 ∧
      (humanKickSection input dtMs co e).actionChargeMs = 0 := by
  obtain ⟨mv, sp, ad, ap, arl, sd, srl, pp⟩ := input
  dsimp only at ha
  subst ha
  refine ⟨?_, ?_, rfl, rfl, rfl, rfl⟩
  · cases sd <;> cases srl <;> cases ad <;> rfl
  · cases sd <;> cases srl <;> cases ad <;> rfl

/-- Closed witness for the pass-precedence theorem: both release edges set
on one tick, a mid-charge engine, and the minimal ball-owning kicker. -/
theorem pass_overrides_shoot_witness :
    c10input.actionReleased = true ∧
      (humanKickSection c10input 16 c1player c10engine =
          humanKickSection { c10input with shootReleased := false } 16 c1player
            c10engine ∧
        humanKickSection c10input 16 c1player { c10engine with shootChargeMs := 0 } =
          humanKickSection c10input 16 c1player c10engine ∧
        (humanKickSection c10input 16 c1player
          c10engine).matchState.ball.ownerPlayerId = none ∧
        (humanKickSection c10input 16 c1player
          c10engine).matchState.ball.lastKickPlayerId = some c1player.id ∧
        (humanKickSection c10input 16 c1player c10engine).shootChargeMs = 0 ∧
        (humanKickSection c10input 16 c1player c10engine).actionChargeMs = 0) :=
  ⟨rfl, pass_overrides_shoot c10input 16 c1player c10engine rfl⟩

end

end Kilocup
